import Mathlib

/-!
# Nihility renderer: frame protocol and deferred destruction

A shallow embedding of `Engine/Rendering/Renderer.cpp` and
`Engine/Rendering/Swapchain.cpp`.  The static members of `class Renderer`
become the fields of the structure `Renderer`; every member function becomes a
function on that structure.  Vulkan itself is the environment: what a Vulkan
call returns is an input of the function that makes the call, and the calls
that change something on the device are appended to the field `calls`, in the
order in which the source issues them.
-/

namespace Nihility

/-! ## Vulkan vocabulary -/

/-- Vulkan handles are pointers; `0` is `VK_NULL_HANDLE` / `nullptr`. -/
abbrev Handle := Nat

/-- The C enum `VkResult`, by its numeric value. -/
abbrev VkResult := Int

def VK_SUCCESS : VkResult := 0
def VK_SUBOPTIMAL_KHR : VkResult := 1000001003
def VK_ERROR_OUT_OF_DATE_KHR : VkResult := -1000001004
def VK_ERROR_DEVICE_LOST : VkResult := -4

def VK_PRESENT_MODE_MAILBOX_KHR : Nat := 1
def VK_PRESENT_MODE_FIFO_KHR : Nat := 2
def VK_FORMAT_R8G8B8A8_SRGB : Nat := 43
def VK_FORMAT_B8G8R8A8_SRGB : Nat := 50
def VK_COLOR_SPACE_SRGB_NONLINEAR_KHR : Nat := 0

def U32_MAX : Nat := 4294967295
def U64_MAX : Nat := 18446744073709551615

/-- Wrap-around of a `U32` value. -/
def wrapU32 (n : Nat) : Nat := n % 4294967296

/-- Wrap-around of a `U64` value. -/
def wrapU64 (n : Nat) : Nat := n % 18446744073709551616

/-- The definitions of `VulkanDefines.hpp` that the renderer uses.  The header
is not among the sources, so they are parameters: the constant
`MaxSwapchainImages`, and the test shared by the `VkValidate*` macros, `true`
when the checked result is accepted.  On a rejected result `VkValidateR` and
`VkValidateFR` make the enclosing function return `false`, `VkValidateFExit`
leaves the enclosing function, `VkValidate` and `VkValidateF` only log. -/
structure Defines where
  MaxSwapchainImages : Nat
  accepts : VkResult → Bool

/-- A concrete value of the parameters, for the concrete executions below: the
given `MaxSwapchainImages`, and only `VK_SUCCESS` accepted. -/
def Defines.standard (maxImages : Nat) : Defines :=
  { MaxSwapchainImages := maxImages, accepts := fun r => decide (r = VK_SUCCESS) }

/-- The calls that create, destroy, submit or wait, as the source issues them.
Semaphores are named by their array and slot. -/
inductive Call where
  | vkDestroyImageView (view : Handle)
  | vkDestroyFramebuffer (framebuffer : Handle)
  | vkDestroySwapchainKHR (swapchain : Handle)
  | vmaDestroyImage (image allocation : Handle)
  | vmaDestroyBuffer (buffer allocation : Handle)
  | vkDestroyPipeline (pipeline : Handle)
  | vkFreeDescriptorSets (set : Handle)
  | vkDestroyDescriptorSetLayout (layout : Handle)
  | vmaCreateImage (image allocation : Handle)
  | vkCreateImageView (image view : Handle)
  | vkCreateSwapchainKHR (minImageCount : Nat) (oldSwapchain swapchain : Handle)
  | vkCreateFramebuffer (color depth view framebuffer : Handle)
  | vkAcquireNextImageKHR (swapchain : Handle) (imageAcquiredSlot : Nat)
  | vkWaitSemaphores (renderSlot renderValue transferSlot transferValue : Nat)
  | ResetDraw (index : Nat)
  | ResetPool (index : Nat)
  | vkQueueSubmit (commandBuffers : List Handle) (transferSlot transferValue : Nat)
  | vkQueueSubmit2 (drawIndex : Nat) (waitTransferSlot waitTransferValue waitAcquiredSlot : Nat)
      (signalRenderSlot signalRenderValue signalPresentSlot : Nat)
  | vkQueuePresentKHR (waitPresentSlot : Nat) (swapchain : Handle) (imageIndex : Nat)
deriving DecidableEq, Repr

/-! ## Data model -/

structure SwapchainDestructionData where
  swapchain : Handle := 0
  imageViews : List Handle := []
  framebuffers : List Handle := []
deriving DecidableEq, Repr

structure TextureDestructionData where
  image : Handle := 0
  imageView : Handle := 0
  allocation : Handle := 0
deriving DecidableEq, Repr

structure BufferDestructionData where
  vkBuffer : Handle := 0
  bufferAllocation : Handle := 0
  vkBufferStaging : Handle := 0
  stagingBufferAllocation : Handle := 0
deriving DecidableEq, Repr

structure PipelineDestructionData where
  vkPipeline : Handle := 0
deriving DecidableEq, Repr

structure DescriptorSetDestructionData where
  vkDescriptorLayout : Handle := 0
  vkDescriptorSet : Handle := 0
  bindless : Bool := false
deriving DecidableEq, Repr

structure Swapchain where
  images : List Handle := []
  imageViews : List Handle := []
  framebuffers : List Handle := []
  vkSwapchain : Handle := 0
deriving DecidableEq, Repr

/-- The members of `Texture` that the renderer reads or writes. -/
structure Texture where
  image : Handle := 0
  imageView : Handle := 0
  allocation : Handle := 0
  sampler : Handle := 0
  width : Nat := 0
  height : Nat := 0
  depth : Nat := 0
  size : Nat := 0
  format : Nat := 0
  mipmapLevels : Nat := 0
deriving DecidableEq, Repr

/-- The members of `Buffer` that the renderer reads or writes. -/
structure Buffer where
  vkBuffer : Handle := 0
  bufferAllocation : Handle := 0
  vkBufferStaging : Handle := 0
  stagingBufferAllocation : Handle := 0
  stagingPointer : Nat := 0
deriving DecidableEq, Repr

structure Pipeline where
  vkPipeline : Handle := 0
deriving DecidableEq, Repr

structure DescriptorSet where
  vkDescriptorLayout : Handle := 0
  vkDescriptorSet : Handle := 0
  bindless : Bool := false
deriving DecidableEq, Repr

structure VkExtent2D where
  width : Nat := 0
  height : Nat := 0
deriving DecidableEq, Repr

/-- The members of `VkSurfaceCapabilitiesKHR` that the renderer reads. -/
structure VkSurfaceCapabilitiesKHR where
  minImageCount : Nat := 0
  maxImageCount : Nat := 0
  currentExtent : VkExtent2D := {}
  minImageExtent : VkExtent2D := {}
  maxImageExtent : VkExtent2D := {}
deriving DecidableEq, Repr

structure VkSurfaceFormatKHR where
  format : Nat := 0
  colorSpace : Nat := 0
deriving DecidableEq, Repr

/-- The static members of `class Renderer`.  The per-slot arrays
(`T name[MaxSwapchainImages]`) are functions of the slot. -/
structure Renderer where
  colorTextures : Nat → Texture := fun _ => {}
  depthTextures : Nat → Texture := fun _ => {}
  stagingBuffers : Nat → Buffer := fun _ => {}
  surfaceFormat : Nat := 0
  surfaceColorSpace : Nat := 0
  imageCount : Nat := 0
  presentMode : Nat := 0
  surfaceWidth : Nat := 0
  surfaceHeight : Nat := 0
  swapchain : Swapchain := {}
  commandBuffers : Nat → List Handle := fun _ => []
  imageIndex : Nat := 0
  frameIndex : Nat := 0
  previousFrame : Nat := 0
  absoluteFrame : Nat := 0
  renderWaitValues : Nat → Nat := fun _ => 0
  transferWaitValues : Nat → Nat := fun _ => 0
  swapchainsToDestroy : List SwapchainDestructionData := []
  texturesToDestroy : List TextureDestructionData := []
  buffersToDestroy : List BufferDestructionData := []
  pipelinesToDestroy : List PipelineDestructionData := []
  descriptorSetsToDestroy : List DescriptorSetDestructionData := []
  calls : List Call := []

namespace Renderer

/-- Append calls to the record of issued calls. -/
def emit (cs : List Call) (s : Renderer) : Renderer :=
  { s with calls := s.calls ++ cs }

/-! ## Deferred destruction (Renderer.cpp 747-826) -/

/-- Overload `ScheduleDestruction(Swapchain&)`: the views and framebuffers are moved out
of the argument, which keeps its `vkSwapchain` and `images`. -/
def ScheduleDestructionSwapchain (swapchain : Swapchain) (s : Renderer) : Swapchain × Renderer :=
  ({ swapchain with imageViews := [], framebuffers := [] },
   { s with swapchainsToDestroy := s.swapchainsToDestroy ++
      [{ swapchain := swapchain.vkSwapchain, imageViews := swapchain.imageViews,
         framebuffers := swapchain.framebuffers }] })

/-- Overload `ScheduleDestruction(Texture&)`. -/
def ScheduleDestructionTexture (texture : Texture) (s : Renderer) : Renderer :=
  { s with texturesToDestroy := s.texturesToDestroy ++
      [{ image := texture.image, imageView := texture.imageView, allocation := texture.allocation }] }

/-- Overload `ScheduleDestruction(Buffer&)`. -/
def ScheduleDestructionBuffer (buffer : Buffer) (s : Renderer) : Renderer :=
  { s with buffersToDestroy := s.buffersToDestroy ++
      [{ vkBuffer := buffer.vkBuffer, bufferAllocation := buffer.bufferAllocation,
         vkBufferStaging := buffer.vkBufferStaging,
         stagingBufferAllocation := buffer.stagingBufferAllocation }] }

/-- Overload `ScheduleDestruction(Pipeline&)`. -/
def ScheduleDestructionPipeline (pipeline : Pipeline) (s : Renderer) : Renderer :=
  { s with pipelinesToDestroy := s.pipelinesToDestroy ++ [{ vkPipeline := pipeline.vkPipeline }] }

/-- Overload `ScheduleDestruction(DescriptorSet&)`. -/
def ScheduleDestructionDescriptorSet (descriptorSet : DescriptorSet) (s : Renderer) : Renderer :=
  { s with descriptorSetsToDestroy := s.descriptorSetsToDestroy ++
      [{ vkDescriptorLayout := descriptorSet.vkDescriptorLayout,
         vkDescriptorSet := descriptorSet.vkDescriptorSet,
         bindless := descriptorSet.bindless }] }

/-- Body of the `//SWAPCHAIN` loop of `DestroyObjects`. -/
def destroySwapchainData (st : Renderer) (data : SwapchainDestructionData) : Renderer :=
  let st := data.imageViews.foldl (fun st view => emit [Call.vkDestroyImageView view] st) st
  let st := data.framebuffers.foldl (fun st fb => emit [Call.vkDestroyFramebuffer fb] st) st
  emit [Call.vkDestroySwapchainKHR data.swapchain] st

/-- Body of the `//TEXTURE` loop of `DestroyObjects`. -/
def destroyTextureData (st : Renderer) (data : TextureDestructionData) : Renderer :=
  let st := if data.imageView ≠ 0 then emit [Call.vkDestroyImageView data.imageView] st else st
  if data.image ≠ 0 then emit [Call.vmaDestroyImage data.image data.allocation] st else st

/-- Body of the `//BUFFER` loop of `DestroyObjects`. -/
def destroyBufferData (st : Renderer) (data : BufferDestructionData) : Renderer :=
  let st := if data.vkBuffer ≠ 0 then emit [Call.vmaDestroyBuffer data.vkBuffer data.bufferAllocation] st else st
  if data.vkBufferStaging ≠ 0 then
    emit [Call.vmaDestroyBuffer data.vkBufferStaging data.stagingBufferAllocation] st
  else st

/-- Body of the `//PIPELINE` loop of `DestroyObjects`. -/
def destroyPipelineData (st : Renderer) (data : PipelineDestructionData) : Renderer :=
  if data.vkPipeline ≠ 0 then emit [Call.vkDestroyPipeline data.vkPipeline] st else st

/-- Body of the `//DESCRIPTOR SET` loop of `DestroyObjects`. -/
def destroyDescriptorSetData (st : Renderer) (data : DescriptorSetDestructionData) : Renderer :=
  let st := if data.bindless = false ∧ data.vkDescriptorSet ≠ 0 then
      emit [Call.vkFreeDescriptorSets data.vkDescriptorSet] st else st
  emit [Call.vkDestroyDescriptorSetLayout data.vkDescriptorLayout] st

/-- Function `Renderer::DestroyObjects`: five loops, each followed by `Clear()`. -/
def DestroyObjects (s : Renderer) : Renderer :=
  let s := s.swapchainsToDestroy.foldl destroySwapchainData s
  let s := { s with swapchainsToDestroy := [] }
  let s := s.texturesToDestroy.foldl destroyTextureData s
  let s := { s with texturesToDestroy := [] }
  let s := s.buffersToDestroy.foldl destroyBufferData s
  let s := { s with buffersToDestroy := [] }
  let s := s.pipelinesToDestroy.foldl destroyPipelineData s
  let s := { s with pipelinesToDestroy := [] }
  let s := s.descriptorSetsToDestroy.foldl destroyDescriptorSetData s
  { s with descriptorSetsToDestroy := [] }

/-! ## What draining the queues issues -/

/-- The calls that drain one surface-set entry. -/
def swapchainReleases (data : SwapchainDestructionData) : List Call :=
  data.imageViews.map Call.vkDestroyImageView ++ data.framebuffers.map Call.vkDestroyFramebuffer ++
    [Call.vkDestroySwapchainKHR data.swapchain]

/-- The calls that drain one image entry. -/
def textureReleases (data : TextureDestructionData) : List Call :=
  (if data.imageView ≠ 0 then [Call.vkDestroyImageView data.imageView] else []) ++
    (if data.image ≠ 0 then [Call.vmaDestroyImage data.image data.allocation] else [])

/-- The calls that drain one buffer entry. -/
def bufferReleases (data : BufferDestructionData) : List Call :=
  (if data.vkBuffer ≠ 0 then [Call.vmaDestroyBuffer data.vkBuffer data.bufferAllocation] else []) ++
    (if data.vkBufferStaging ≠ 0 then
      [Call.vmaDestroyBuffer data.vkBufferStaging data.stagingBufferAllocation] else [])

/-- The calls that drain one pipeline entry. -/
def pipelineReleases (data : PipelineDestructionData) : List Call :=
  if data.vkPipeline ≠ 0 then [Call.vkDestroyPipeline data.vkPipeline] else []

/-- The calls that drain one descriptor-set entry. -/
def descriptorSetReleases (data : DescriptorSetDestructionData) : List Call :=
  (if data.bindless = false ∧ data.vkDescriptorSet ≠ 0 then
    [Call.vkFreeDescriptorSets data.vkDescriptorSet] else []) ++
    [Call.vkDestroyDescriptorSetLayout data.vkDescriptorLayout]

/-- Everything `DestroyObjects` issues for the queues of `s`, kind by kind. -/
def pendingReleases (s : Renderer) : List Call :=
  s.swapchainsToDestroy.flatMap swapchainReleases ++ s.texturesToDestroy.flatMap textureReleases ++
    s.buffersToDestroy.flatMap bufferReleases ++ s.pipelinesToDestroy.flatMap pipelineReleases ++
    s.descriptorSetsToDestroy.flatMap descriptorSetReleases

/-! ## Surface information and attachments (Renderer.cpp 451-643) -/

/-- What the three surface queries of `CreateSurfaceInfo` return. -/
structure SurfaceInfoEnv where
  capabilities : VkSurfaceCapabilitiesKHR := {}
  presentModes : List Nat := []
  formats : List VkSurfaceFormatKHR := []

/-- The loop over `presentModes` with its `break`. -/
def selectPresentMode : List Nat → Nat → Nat
  | [], presentMode => presentMode
  | mode :: rest, presentMode =>
    if mode = VK_PRESENT_MODE_MAILBOX_KHR then mode else selectPresentMode rest presentMode

def desiredFormats : List VkSurfaceFormatKHR :=
  [{ format := VK_FORMAT_R8G8B8A8_SRGB, colorSpace := VK_COLOR_SPACE_SRGB_NONLINEAR_KHR },
   { format := VK_FORMAT_B8G8R8A8_SRGB, colorSpace := VK_COLOR_SPACE_SRGB_NONLINEAR_KHR }]

/-- The nested loops over the desired and the available formats: the first
desired format that is available. -/
def findFormat (formats : List VkSurfaceFormatKHR) : List VkSurfaceFormatKHR → Option VkSurfaceFormatKHR
  | [] => none
  | desiredFormat :: rest =>
    if formats.any (fun availableFormat =>
        decide (desiredFormat.format = availableFormat.format ∧
          desiredFormat.colorSpace = availableFormat.colorSpace)) then some desiredFormat
    else findFormat formats rest

/-- Function `Renderer::CreateSurfaceInfo`.  `Math::Min` of three arguments is the least
of them. -/
def CreateSurfaceInfo (D : Defines) (env : SurfaceInfoEnv) (s : Renderer) : Bool × Renderer :=
  let capabilities := env.capabilities
  let imageCount := min (min (wrapU32 (capabilities.minImageCount + 1)) capabilities.maxImageCount)
    D.MaxSwapchainImages
  let surfaceWidth :=
    if capabilities.currentExtent.width ≠ U32_MAX then capabilities.currentExtent.width
    else max capabilities.minImageExtent.width (min capabilities.maxImageExtent.width 0)
  let surfaceHeight :=
    if capabilities.currentExtent.width ≠ U32_MAX then capabilities.currentExtent.height
    else max capabilities.minImageExtent.height (min capabilities.maxImageExtent.height 0)
  let presentMode :=
    if 3 ≤ imageCount then selectPresentMode env.presentModes VK_PRESENT_MODE_FIFO_KHR
    else VK_PRESENT_MODE_FIFO_KHR
  let chosen :=
    match findFormat env.formats desiredFormats with
    | some desiredFormat => desiredFormat
    | none => env.formats.headD {}
  (true, { s with imageCount := imageCount, surfaceWidth := surfaceWidth,
                  surfaceHeight := surfaceHeight, presentMode := presentMode,
                  surfaceFormat := chosen.format, surfaceColorSpace := chosen.colorSpace })

/-- What `vmaCreateImage` and `vkCreateImageView` return and write for one slot. -/
structure ImageCreateEnv where
  imageResult : VkResult := 0
  image : Handle := 0
  allocation : Handle := 0
  viewResult : VkResult := 0
  imageView : Handle := 0

/-- The loop of `CreateColorTextures` over the slots still to do. -/
def createColorTexturesLoop (D : Defines) (env : Nat → ImageCreateEnv) : List Nat → Renderer → Bool × Renderer
  | [], s => (true, s)
  | i :: rest, s =>
    let e := env i
    let s1 := emit [Call.vmaCreateImage e.image e.allocation]
      { s with colorTextures :=
          Function.update s.colorTextures i ({ s.colorTextures i with image := e.image, allocation := e.allocation }) }
    if D.accepts e.imageResult = false then (false, s1) else
    let s2 := emit [Call.vkCreateImageView (s1.colorTextures i).image e.imageView]
      { s1 with colorTextures :=
          Function.update s1.colorTextures i ({ s1.colorTextures i with imageView := e.imageView }) }
    if D.accepts e.viewResult = false then (false, s2) else
    createColorTexturesLoop D env rest s2

/-- Function `Renderer::CreateColorTextures`. -/
def CreateColorTextures (D : Defines) (env : Nat → ImageCreateEnv) (s : Renderer) : Bool × Renderer :=
  createColorTexturesLoop D env (List.range s.imageCount) s

/-- The loop of `CreateDepthTextures` over the slots still to do. -/
def createDepthTexturesLoop (D : Defines) (env : Nat → ImageCreateEnv) : List Nat → Renderer → Bool × Renderer
  | [], s => (true, s)
  | i :: rest, s =>
    let e := env i
    let s1 := emit [Call.vmaCreateImage e.image e.allocation]
      { s with depthTextures :=
          Function.update s.depthTextures i ({ s.depthTextures i with image := e.image, allocation := e.allocation }) }
    if D.accepts e.imageResult = false then (false, s1) else
    let s2 := emit [Call.vkCreateImageView (s1.depthTextures i).image e.imageView]
      { s1 with depthTextures :=
          Function.update s1.depthTextures i ({ s1.depthTextures i with imageView := e.imageView }) }
    if D.accepts e.viewResult = false then (false, s2) else
    createDepthTexturesLoop D env rest s2

/-- Function `Renderer::CreateDepthTextures`. -/
def CreateDepthTextures (D : Defines) (env : Nat → ImageCreateEnv) (s : Renderer) : Bool × Renderer :=
  createDepthTexturesLoop D env (List.range s.imageCount) s

/-! ## Swapchain::Create (Swapchain.cpp 9-107) -/

/-- What the Vulkan calls of `Swapchain::Create` return and write. -/
structure SwapchainEnv where
  createResult : VkResult := 0
  vkSwapchain : Handle := 0
  images : List Handle := []
  viewResult : Nat → VkResult := fun _ => 0
  view : Nat → Handle := fun _ => 0
  framebufferResult : Nat → VkResult := fun _ => 0
  framebuffer : Nat → Handle := fun _ => 0

/-- The loop of `Swapchain::Create` over the images still to do. -/
def swapchainCreateLoop (D : Defines) (env : SwapchainEnv) : List Nat → Renderer → Bool × Renderer
  | [], s => (true, s)
  | i :: rest, s =>
    let s1 := emit [Call.vkCreateImageView (s.swapchain.images.getD i 0) (env.view i)]
      { s with swapchain := { s.swapchain with imageViews := s.swapchain.imageViews.set i (env.view i) } }
    if D.accepts (env.viewResult i) = false then (false, s1) else
    let s2 := emit [Call.vkCreateFramebuffer (s1.colorTextures i).imageView (s1.depthTextures i).imageView
        (s1.swapchain.imageViews.getD i 0) (env.framebuffer i)]
      { s1 with swapchain :=
          { s1.swapchain with framebuffers := s1.swapchain.framebuffers.set i (env.framebuffer i) } }
    if D.accepts (env.framebufferResult i) = false then (false, s2) else
    swapchainCreateLoop D env rest s2

/-- Function `Swapchain::Create`, called on `Renderer::swapchain`. -/
def SwapchainCreate (D : Defines) (env : SwapchainEnv) (s : Renderer) : Bool × Renderer :=
  let moved := ScheduleDestructionSwapchain s.swapchain s
  let s1 := { moved.2 with swapchain := moved.1 }
  let s2 := emit [Call.vkCreateSwapchainKHR s1.imageCount s1.swapchain.vkSwapchain env.vkSwapchain]
    { s1 with swapchain := { s1.swapchain with vkSwapchain := env.vkSwapchain } }
  if D.accepts env.createResult = false then (false, s2) else
  let s3 := { s2 with swapchain := { s2.swapchain with
      images := env.images,
      imageViews := List.replicate env.images.length 0,
      framebuffers := List.replicate env.images.length 0 } }
  swapchainCreateLoop D env (List.range env.images.length) s3

/-! ## Surface recreation (Renderer.cpp 828-851) -/

/-- What the environment answers during one `RecreateSwapchain`. -/
structure RecreateEnv where
  queryResult : VkResult := 0
  surface_properties : VkSurfaceCapabilitiesKHR := {}
  surfaceInfo : SurfaceInfoEnv := {}
  color : Nat → ImageCreateEnv := fun _ => {}
  depth : Nat → ImageCreateEnv := fun _ => {}
  swapchain : SwapchainEnv := {}

/-- The loop of `RecreateSwapchain` that schedules the attachments. -/
def scheduleAttachments : List Nat → Renderer → Renderer
  | [], s => s
  | i :: rest, s =>
    scheduleAttachments rest
      (ScheduleDestructionTexture (s.colorTextures i) (ScheduleDestructionTexture (s.depthTextures i) s))

/-- Function `Renderer::RecreateSwapchain`. -/
def RecreateSwapchain (D : Defines) (env : RecreateEnv) (s : Renderer) : Bool × Renderer :=
  if D.accepts env.queryResult = false then (false, s) else
  if env.surface_properties.currentExtent.width = s.surfaceWidth ∧
      env.surface_properties.currentExtent.height = s.surfaceHeight then (false, s) else
  let s1 := (CreateSurfaceInfo D env.surfaceInfo s).2
  let s2 := scheduleAttachments (List.range s1.imageCount) s1
  let color := CreateColorTextures D env.color s2
  if color.1 = false then (false, color.2) else
  let depth := CreateDepthTextures D env.depth color.2
  if depth.1 = false then (false, depth.2) else
  SwapchainCreate D env.swapchain depth.2

/-! ## Submission (Renderer.cpp 248-376) -/

/-- Function `Renderer::SubmitTransfer`.  The result of `vkQueueSubmit` goes to
`VkValidateF`, which only logs. -/
def SubmitTransfer (s : Renderer) : Renderer :=
  if (s.commandBuffers s.imageIndex).length ≠ 0 then
    let incremented := wrapU64 (s.transferWaitValues s.imageIndex + 1)
    let s1 := { s with transferWaitValues := Function.update s.transferWaitValues s.imageIndex incremented }
    let s2 := emit [Call.vkQueueSubmit (s1.commandBuffers s1.imageIndex) s1.imageIndex
      (s1.transferWaitValues s1.imageIndex)] s1
    let s3 := { s2 with commandBuffers := Function.update s2.commandBuffers s2.imageIndex [] }
    { s3 with stagingBuffers :=
        Function.update s3.stagingBuffers s3.imageIndex ({ s3.stagingBuffers s3.imageIndex with stagingPointer := 0 }) }
  else s

/-- What the environment answers during one `Submit`. -/
structure SubmitEnv where
  submitResult : VkResult := 0
  presentResult : VkResult := 0
  recreate : RecreateEnv := {}

/-- Part of `Submit`, lines 293-354: the wait value of slot `imageIndex` is incremented
and the render work is submitted, waiting and signalling on slot `frameIndex`. -/
def submitRender (s : Renderer) : Renderer :=
  let incremented := wrapU64 (s.renderWaitValues s.imageIndex + 1)
  let s1 := { s with renderWaitValues := Function.update s.renderWaitValues s.imageIndex incremented }
  emit [Call.vkQueueSubmit2 s1.imageIndex
      s1.frameIndex (s1.transferWaitValues s1.frameIndex) s1.frameIndex
      s1.frameIndex (s1.renderWaitValues s1.frameIndex) s1.frameIndex] s1

/-- Part of `Submit`, lines 356-372: the present request, `commandBuffers[imageIndex].Clear()`
and the three assignments to the cursor. -/
def presentAndAdvance (s : Renderer) : Renderer :=
  let s3 := emit [Call.vkQueuePresentKHR s.imageIndex s.swapchain.vkSwapchain s.imageIndex] s
  let s4 := { s3 with commandBuffers := Function.update s3.commandBuffers s3.imageIndex [] }
  let s5 := { s4 with previousFrame := s4.frameIndex }
  let s6 := { s5 with frameIndex := wrapU32 (s5.frameIndex + 1) % s5.imageCount }
  { s6 with absoluteFrame := wrapU32 (s6.absoluteFrame + 1) }

/-- Function `Renderer::Submit`. -/
def Submit (D : Defines) (env : SubmitEnv) (s : Renderer) : Renderer :=
  let s2 := submitRender s
  if D.accepts env.submitResult = false then s2 else
  let res := env.presentResult
  let s7 := presentAndAdvance s2
  if res = VK_SUBOPTIMAL_KHR ∨ res = VK_ERROR_OUT_OF_DATE_KHR then (RecreateSwapchain D env.recreate s7).2
  else s7

/-! ## The simulated GPU signal clock -/

/-- The current counter value of every `renderFinished[i]` and
`transferFinished[i]` timeline semaphore. -/
structure Clock where
  renderFinished : Nat → Nat := fun _ => 0
  transferFinished : Nat → Nat := fun _ => 0

/-- Progress of the GPU: every counter grows by the given amount. -/
def Clock.advance (gpu progress : Clock) : Clock :=
  { renderFinished := fun i => gpu.renderFinished i + progress.renderFinished i,
    transferFinished := fun i => gpu.transferFinished i + progress.transferFinished i }

/-- Model of `vkWaitSemaphores` on one render-finished and one transfer-finished
semaphore, with the timeout `U64_MAX`: the GPU makes the given progress while
the caller is blocked; the call returns, with the clock it then observes, only
if both counters have reached their values, and otherwise never. -/
def vkWaitSemaphores (gpu duringWait : Clock) (renderSlot renderValue transferSlot transferValue : Nat) :
    Option Clock :=
  let observed := gpu.advance duringWait
  if renderValue ≤ observed.renderFinished renderSlot ∧
      transferValue ≤ observed.transferFinished transferSlot then some observed
  else none

/-! ## Synchronize and Update (Renderer.cpp 175-246) -/

/-- What `vkAcquireNextImageKHR` returns and writes to `imageIndex`. -/
structure AcquireEnv where
  result : VkResult := 0
  imageIndex : Nat := 0

/-- What the environment answers during one `Synchronize`. -/
structure SynchronizeEnv where
  acquire : AcquireEnv := {}
  gpuDuringWait : Clock := {}
  recreate : RecreateEnv := {}
  retry : AcquireEnv := {}

/-- The outcome of one `Synchronize`: its return value and the state it
leaves, together with what an observer of the call sees: the clock when the
wait returned, the calls issued by `DestroyObjects`, and the result that was
handed to `VkValidateFR` (none when the check was skipped). -/
structure Synchronized where
  result : Bool
  renderer : Renderer
  gpu : Clock
  reclaimed : List Call
  validated : Option VkResult

/-- Part of `Synchronize`, lines 215-230 without the blocking itself: the acquire,
which writes `imageIndex`, and the wait request on slot `previousFrame`. -/
def acquireAndRequestWait (env : AcquireEnv) (s : Renderer) : Renderer :=
  let i := s.absoluteFrame % s.imageCount
  let s1 := emit [Call.vkAcquireNextImageKHR s.swapchain.vkSwapchain i] { s with imageIndex := env.imageIndex }
  emit [Call.vkWaitSemaphores s1.previousFrame (s1.renderWaitValues s1.previousFrame)
    s1.previousFrame (s1.transferWaitValues s1.previousFrame)] s1

/-- Part of `Synchronize`, lines 234-235. -/
def resetRecording (s : Renderer) : Renderer :=
  emit [Call.ResetDraw s.imageIndex, Call.ResetPool s.imageIndex] s

/-- Part of `Synchronize`, lines 239-240: the body of `if (res == VK_ERROR_OUT_OF_DATE_KHR)`.
The result of the second acquire initialises a variable declared inside the
block (`VkResult res = ...`), which no later statement can read. -/
def recreateAndRetry (D : Defines) (recreate : RecreateEnv) (retry : AcquireEnv) (i : Nat) (s : Renderer) :
    Renderer :=
  let s1 := (RecreateSwapchain D recreate s).2
  let _res := retry.result
  emit [Call.vkAcquireNextImageKHR s1.swapchain.vkSwapchain i] { s1 with imageIndex := retry.imageIndex }

/-- Function `Renderer::Synchronize`, entered when the GPU clock is `gpu`.  The value
is `none` when `vkWaitSemaphores` never returns. -/
def Synchronize (D : Defines) (env : SynchronizeEnv) (gpu : Clock) (s : Renderer) : Option Synchronized :=
  let i := s.absoluteFrame % s.imageCount
  let res := env.acquire.result
  let s2 := acquireAndRequestWait env.acquire s
  match vkWaitSemaphores gpu env.gpuDuringWait s.previousFrame (s.renderWaitValues s.previousFrame)
      s.previousFrame (s.transferWaitValues s.previousFrame) with
  | none => none
  | some observed =>
    let s3 := DestroyObjects s2
    let s4 := resetRecording s3
    let s5 := if res = VK_ERROR_OUT_OF_DATE_KHR then recreateAndRetry D env.recreate env.retry i s4 else s4
    let reclaimed := s3.calls.drop s2.calls.length
    if res ≠ VK_SUBOPTIMAL_KHR then
      if D.accepts res = false then
        some { result := false, renderer := s5, gpu := observed, reclaimed := reclaimed, validated := some res }
      else
        some { result := true, renderer := s5, gpu := observed, reclaimed := reclaimed, validated := some res }
    else
      some { result := true, renderer := s5, gpu := observed, reclaimed := reclaimed, validated := none }

/-- What the systems called between `Synchronize` and `Submit` do through the
renderer: they retire resources and record transfer command buffers. -/
inductive Recorded where
  | destroyTexture (texture : Texture)
  | destroyBuffer (buffer : Buffer)
  | destroyPipeline (pipeline : Pipeline)
  | destroyDescriptorSet (descriptorSet : DescriptorSet)
  | transfer (commandBuffer : Handle)
deriving DecidableEq, Repr

/-- One recorded action: a `ScheduleDestruction`, or
`commandBuffers[imageIndex].Push(commandBuffer)`. -/
def record (s : Renderer) : Recorded → Renderer
  | Recorded.destroyTexture texture => ScheduleDestructionTexture texture s
  | Recorded.destroyBuffer buffer => ScheduleDestructionBuffer buffer s
  | Recorded.destroyPipeline pipeline => ScheduleDestructionPipeline pipeline s
  | Recorded.destroyDescriptorSet descriptorSet => ScheduleDestructionDescriptorSet descriptorSet s
  | Recorded.transfer commandBuffer =>
    { s with commandBuffers :=
        Function.update s.commandBuffers s.imageIndex (s.commandBuffers s.imageIndex ++ [commandBuffer]) }

/-- What the environment does during one `Update`: the progress of the GPU
before the back-pressure wait begins, the answers to `Synchronize`, the
actions of `Resources::Update`, `World::Update` and `UI::Update`, the actions
of the `Render` calls, and the answers to `Submit`. -/
structure FrameEnv where
  gpuBefore : Clock := {}
  sync : SynchronizeEnv := {}
  updates : List Recorded := []
  renders : List Recorded := []
  submit : SubmitEnv := {}

/-- The renderer together with the simulated GPU. -/
structure Sim where
  renderer : Renderer := {}
  gpu : Clock := {}

/-- What an observer records of one `Update`: the state before and after, the
clock when the back-pressure wait began and when it returned, the calls issued
by the Reclaim step, the state in which `Synchronize` returned, the state in
which `Submit` was entered (none when `Synchronize` returned `false`), and
whether `Submit` went on to present. -/
structure FrameRecord where
  pre : Renderer
  waitBegin : Clock
  waitEnd : Clock
  reclaimed : List Call
  afterSync : Renderer
  atSubmit : Option Renderer
  presented : Bool
  post : Renderer

/-- Function `Renderer::Update`. -/
def Update (D : Defines) (env : FrameEnv) (sim : Sim) : Option (Sim × FrameRecord) :=
  let waitBegin := sim.gpu.advance env.gpuBefore
  match Synchronize D env.sync waitBegin sim.renderer with
  | none => none
  | some sync =>
    if sync.result = false then
      some ({ renderer := sync.renderer, gpu := sync.gpu },
        { pre := sim.renderer, waitBegin := waitBegin, waitEnd := sync.gpu, reclaimed := sync.reclaimed,
          afterSync := sync.renderer, atSubmit := none, presented := false, post := sync.renderer })
    else
      let s1 := env.updates.foldl record sync.renderer
      let s2 := SubmitTransfer s1
      let s3 := env.renders.foldl record s2
      let s4 := Submit D env.submit s3
      some ({ renderer := s4, gpu := sync.gpu },
        { pre := sim.renderer, waitBegin := waitBegin, waitEnd := sync.gpu, reclaimed := sync.reclaimed,
          afterSync := sync.renderer, atSubmit := some s3, presented := D.accepts env.submit.submitResult,
          post := s4 })

/-- The part of the renderer that surface recreation never touches. -/
structure FrameState where
  imageIndex : Nat
  frameIndex : Nat
  previousFrame : Nat
  absoluteFrame : Nat
  renderWaitValues : Nat → Nat
  transferWaitValues : Nat → Nat
  commandBuffers : Nat → List Handle
  stagingBuffers : Nat → Buffer
  buffersToDestroy : List BufferDestructionData
  pipelinesToDestroy : List PipelineDestructionData
  descriptorSetsToDestroy : List DescriptorSetDestructionData

/-- Projection of the renderer on `FrameState`. -/
def frameState (s : Renderer) : FrameState :=
  { imageIndex := s.imageIndex, frameIndex := s.frameIndex, previousFrame := s.previousFrame,
    absoluteFrame := s.absoluteFrame, renderWaitValues := s.renderWaitValues,
    transferWaitValues := s.transferWaitValues, commandBuffers := s.commandBuffers,
    stagingBuffers := s.stagingBuffers, buffersToDestroy := s.buffersToDestroy,
    pipelinesToDestroy := s.pipelinesToDestroy, descriptorSetsToDestroy := s.descriptorSetsToDestroy }

/-- The frame cursor: `frameIndex`, `previousFrame`, `absoluteFrame`. -/
def cursorOf (s : Renderer) : Nat × Nat × Nat := (s.frameIndex, s.previousFrame, s.absoluteFrame)

/-- The state in which `Synchronize` returns, when its wait returns. -/
def synchronizedRenderer (D : Defines) (env : SynchronizeEnv) (s : Renderer) : Renderer :=
  let s4 := resetRecording (DestroyObjects (acquireAndRequestWait env.acquire s))
  if env.acquire.result = VK_ERROR_OUT_OF_DATE_KHR then
    recreateAndRetry D env.recreate env.retry (s.absoluteFrame % s.imageCount) s4
  else s4

/-- The return value of `Synchronize`, when its wait returns. -/
def synchronizedResult (D : Defines) (env : SynchronizeEnv) : Bool :=
  if env.acquire.result ≠ VK_SUBOPTIMAL_KHR then D.accepts env.acquire.result else true

/-- The state in which `Update` leaves the renderer once `Synchronize` has
returned `true` in state `s`. -/
def recordAndSubmit (D : Defines) (env : FrameEnv) (s : Renderer) : Renderer :=
  Submit D env.submit (env.renders.foldl record (SubmitTransfer (env.updates.foldl record s)))

/-- Every counter of `g` is at most the same counter of `h`. -/
def Clock.le (g h : Clock) : Prop :=
  ∀ i, g.renderFinished i ≤ h.renderFinished i ∧ g.transferFinished i ≤ h.transferFinished i

/-- The queue entry that `ScheduleDestruction(Buffer&)` makes of a buffer. -/
def bufferEntry (buffer : Buffer) : BufferDestructionData :=
  { vkBuffer := buffer.vkBuffer, bufferAllocation := buffer.bufferAllocation,
    vkBufferStaging := buffer.vkBufferStaging, stagingBufferAllocation := buffer.stagingBufferAllocation }

/-- The creation calls. -/
def isCreate : Call → Bool
  | Call.vmaCreateImage _ _ => true
  | Call.vkCreateImageView _ _ => true
  | Call.vkCreateSwapchainKHR _ _ _ => true
  | Call.vkCreateFramebuffer _ _ _ _ => true
  | _ => false

/-- The calls of `vkCreateSwapchainKHR`. -/
def isSwapchainCreate : Call → Bool
  | Call.vkCreateSwapchainKHR _ _ _ => true
  | _ => false

/-- The release calls. -/
def isRelease : Call → Bool
  | Call.vkDestroyImageView _ => true
  | Call.vkDestroyFramebuffer _ => true
  | Call.vkDestroySwapchainKHR _ => true
  | Call.vmaDestroyImage _ _ => true
  | Call.vmaDestroyBuffer _ _ => true
  | Call.vkDestroyPipeline _ => true
  | Call.vkFreeDescriptorSets _ => true
  | Call.vkDestroyDescriptorSetLayout _ => true
  | _ => false

/-- The acquire calls. -/
def isAcquire : Call → Bool
  | Call.vkAcquireNextImageKHR _ _ => true
  | _ => false

/-- The queue submissions, `vkQueueSubmit` and `vkQueueSubmit2`. -/
def isSubmit : Call → Bool
  | Call.vkQueueSubmit _ _ _ => true
  | Call.vkQueueSubmit2 _ _ _ _ _ _ _ => true
  | _ => false

/-- The calls of `t` are those of `s` followed by calls that all satisfy `P`. -/
def EmitsOnly (P : Call → Prop) (s t : Renderer) : Prop :=
  ∃ cs, t.calls = s.calls ++ cs ∧ ∀ c ∈ cs, P c

/-- What the queue submissions and the back-pressure wait read and write. -/
def signalView (s : Renderer) : Nat × Nat × Nat × (Nat → Nat) × (Nat → Nat) × List Call :=
  (s.imageIndex, s.frameIndex, s.previousFrame, s.renderWaitValues, s.transferWaitValues, s.calls)

/-- The queue entry that `ScheduleDestruction(Texture&)` makes of a texture. -/
def textureEntry (texture : Texture) : TextureDestructionData :=
  { image := texture.image, imageView := texture.imageView, allocation := texture.allocation }

/-- What `RecreateSwapchain` reads of the swapchain and writes to the queues of
surface sets and images. -/
def queueView (s : Renderer) : Swapchain × List SwapchainDestructionData × List TextureDestructionData :=
  (s.swapchain, s.swapchainsToDestroy, s.texturesToDestroy)

/-- Body of the loop of `Shutdown` over the attachments (lines 140-146). -/
def destroyAttachments (st : Renderer) (i : Nat) : Renderer :=
  emit [Call.vkDestroyImageView (st.depthTextures i).imageView,
        Call.vmaDestroyImage (st.depthTextures i).image (st.depthTextures i).allocation,
        Call.vkDestroyImageView (st.colorTextures i).imageView,
        Call.vmaDestroyImage (st.colorTextures i).image (st.colorTextures i).allocation] st

/-- Part of `Renderer::Shutdown`, lines 124-159: `DestroyObjects()`, then the release of
the live attachments of every slot below `imageCount`, of the views and
framebuffers of the live swapchain and of the swapchain.  The calls on the
staging buffers, the semaphores, the render pass, the descriptor pools, the
command buffer ring, the allocator, the device and the instance have no entry
in the record of calls. -/
def Shutdown (s : Renderer) : Renderer :=
  let s1 := DestroyObjects s
  let s2 := (List.range s1.imageCount).foldl destroyAttachments s1
  let s3 := s2.swapchain.imageViews.foldl (fun st view => emit [Call.vkDestroyImageView view] st) s2
  let s4 := s3.swapchain.framebuffers.foldl (fun st fb => emit [Call.vkDestroyFramebuffer fb] st) s3
  emit [Call.vkDestroySwapchainKHR s4.swapchain.vkSwapchain] s4

end Renderer

/-- A run of the frame protocol: `Update` once per element of the list; the
value is `none` when some back-pressure wait never returns. -/
def run (D : Defines) : List Renderer.FrameEnv → Renderer.Sim → Option (Renderer.Sim × List Renderer.FrameRecord)
  | [], sim => some (sim, [])
  | env :: rest, sim =>
    match Renderer.Update D env sim with
    | none => none
    | some (sim1, frame) =>
      match run D rest sim1 with
      | none => none
      | some (sim2, frames) => some (sim2, frame :: frames)

/-! ## Texture upload (Renderer.cpp 853-1119) -/

def VK_IMAGE_LAYOUT_UNDEFINED : Nat := 0
def VK_IMAGE_LAYOUT_SHADER_READ_ONLY_OPTIMAL : Nat := 5
def VK_IMAGE_LAYOUT_TRANSFER_SRC_OPTIMAL : Nat := 6
def VK_IMAGE_LAYOUT_TRANSFER_DST_OPTIMAL : Nat := 7

def VK_PIPELINE_STAGE_2_TOP_OF_PIPE_BIT : Nat := 1
def VK_PIPELINE_STAGE_2_FRAGMENT_SHADER_BIT : Nat := 128
def VK_PIPELINE_STAGE_2_TRANSFER_BIT : Nat := 4096
def VK_PIPELINE_STAGE_2_COPY_BIT : Nat := 4294967296

def VK_ACCESS_2_NONE : Nat := 0
def VK_ACCESS_2_SHADER_READ_BIT : Nat := 32
def VK_ACCESS_2_TRANSFER_READ_BIT : Nat := 2048
def VK_ACCESS_2_TRANSFER_WRITE_BIT : Nat := 4096

/-- The mip levels of a `VkImageSubresourceRange`; the aspect is always colour
and the layers are always the one layer 0. -/
structure VkImageSubresourceRange where
  baseMipLevel : Nat := 0
  levelCount : Nat := 0
deriving DecidableEq, Repr

/-- The members of `VkImageMemoryBarrier2` that `UploadTexture` sets to other
values than 0 or `nullptr`. -/
structure VkImageMemoryBarrier2 where
  srcStageMask : Nat := 0
  srcAccessMask : Nat := 0
  dstStageMask : Nat := 0
  dstAccessMask : Nat := 0
  oldLayout : Nat := 0
  newLayout : Nat := 0
  image : Handle := 0
  subresourceRange : VkImageSubresourceRange := {}
deriving DecidableEq, Repr

/-- A `VkBufferImageCopy` with image offset 0: the offset in the buffer, the
mip level written and the extent. -/
structure VkBufferImageCopy where
  bufferOffset : Nat := 0
  mipLevel : Nat := 0
  width : Nat := 0
  height : Nat := 0
  depth : Nat := 0
deriving DecidableEq, Repr

/-- A `VkImageBlit` whose `srcOffsets[0]` and `dstOffsets[0]` are zero: the
mip levels, and the `x` and `y` of `srcOffsets[1]` and `dstOffsets[1]`, whose
`z` is 1. -/
structure VkImageBlit where
  srcMipLevel : Nat := 0
  srcWidth : Int := 0
  srcHeight : Int := 0
  dstMipLevel : Nat := 0
  dstWidth : Int := 0
  dstHeight : Int := 0
deriving DecidableEq, Repr

/-- The commands that `UploadTexture` records into its command buffer. -/
inductive Command where
  | PipelineBarrier (barrier : VkImageMemoryBarrier2)
  | BufferToImage (copy : VkBufferImageCopy)
  | Blit (blit : VkImageBlit)
deriving DecidableEq, Repr

/-- Conversion of a `U32` to `I32`, as in `I32 mipWidth = texture->width`. -/
def toI32 (n : Nat) : Int :=
  if n % 4294967296 < 2147483648 then (n % 4294967296 : Nat) else ((n % 4294967296 : Nat) : Int) - 4294967296

/-- Modelled from the spec: `NextMultipleOf` is not among the sources; the
upload reserves space "at a 16-byte-aligned offset", so this is the least
multiple of `n` that is at least `x`. -/
def NextMultipleOf (x n : Nat) : Nat := (x + n - 1) / n * n

/-- Modelled from the spec: `Buffer::UploadStagingData` is not among the
sources; the upload happens at the reserved offset, "advancing the staging
cursor" past the copied bytes. -/
def Buffer.UploadStagingData (buffer : Buffer) (size offset : Nat) : Buffer :=
  { buffer with stagingPointer := offset + size }

/-- The barrier `stagingBufferTransferBarrier`. -/
def stagingBufferTransferBarrier (texture : Texture) : VkImageMemoryBarrier2 :=
  { srcStageMask := VK_PIPELINE_STAGE_2_TOP_OF_PIPE_BIT,
    srcAccessMask := VK_ACCESS_2_NONE,
    dstStageMask := VK_PIPELINE_STAGE_2_TRANSFER_BIT,
    dstAccessMask := VK_ACCESS_2_TRANSFER_WRITE_BIT,
    oldLayout := VK_IMAGE_LAYOUT_UNDEFINED,
    newLayout := VK_IMAGE_LAYOUT_TRANSFER_DST_OPTIMAL,
    image := texture.image,
    subresourceRange := { baseMipLevel := 0, levelCount := texture.mipmapLevels } }

/-- The copy `stagingBufferCopy`. -/
def stagingBufferCopy (texture : Texture) (offset : Nat) : VkBufferImageCopy :=
  { bufferOffset := offset, mipLevel := 0,
    width := texture.width, height := texture.height, depth := texture.depth }

/-- The barrier `stagingBufferShaderBarrier`. -/
def stagingBufferShaderBarrier (texture : Texture) : VkImageMemoryBarrier2 :=
  { srcStageMask := VK_PIPELINE_STAGE_2_TRANSFER_BIT,
    srcAccessMask := VK_ACCESS_2_TRANSFER_WRITE_BIT,
    dstStageMask :=
      if texture.mipmapLevels > 1 then VK_PIPELINE_STAGE_2_COPY_BIT else VK_PIPELINE_STAGE_2_FRAGMENT_SHADER_BIT,
    dstAccessMask :=
      if texture.mipmapLevels > 1 then VK_ACCESS_2_TRANSFER_WRITE_BIT else VK_ACCESS_2_SHADER_READ_BIT,
    oldLayout := VK_IMAGE_LAYOUT_TRANSFER_DST_OPTIMAL,
    newLayout :=
      if texture.mipmapLevels > 1 then VK_IMAGE_LAYOUT_TRANSFER_DST_OPTIMAL
      else VK_IMAGE_LAYOUT_SHADER_READ_ONLY_OPTIMAL,
    image := texture.image,
    subresourceRange := { baseMipLevel := 0, levelCount := texture.mipmapLevels } }

/-- The barrier `firstBarrier` with its `baseMipLevel` set. -/
def firstBarrier (image : Handle) (baseMipLevel : Nat) : VkImageMemoryBarrier2 :=
  { srcStageMask := VK_PIPELINE_STAGE_2_TRANSFER_BIT,
    srcAccessMask := VK_ACCESS_2_TRANSFER_WRITE_BIT,
    dstStageMask := VK_PIPELINE_STAGE_2_TRANSFER_BIT,
    dstAccessMask := VK_ACCESS_2_TRANSFER_READ_BIT,
    oldLayout := VK_IMAGE_LAYOUT_TRANSFER_DST_OPTIMAL,
    newLayout := VK_IMAGE_LAYOUT_TRANSFER_SRC_OPTIMAL,
    image := image,
    subresourceRange := { baseMipLevel := baseMipLevel, levelCount := 1 } }

/-- The barrier `secondBarrier` with its `baseMipLevel` set. -/
def secondBarrier (image : Handle) (baseMipLevel : Nat) : VkImageMemoryBarrier2 :=
  { srcStageMask := VK_PIPELINE_STAGE_2_TRANSFER_BIT,
    srcAccessMask := VK_ACCESS_2_TRANSFER_READ_BIT,
    dstStageMask := VK_PIPELINE_STAGE_2_FRAGMENT_SHADER_BIT,
    dstAccessMask := VK_ACCESS_2_SHADER_READ_BIT,
    oldLayout := VK_IMAGE_LAYOUT_TRANSFER_SRC_OPTIMAL,
    newLayout := VK_IMAGE_LAYOUT_SHADER_READ_ONLY_OPTIMAL,
    image := image,
    subresourceRange := { baseMipLevel := baseMipLevel, levelCount := 1 } }

/-- The barrier `lastBarrier`, on `blitRange` after
`blitRange.baseMipLevel = texture->mipmapLevels - 1`. -/
def lastBarrier (texture : Texture) : VkImageMemoryBarrier2 :=
  { srcStageMask := VK_PIPELINE_STAGE_2_TRANSFER_BIT,
    srcAccessMask := VK_ACCESS_2_TRANSFER_WRITE_BIT,
    dstStageMask := VK_PIPELINE_STAGE_2_FRAGMENT_SHADER_BIT,
    dstAccessMask := VK_ACCESS_2_SHADER_READ_BIT,
    oldLayout := VK_IMAGE_LAYOUT_TRANSFER_DST_OPTIMAL,
    newLayout := VK_IMAGE_LAYOUT_SHADER_READ_ONLY_OPTIMAL,
    image := texture.image,
    subresourceRange := { baseMipLevel := texture.mipmapLevels - 1, levelCount := 1 } }

/-- The two statements `if (mipWidth > 1) { mipWidth /= 2; }` and
`if (mipHeight > 1) { mipHeight /= 2; }`, for one of the two variables. -/
def halveExtent (x : Int) : Int := if x > 1 then x.tdiv 2 else x

/-- The value of `mipWidth` (or `mipHeight`) after `k` iterations of the loop. -/
def mipExtent (x : Int) : Nat → Int
  | 0 => x
  | k + 1 => halveExtent (mipExtent x k)

/-- What one iteration of the mip loop records, for loop variable `i`. -/
def mipIteration (image : Handle) (i : Nat) (mipWidth mipHeight : Int) : List Command :=
  [Command.PipelineBarrier (firstBarrier image (i - 1)),
   Command.Blit
     { srcMipLevel := i - 1, srcWidth := mipWidth, srcHeight := mipHeight,
       dstMipLevel := i,
       dstWidth := if mipWidth > 1 then mipWidth.tdiv 2 else 1,
       dstHeight := if mipHeight > 1 then mipHeight.tdiv 2 else 1 },
   Command.PipelineBarrier (secondBarrier image (i - 1))]

/-- The loop `for (I32 i = 1; i < texture->mipmapLevels; ++i)`, with a bound on
the number of iterations still allowed.  The variable `i` does not overflow
for `mipmapLevels` below `2^31`. -/
def mipLoop (image : Handle) (mipmapLevels : Nat) : Nat → Nat → Int → Int → List Command
  | 0, _, _, _ => []
  | fuel + 1, i, mipWidth, mipHeight =>
    if i < mipmapLevels then
      mipIteration image i mipWidth mipHeight ++
        mipLoop image mipmapLevels fuel (i + 1) (halveExtent mipWidth) (halveExtent mipHeight)
    else []

/-- The commands between `commandBuffer.Begin()` and `commandBuffer.End()`, for
a texture whose image has been created. -/
def recordUpload (texture : Texture) (offset : Nat) : List Command :=
  [Command.PipelineBarrier (stagingBufferTransferBarrier texture),
   Command.BufferToImage (stagingBufferCopy texture offset),
   Command.PipelineBarrier (stagingBufferShaderBarrier texture)] ++
  (if texture.mipmapLevels > 1 then
    mipLoop texture.image texture.mipmapLevels texture.mipmapLevels 1
        (toI32 texture.width) (toI32 texture.height) ++
      [Command.PipelineBarrier (lastBarrier texture)]
  else [])

/-- What the environment answers during one `UploadTexture`: the command
buffer that `GetWriteCommandBuffer` hands out, and the results and handles of
`vmaCreateImage`, `commandBuffer.End()`, `vkCreateImageView` and
`vkCreateSampler`. -/
structure UploadEnv where
  commandBuffer : Handle := 0
  imageResult : VkResult := 0
  image : Handle := 0
  allocation : Handle := 0
  endResult : VkResult := 0
  viewResult : VkResult := 0
  imageView : Handle := 0
  samplerResult : VkResult := 0
  sampler : Handle := 0

/-- The outcome of one `UploadTexture`: its return value, the renderer and the
texture it leaves, and the commands recorded into the command buffer. -/
structure Uploaded where
  result : Bool
  renderer : Renderer
  texture : Texture
  commands : List Command

/-- Function `Renderer::UploadTexture`.  The call of `vkCreateSampler` writes
`texture->sampler`; the record of calls has no entry for it. -/
def Renderer.UploadTexture (D : Defines) (env : UploadEnv) (texture : Texture) (s : Renderer) : Uploaded :=
  let offset := NextMultipleOf (s.stagingBuffers s.imageIndex).stagingPointer 16
  let staged := (s.stagingBuffers s.imageIndex).UploadStagingData texture.size offset
  let s1 := { s with stagingBuffers := Function.update s.stagingBuffers s.imageIndex staged }
  let texture1 := { texture with image := env.image, allocation := env.allocation }
  let s2 := Renderer.emit [Call.vmaCreateImage env.image env.allocation] s1
  if D.accepts env.imageResult = false then
    { result := false, renderer := s2, texture := texture1, commands := [] } else
  let commands := recordUpload texture1 offset
  if D.accepts env.endResult = false then
    { result := false, renderer := s2, texture := texture1, commands := commands } else
  let pushed := s2.commandBuffers s2.imageIndex ++ [env.commandBuffer]
  let s3 := { s2 with commandBuffers := Function.update s2.commandBuffers s2.imageIndex pushed }
  let texture2 := { texture1 with imageView := env.imageView }
  let s4 := Renderer.emit [Call.vkCreateImageView texture1.image env.imageView] s3
  if D.accepts env.viewResult = false then
    { result := false, renderer := s4, texture := texture2, commands := commands } else
  let texture3 := { texture2 with sampler := env.sampler }
  if D.accepts env.samplerResult = false then
    { result := false, renderer := s4, texture := texture3, commands := commands } else
  { result := true, renderer := s4, texture := texture3, commands := commands }

/-- The blits among recorded commands, in order. -/
def blitsOf : List Command → List VkImageBlit
  | [] => []
  | Command.Blit blit :: rest => blit :: blitsOf rest
  | _ :: rest => blitsOf rest

/-- The barriers among recorded commands, in order. -/
def barriersOf : List Command → List VkImageMemoryBarrier2
  | [] => []
  | Command.PipelineBarrier barrier :: rest => barrier :: barriersOf rest
  | _ :: rest => barriersOf rest

/-- Whether a subresource range covers a mip level. -/
def VkImageSubresourceRange.covers (range : VkImageSubresourceRange) (level : Nat) : Bool :=
  decide (range.baseMipLevel ≤ level ∧ level < range.baseMipLevel + range.levelCount)

/-- Layout tracking, one barrier: for an image of `levels` mip levels whose
level `l` is in layout `layouts l`, the barrier is valid when every level it
covers is in its declared old layout, and it puts the covered levels in its
new layout; the value is `none` when it is not valid. -/
def applyBarrier (levels : Nat) (layouts : Nat → Nat) (barrier : VkImageMemoryBarrier2) : Option (Nat → Nat) :=
  if (List.range levels).all
      (fun l => !barrier.subresourceRange.covers l || decide (layouts l = barrier.oldLayout)) then
    some (fun l => if barrier.subresourceRange.covers l then barrier.newLayout else layouts l)
  else none

/-- Layout tracking through recorded commands: barriers are applied in order,
copies and blits leave the layouts as they are. -/
def trackLayouts (levels : Nat) : List Command → (Nat → Nat) → Option (Nat → Nat)
  | [], layouts => some layouts
  | Command.PipelineBarrier barrier :: rest, layouts =>
    match applyBarrier levels layouts barrier with
    | none => none
    | some layouts1 => trackLayouts levels rest layouts1
  | _ :: rest, layouts => trackLayouts levels rest layouts

/-! ## Materials (Material.cpp 58-131) -/

/-- The methods of `Pipeline` and `Buffer` that `Material` calls.  Their sources
are not there, so they are parameters: the two size accessors of the pipeline,
the accessors `Offset` and `Size` of a buffer, and the two uploads, taken as
functions of the buffer they are called on and of the arguments `data`, `size`
and `offset`. -/
structure ResourceMethods where
  VertexSize : Pipeline → Nat
  InstanceSize : Pipeline → Nat
  Offset : Buffer → Nat
  Size : Buffer → Nat
  UploadVertexData : Buffer → Handle → Nat → Nat → Buffer
  UploadIndexData : Buffer → Handle → Nat → Nat → Buffer

inductive VertexUsage where
  | None
  | Vertices
  | Instances
  | VerticesAndInstances
deriving DecidableEq, Repr

structure PushConstant where
  stages : Nat := 0
  offset : Nat := 0
  size : Nat := 0
  data : Handle := 0
deriving DecidableEq, Repr

/-- The members of `Material`. -/
structure Material where
  pipelineLayout : Handle := 0
  pipeline : Pipeline := {}
  sets : List Handle := []
  pushConstants : List PushConstant := []
  vertexBuffer : Buffer := {}
  indexBuffer : Buffer := {}
  instanceBuffers : Nat → Buffer := fun _ => {}
  vertexUsage : VertexUsage := VertexUsage.None

/-- The commands that `Material::Bind` records into the command buffer, with
their arguments in the order of the source. -/
inductive DrawCommand where
  | BindPipeline (pipeline : Pipeline)
  | BindDescriptorSets (pipelineLayout : Handle) (firstSet setCount : Nat) (sets : List Handle)
  | PushConstants (pipelineLayout : Handle) (stages offset size : Nat) (data : Handle)
  | BindVertexBuffers (count : Nat) (vertexBuffers : List Buffer) (offsets : List Nat)
  | BindIndexBuffer (indexBuffer : Buffer) (offset : Nat)
  | DrawIndexed (indexCount instanceCount third fourth fifth : Nat)
  | Draw (first second third fourth : Nat)
deriving DecidableEq, Repr

/-- A message handed to `Logger::Error`. -/
inductive Logged where
  | Error (message : String)
deriving DecidableEq, Repr

/-- Whether a command is one of the two draw calls. -/
def DrawCommand.isDraw : DrawCommand → Bool
  | DrawCommand.DrawIndexed _ _ _ _ _ => true
  | DrawCommand.Draw _ _ _ _ => true
  | _ => false

/-- The `switch (vertexUsage)` of `Material::Bind`. -/
def Material.bindAndDraw (P : ResourceMethods) (imageIndex : Nat) (m : Material) : List DrawCommand :=
  match m.vertexUsage with
  | VertexUsage.VerticesAndInstances =>
    [DrawCommand.BindVertexBuffers 2 [m.vertexBuffer, m.instanceBuffers imageIndex]
        [P.Offset m.vertexBuffer, P.Offset (m.instanceBuffers imageIndex)],
     DrawCommand.BindIndexBuffer m.indexBuffer (wrapU32 (P.Offset m.indexBuffer)),
     DrawCommand.DrawIndexed (wrapU32 (P.Size m.indexBuffer / 4))
        (wrapU32 (P.Size (m.instanceBuffers imageIndex) / P.InstanceSize m.pipeline)) 0 0 0]
  | VertexUsage.Vertices =>
    [DrawCommand.BindVertexBuffers 1 [m.vertexBuffer] [P.Offset m.vertexBuffer],
     DrawCommand.BindIndexBuffer m.indexBuffer (wrapU32 (P.Offset m.indexBuffer)),
     DrawCommand.DrawIndexed (wrapU32 (P.Size m.indexBuffer / 4)) 1 0 0 0]
  | VertexUsage.Instances =>
    [DrawCommand.BindVertexBuffers 1 [m.instanceBuffers imageIndex] [P.Offset (m.instanceBuffers imageIndex)],
     DrawCommand.Draw 0 3 0 (wrapU32 (P.Size (m.instanceBuffers imageIndex) / P.InstanceSize m.pipeline))]
  | VertexUsage.None =>
    [DrawCommand.Draw 0 3 0 1]

/-- Function `Material::Bind`, with `Renderer::imageIndex` read from the renderer: the
commands it records and the messages it logs.  The function has no call of the
logger. -/
def Material.Bind (P : ResourceMethods) (s : Renderer) (m : Material) : List DrawCommand × List Logged :=
  if (m.vertexUsage = VertexUsage.VerticesAndInstances ∨ m.vertexUsage = VertexUsage.Instances) ∧
      P.Offset (m.instanceBuffers s.imageIndex) = U64_MAX then ([], []) else
  if (m.vertexUsage = VertexUsage.VerticesAndInstances ∨ m.vertexUsage = VertexUsage.Vertices) ∧
      P.Offset m.vertexBuffer = U64_MAX then ([], []) else
  ([DrawCommand.BindPipeline m.pipeline] ++
    (if m.sets.length ≠ 0 then
      [DrawCommand.BindDescriptorSets m.pipelineLayout 0 (wrapU32 m.sets.length) m.sets] else []) ++
    m.pushConstants.map (fun pc => DrawCommand.PushConstants m.pipelineLayout pc.stages pc.offset pc.size pc.data) ++
    m.bindAndDraw P s.imageIndex, [])

/-- Function `Material::UploadVertices`: the material it leaves and the messages it logs. -/
def Material.UploadVertices (P : ResourceMethods) (m : Material) (data : Handle) (size offset : Nat) :
    Material × List Logged :=
  if P.VertexSize m.pipeline ≠ 0 then
    ({ m with vertexBuffer := P.UploadVertexData m.vertexBuffer data size offset }, [])
  else (m, [Logged.Error "This Material Does Not Use Vertices!"])

/-- Function `Material::UploadInstances`, with `Renderer::imageIndex` read from the renderer. -/
def Material.UploadInstances (P : ResourceMethods) (s : Renderer) (m : Material) (data : Handle)
    (size offset : Nat) : Material × List Logged :=
  if P.InstanceSize m.pipeline ≠ 0 then
    let uploaded := P.UploadVertexData (m.instanceBuffers s.imageIndex) data size offset
    ({ m with instanceBuffers := Function.update m.instanceBuffers s.imageIndex uploaded }, [])
  else (m, [Logged.Error "This Material Does Not Use Instances!"])

/-- Function `Material::UploadInstancesAll`; its loop runs over `i < MaxSwapchainImages`. -/
def Material.UploadInstancesAll (P : ResourceMethods) (D : Defines) (m : Material) (data : Handle)
    (size offset : Nat) : Material × List Logged :=
  if P.InstanceSize m.pipeline ≠ 0 then
    ((List.range D.MaxSwapchainImages).foldl
      (fun (m : Material) i =>
        { m with instanceBuffers :=
            Function.update m.instanceBuffers i (P.UploadVertexData (m.instanceBuffers i) data size offset) })
      m, [])
  else (m, [Logged.Error "This Material Does Not Use Instances!"])

/-- Function `Material::UploadIndices`. -/
def Material.UploadIndices (P : ResourceMethods) (m : Material) (data : Handle) (size offset : Nat) :
    Material × List Logged :=
  if P.VertexSize m.pipeline ≠ 0 then
    ({ m with indexBuffer := P.UploadIndexData m.indexBuffer data size offset }, [])
  else (m, [Logged.Error "This Material Does Not Use Indices!"])

/-! ## Concrete executions -/

/-- GPU progress: the render-finished counter of `slot` grows by one, as when
the render submission last signalled on that slot completes. -/
def renderDone (slot : Nat) : Renderer.Clock :=
  { renderFinished := fun i => if i = slot then 1 else 0 }

/-- A frame before which the GPU makes no progress: acquire returns image `i`,
nothing is recorded and every call succeeds. -/
def idleGpuFrame (i : Nat) : Renderer.FrameEnv :=
  { sync := { acquire := { imageIndex := i } } }

/-- A frame before whose wait the render submission of the previous frame, on
slot `previous`, completes: acquire returns image `i`, nothing is recorded and
every call succeeds. -/
def frameAfter (previous i : Nat) : Renderer.FrameEnv :=
  { gpuBefore := renderDone previous, sync := { acquire := { imageIndex := i } } }

/-- Scenario A: five frames with two slots and a GPU that completes every
frame before the next one begins. -/
def scenarioA : List Renderer.FrameEnv :=
  [idleGpuFrame 0, frameAfter 0 1, frameAfter 1 0, frameAfter 0 1, frameAfter 1 0]

/-- Two slots; frame 0 acquires image 1 while its slot cursor is 0, records one
transfer command buffer and retires a buffer; the GPU makes no progress at all
before or during the next frame. -/
def staleTransferRun : List Renderer.FrameEnv :=
  [{ sync := { acquire := { imageIndex := 1 } },
     updates := [Renderer.Recorded.transfer 5,
       Renderer.Recorded.destroyBuffer { vkBuffer := 7, bufferAllocation := 8 }] },
   idleGpuFrame 0]

/-- One slot; the GPU completes the render work of frame 0 only while frame 1
is blocked in its wait. -/
def singleSlotRun : List Renderer.FrameEnv :=
  [idleGpuFrame 0, { sync := { acquire := { imageIndex := 0 }, gpuDuringWait := renderDone 0 } }]

/-- Scenario B: two slots; a buffer is retired during frame 0, and the GPU
completes every frame before the next one begins. -/
def scenarioB : List Renderer.FrameEnv :=
  [{ sync := { acquire := { imageIndex := 0 } },
     updates := [Renderer.Recorded.destroyBuffer { vkBuffer := 7, bufferAllocation := 8 }] },
   frameAfter 0 1, frameAfter 1 0]

/-- A resized surface (800 x 600 becoming 1024 x 768) on which every rebuild
step succeeds with fresh handles. -/
def resizedSurface : Renderer.RecreateEnv :=
  { surface_properties := { currentExtent := { width := 1024, height := 768 } },
    surfaceInfo := { capabilities := { minImageCount := 1, maxImageCount := 3,
                                       currentExtent := { width := 1024, height := 768 } },
                     presentModes := [VK_PRESENT_MODE_FIFO_KHR],
                     formats := [{ format := VK_FORMAT_B8G8R8A8_SRGB }] },
    color := fun i => { image := 100 + i, allocation := 110 + i, imageView := 120 + i },
    depth := fun i => { image := 130 + i, allocation := 140 + i, imageView := 150 + i },
    swapchain := { vkSwapchain := 160, images := [161, 162], view := fun i => 170 + i,
                   framebuffer := fun i => 180 + i } }

/-- A frame whose first acquire reports a stale surface and whose retried
acquire, after the surface has been recreated, succeeds with image 0. -/
def staleAcquireFrame : Renderer.FrameEnv :=
  { sync := { acquire := { result := VK_ERROR_OUT_OF_DATE_KHR, imageIndex := 0 },
              recreate := resizedSurface,
              retry := { result := VK_SUCCESS, imageIndex := 0 } } }

/-- Two slots; the slot cursor is 0 and the acquired image is 1, with one
transfer command buffer recorded for it. -/
def mismatchedState : Renderer :=
  { imageCount := 2, frameIndex := 0, imageIndex := 1, commandBuffers := fun i => if i = 1 then [5] else [] }

/-- A texture of 8 x 4 texels with a chain of 4 mip levels. -/
def fourLevelTexture : Texture :=
  { width := 8, height := 4, depth := 1, size := 128, mipmapLevels := 4 }

/-- Three slots with live attachments and a live swapchain, on an 800 x 600
surface. -/
def threeSlotRenderer : Renderer :=
  { imageCount := 3, surfaceWidth := 800, surfaceHeight := 600,
    colorTextures := fun i => { image := 10 + i, imageView := 20 + i, allocation := 30 + i },
    depthTextures := fun i => { image := 40 + i, imageView := 50 + i, allocation := 60 + i },
    swapchain := { vkSwapchain := 70, images := [71, 72, 73], imageViews := [74, 75, 76],
                   framebuffers := [77, 78, 79] } }

/-- One slot with live attachments and a live swapchain, on an 800 x 600
surface. -/
def oneSlotRenderer : Renderer :=
  { imageCount := 1, surfaceWidth := 800, surfaceHeight := 600,
    colorTextures := fun i => if i = 0 then { image := 1, imageView := 2, allocation := 3 } else {},
    depthTextures := fun i => if i = 0 then { image := 4, imageView := 5, allocation := 6 } else {},
    swapchain := { vkSwapchain := 7, images := [8], imageViews := [9], framebuffers := [10] } }

/-- A resized surface (1024 x 768) with one image, on which the first
`vmaCreateImage` of `CreateColorTextures` fails and writes null handles. -/
def failedColorRebuild : Renderer.RecreateEnv :=
  { surface_properties := { currentExtent := { width := 1024, height := 768 } },
    surfaceInfo := { capabilities := { minImageCount := 1, maxImageCount := 1,
                                       currentExtent := { width := 1024, height := 768 } },
                     presentModes := [VK_PRESENT_MODE_FIFO_KHR],
                     formats := [{ format := VK_FORMAT_B8G8R8A8_SRGB }] },
    color := fun _ => { imageResult := VK_ERROR_DEVICE_LOST, image := 0, allocation := 0 } }

/-- GPU progress: the render-finished and the transfer-finished counter of
`slot` grow by one each, as when the submissions last signalled on that slot
complete. -/
def slotDone (slot : Nat) : Renderer.Clock :=
  { renderFinished := fun i => if i = slot then 1 else 0,
    transferFinished := fun i => if i = slot then 1 else 0 }

/-- Two slots; frame 0 acquires image 1 while its slot cursor is 0 and records
one transfer command buffer; the GPU makes no progress until frame 2 is
blocked in its wait. -/
def crossedTransferRun : List Renderer.FrameEnv :=
  [{ sync := { acquire := { imageIndex := 1 } }, updates := [Renderer.Recorded.transfer 5] },
   idleGpuFrame 0,
   { sync := { acquire := { imageIndex := 1 }, gpuDuringWait := slotDone 1 } }]

/-! ## Deque (Deque.hpp) -/

/-- Decrement of a `U64`, as in `--size`, `--front` and `capacity - 1`. -/
def decU64 (n : Nat) : Nat := (n + 18446744073709551615) % 18446744073709551616

/-- The members of `Deque<Type>`.  The storage `array` is read and written by
index.  The constructors leave `capacity` at the value that
`BitFloor(Memory::Allocate(...))` returns, functions that are not among the
sources, so the capacity is whatever the `capacity` member holds. -/
structure Deque (α : Type) where
  capacity : Nat := 0
  size : Nat := 0
  front : Nat := U64_MAX
  back : Nat := U64_MAX
  array : Nat → α

/-- Function `Deque::Capacity`. -/
def Deque.Capacity {α : Type} (d : Deque α) : Nat := d.capacity

/-- Function `Deque::Size`. -/
def Deque.Size {α : Type} (d : Deque α) : Nat := d.size

/-- Function `Deque::Empty`. -/
def Deque.Empty {α : Type} (d : Deque α) : Bool := decide (d.front = U64_MAX)

/-- Function `Deque::Full`: `(back + 1) % capacity == front` in `U64` arithmetic.  The
remainder by a zero `capacity`, undefined in the source, is the dividend here. -/
def Deque.Full {α : Type} (d : Deque α) : Bool := decide (wrapU64 (d.back + 1) % d.capacity = d.front)

/-- Function `Deque::Clear`. -/
def Deque.Clear {α : Type} (d : Deque α) : Deque α :=
  { d with front := U64_MAX, back := U64_MAX }

/-- Function `Deque::PushFront`, both overloads: they differ in `value` against
`Move(value)` only. -/
def Deque.PushFront {α : Type} (d : Deque α) (value : α) : Deque α :=
  if d.Full = true then d else
  let d1 := { d with size := wrapU64 (d.size + 1) }
  if d1.front = U64_MAX then
    { d1 with front := 0, back := 0, array := Function.update d1.array 0 value }
  else
    let front := if d1.front = 0 then decU64 d1.capacity else decU64 d1.front
    { d1 with front := front, array := Function.update d1.array front value }

/-- Function `Deque::PushBack`, both overloads. -/
def Deque.PushBack {α : Type} (d : Deque α) (value : α) : Deque α :=
  if d.Full = true then d else
  let d1 := { d with size := wrapU64 (d.size + 1) }
  if d1.back = U64_MAX then
    { d1 with front := 0, back := 0, array := Function.update d1.array 0 value }
  else
    let back := if d1.back = decU64 d1.capacity then 0 else wrapU64 (d1.back + 1)
    { d1 with back := back, array := Function.update d1.array back value }

/-- Overload `bool Deque::PopFront(Type& value)`: the return value, the content of
`value` after the call, and the deque.  The element moved from stays in the
storage. -/
def Deque.PopFront {α : Type} (d : Deque α) (value : α) : Bool × α × Deque α :=
  if d.Empty = true then (false, value, d) else
  let moved := d.array d.front
  let d1 := { d with size := decU64 d.size }
  if d1.front = d1.back then (true, moved, { d1 with front := U64_MAX, back := U64_MAX })
  else (true, moved, { d1 with front := if d1.front = decU64 d1.capacity then 0 else wrapU64 (d1.front + 1) })

/-- Overload `bool Deque::PopBack(Type& value)`. -/
def Deque.PopBack {α : Type} (d : Deque α) (value : α) : Bool × α × Deque α :=
  if d.Empty = true then (false, value, d) else
  let moved := d.array d.back
  let d1 := { d with size := decU64 d.size }
  if d1.front = d1.back then (true, moved, { d1 with front := U64_MAX, back := U64_MAX })
  else (true, moved, { d1 with back := if d1.back = 0 then decU64 d1.capacity else decU64 d1.back })

/-- Overload `void Deque::PopFront()`. -/
def Deque.PopFrontDiscard {α : Type} (d : Deque α) : Deque α :=
  if d.Empty = true then d else
  let d1 := { d with size := decU64 d.size }
  if d1.front = d1.back then { d1 with front := U64_MAX, back := U64_MAX }
  else { d1 with front := if d1.front = decU64 d1.capacity then 0 else wrapU64 (d1.front + 1) }

/-- Overload `void Deque::PopBack()`. -/
def Deque.PopBackDiscard {α : Type} (d : Deque α) : Deque α :=
  if d.Empty = true then d else
  let d1 := { d with size := decU64 d.size }
  if d1.front = d1.back then { d1 with front := U64_MAX, back := U64_MAX }
  else { d1 with back := if d1.back = 0 then decU64 d1.capacity else decU64 d1.back }

/-- Function `Deque::Front`. -/
def Deque.Front {α : Type} (d : Deque α) : α := d.array d.front

/-- Function `Deque::Back`. -/
def Deque.Back {α : Type} (d : Deque α) : α := d.array d.back

/-- A call on a deque; a pop with a `value` argument carries the content of
`value` before the call. -/
inductive DequeCall (α : Type) where
  | PushFront (value : α)
  | PushBack (value : α)
  | PopFront (value : α)
  | PopBack (value : α)
  | PopFrontDiscard
  | PopBackDiscard
  | Clear
deriving DecidableEq, Repr

/-- The deque after a call. -/
def Deque.call {α : Type} (d : Deque α) : DequeCall α → Deque α
  | DequeCall.PushFront value => d.PushFront value
  | DequeCall.PushBack value => d.PushBack value
  | DequeCall.PopFront value => (d.PopFront value).2.2
  | DequeCall.PopBack value => (d.PopBack value).2.2
  | DequeCall.PopFrontDiscard => d.PopFrontDiscard
  | DequeCall.PopBackDiscard => d.PopBackDiscard
  | DequeCall.Clear => d.Clear

/-- The deque that a sequence of calls makes of the empty deque of capacity `c`
over the storage `array`. -/
def Deque.after {α : Type} (c : Nat) (array : Nat → α) (calls : List (DequeCall α)) : Deque α :=
  calls.foldl Deque.call { capacity := c, array := array }

/-- The stored elements read circularly from `front` to `back`. -/
def Deque.contents {α : Type} (d : Deque α) : List α :=
  if d.front = U64_MAX then []
  else (List.range ((d.back + d.capacity - d.front) % d.capacity + 1)).map
    (fun k => d.array ((d.front + k) % d.capacity))

/-- Modelled from the spec: a push on the bounded abstract list of capacity `c`
puts the value in front of a list shorter than `c` and changes nothing on a list
of length `c`. -/
def BoundedList.PushFront {α : Type} (c : Nat) (l : List α) (value : α) : List α :=
  if l.length = c then l else value :: l

/-- Modelled from the spec: the push at the back of the bounded abstract list. -/
def BoundedList.PushBack {α : Type} (c : Nat) (l : List α) (value : α) : List α :=
  if l.length = c then l else l ++ [value]

/-- Modelled from the spec: `PopFront(value)` on the abstract list returns `false`
and changes nothing on the empty list, and otherwise returns `true` with the
first element and removes it. -/
def BoundedList.PopFront {α : Type} (l : List α) (value : α) : Bool × α × List α :=
  match l with
  | [] => (false, value, [])
  | first :: rest => (true, first, rest)

/-- Modelled from the spec: `PopBack(value)` on the abstract list, with the last
element. -/
def BoundedList.PopBack {α : Type} (l : List α) (value : α) : Bool × α × List α :=
  match l.getLast? with
  | none => (false, value, l)
  | some last => (true, last, l.dropLast)

/-- Modelled from the spec: the abstract list after a call. -/
def BoundedList.call {α : Type} (c : Nat) (l : List α) : DequeCall α → List α
  | DequeCall.PushFront value => BoundedList.PushFront c l value
  | DequeCall.PushBack value => BoundedList.PushBack c l value
  | DequeCall.PopFront value => (BoundedList.PopFront l value).2.2
  | DequeCall.PopBack value => (BoundedList.PopBack l value).2.2
  | DequeCall.PopFrontDiscard => l.tail
  | DequeCall.PopBackDiscard => l.dropLast
  | DequeCall.Clear => []

/-- Modelled from the spec: the abstract list that a sequence of calls makes of
the empty list. -/
def BoundedList.after {α : Type} (c : Nat) (calls : List (DequeCall α)) : List α :=
  calls.foldl (BoundedList.call c) []

/-- The representation relation: the deque has capacity `c` and stores the list
`l` from `front` to `back`, index by index modulo `c`; `front` and `back` are
`U64_MAX` when the list is empty. -/
def Deque.Represents {α : Type} (d : Deque α) (c : Nat) (l : List α) : Prop :=
  d.capacity = c ∧ l.length ≤ c ∧
  (l = [] → d.front = U64_MAX ∧ d.back = U64_MAX) ∧
  (l ≠ [] → d.front < c ∧ d.back = (d.front + (l.length - 1)) % c ∧
    ∀ k, k < l.length → l[k]? = some (d.array ((d.front + k) % c)))

/-- Calls that wrap around the end of a storage of 3 elements. -/
def wrappingCalls : List (DequeCall Nat) :=
  [DequeCall.PushBack 1, DequeCall.PushBack 2, DequeCall.PushFront 0, DequeCall.PopBack 9,
   DequeCall.PushFront 5, DequeCall.PopFrontDiscard, DequeCall.PushBack 3]

/-! ## Lemmas on the record of calls and on `DestroyObjects` -/

namespace Renderer

theorem emit_nil (s : Renderer) : emit [] s = s := by
  simp [emit]

theorem emit_emit (a b : List Call) (s : Renderer) : emit b (emit a s) = emit (a ++ b) s := by
  simp [emit, List.append_assoc]

theorem foldl_emit {α : Type} (g : α → List Call) :
    ∀ (xs : List α) (s : Renderer), xs.foldl (fun st x => emit (g x) st) s = emit (xs.flatMap g) s
  | [], s => by simp [emit_nil]
  | x :: xs, s => by
    simp only [List.foldl_cons, List.flatMap_cons]
    rw [foldl_emit g xs, emit_emit]

theorem flatMap_singleton_eq_map {α β : Type} (f : α → β) (l : List α) :
    l.flatMap (fun v => [f v]) = l.map f := by
  induction l with
  | nil => rfl
  | cons a l ih => simp [List.flatMap_cons, ih]

theorem destroySwapchainData_eq (st : Renderer) (data : SwapchainDestructionData) :
    destroySwapchainData st data = emit (swapchainReleases data) st := by
  unfold destroySwapchainData swapchainReleases
  simp only []
  rw [foldl_emit (fun v => [Call.vkDestroyImageView v]) data.imageViews st,
    foldl_emit (fun v => [Call.vkDestroyFramebuffer v]) data.framebuffers, emit_emit, emit_emit,
    flatMap_singleton_eq_map, flatMap_singleton_eq_map, List.append_assoc]

theorem destroyTextureData_eq (st : Renderer) (data : TextureDestructionData) :
    destroyTextureData st data = emit (textureReleases data) st := by
  unfold destroyTextureData textureReleases
  by_cases h1 : data.imageView = 0 <;> by_cases h2 : data.image = 0 <;>
    simp [h1, h2, emit_nil, emit_emit]

theorem destroyBufferData_eq (st : Renderer) (data : BufferDestructionData) :
    destroyBufferData st data = emit (bufferReleases data) st := by
  unfold destroyBufferData bufferReleases
  by_cases h1 : data.vkBuffer = 0 <;> by_cases h2 : data.vkBufferStaging = 0 <;>
    simp [h1, h2, emit_nil, emit_emit]

theorem destroyPipelineData_eq (st : Renderer) (data : PipelineDestructionData) :
    destroyPipelineData st data = emit (pipelineReleases data) st := by
  unfold destroyPipelineData pipelineReleases
  by_cases h1 : data.vkPipeline = 0 <;> simp [h1, emit_nil]

theorem destroyDescriptorSetData_eq (st : Renderer) (data : DescriptorSetDestructionData) :
    destroyDescriptorSetData st data = emit (descriptorSetReleases data) st := by
  unfold destroyDescriptorSetData descriptorSetReleases
  split_ifs <;> simp [emit_emit]

theorem foldl_congr_emit {α : Type} (f : Renderer → α → Renderer) (g : α → List Call)
    (h : ∀ st x, f st x = emit (g x) st) (xs : List α) (s : Renderer) :
    xs.foldl f s = emit (xs.flatMap g) s := by
  have : f = fun st x => emit (g x) st := by funext st x; exact h st x
  rw [this, foldl_emit]

theorem DestroyObjects_eq (s : Renderer) :
    DestroyObjects s =
      { emit (pendingReleases s) s with
        swapchainsToDestroy := [], texturesToDestroy := [], buffersToDestroy := [],
        pipelinesToDestroy := [], descriptorSetsToDestroy := [] } := by
  unfold DestroyObjects pendingReleases
  simp only [foldl_congr_emit _ _ destroySwapchainData_eq, foldl_congr_emit _ _ destroyTextureData_eq,
    foldl_congr_emit _ _ destroyBufferData_eq, foldl_congr_emit _ _ destroyPipelineData_eq,
    foldl_congr_emit _ _ destroyDescriptorSetData_eq]
  simp [emit, List.append_assoc]

/-! ## Surface recreation leaves the frame state alone; the cursor -/

theorem frameState_CreateSurfaceInfo (D : Defines) (env : SurfaceInfoEnv) (s : Renderer) :
    frameState (CreateSurfaceInfo D env s).2 = frameState s := rfl

theorem frameState_scheduleAttachments :
    ∀ (l : List Nat) (s : Renderer), frameState (scheduleAttachments l s) = frameState s
  | [], _ => rfl
  | i :: rest, s => by
    unfold scheduleAttachments
    rw [frameState_scheduleAttachments rest]
    rfl

theorem frameState_createColorTexturesLoop (D : Defines) (env : Nat → ImageCreateEnv) :
    ∀ (l : List Nat) (s : Renderer), frameState (createColorTexturesLoop D env l s).2 = frameState s
  | [], _ => rfl
  | i :: rest, s => by
    unfold createColorTexturesLoop
    simp only []
    split_ifs
    · rfl
    · rfl
    · rw [frameState_createColorTexturesLoop D env rest]
      rfl

theorem frameState_createDepthTexturesLoop (D : Defines) (env : Nat → ImageCreateEnv) :
    ∀ (l : List Nat) (s : Renderer), frameState (createDepthTexturesLoop D env l s).2 = frameState s
  | [], _ => rfl
  | i :: rest, s => by
    unfold createDepthTexturesLoop
    simp only []
    split_ifs
    · rfl
    · rfl
    · rw [frameState_createDepthTexturesLoop D env rest]
      rfl

theorem frameState_swapchainCreateLoop (D : Defines) (env : SwapchainEnv) :
    ∀ (l : List Nat) (s : Renderer), frameState (swapchainCreateLoop D env l s).2 = frameState s
  | [], _ => rfl
  | i :: rest, s => by
    unfold swapchainCreateLoop
    simp only []
    split_ifs
    · rfl
    · rfl
    · rw [frameState_swapchainCreateLoop D env rest]
      rfl

theorem frameState_SwapchainCreate (D : Defines) (env : SwapchainEnv) (s : Renderer) :
    frameState (SwapchainCreate D env s).2 = frameState s := by
  unfold SwapchainCreate
  simp only []
  split_ifs
  · rfl
  · rw [frameState_swapchainCreateLoop]
    rfl

theorem frameState_RecreateSwapchain (D : Defines) (env : RecreateEnv) (s : Renderer) :
    frameState (RecreateSwapchain D env s).2 = frameState s := by
  unfold RecreateSwapchain
  simp only []
  split_ifs
  · rfl
  · rfl
  · unfold CreateColorTextures
    rw [frameState_createColorTexturesLoop, frameState_scheduleAttachments, frameState_CreateSurfaceInfo]
  · unfold CreateDepthTextures CreateColorTextures
    rw [frameState_createDepthTexturesLoop, frameState_createColorTexturesLoop,
      frameState_scheduleAttachments, frameState_CreateSurfaceInfo]
  · unfold CreateDepthTextures CreateColorTextures
    rw [frameState_SwapchainCreate, frameState_createDepthTexturesLoop, frameState_createColorTexturesLoop,
      frameState_scheduleAttachments, frameState_CreateSurfaceInfo]

theorem cursorOf_of_frameState {s t : Renderer} (h : frameState t = frameState s) :
    cursorOf t = cursorOf s := by
  have h1 := congrArg FrameState.frameIndex h
  have h2 := congrArg FrameState.previousFrame h
  have h3 := congrArg FrameState.absoluteFrame h
  simp only [frameState] at h1 h2 h3
  simp [cursorOf, h1, h2, h3]

theorem cursorOf_RecreateSwapchain (D : Defines) (env : RecreateEnv) (s : Renderer) :
    cursorOf (RecreateSwapchain D env s).2 = cursorOf s :=
  cursorOf_of_frameState (frameState_RecreateSwapchain D env s)

theorem cursorOf_DestroyObjects (s : Renderer) : cursorOf (DestroyObjects s) = cursorOf s := by
  rw [DestroyObjects_eq]
  rfl

theorem cursorOf_record (s : Renderer) (r : Recorded) : cursorOf (record s r) = cursorOf s := by
  cases r <;> rfl

theorem cursorOf_foldl_record : ∀ (l : List Recorded) (s : Renderer),
    cursorOf (l.foldl record s) = cursorOf s
  | [], _ => rfl
  | r :: l, s => by
    rw [List.foldl_cons, cursorOf_foldl_record l, cursorOf_record]

theorem cursorOf_SubmitTransfer (s : Renderer) : cursorOf (SubmitTransfer s) = cursorOf s := by
  unfold SubmitTransfer
  split_ifs <;> rfl

theorem cursorOf_submitRender (s : Renderer) : cursorOf (submitRender s) = cursorOf s := rfl

theorem cursorOf_presentAndAdvance (s : Renderer) :
    cursorOf (presentAndAdvance s) =
      (wrapU32 (s.frameIndex + 1) % s.imageCount, s.frameIndex, wrapU32 (s.absoluteFrame + 1)) := rfl

/-- The cursor after `Submit`: advanced when the queue submission was
accepted, untouched otherwise. -/
theorem cursorOf_Submit (D : Defines) (env : SubmitEnv) (s : Renderer) :
    cursorOf (Submit D env s) =
      if D.accepts env.submitResult = true then
        (wrapU32 (s.frameIndex + 1) % s.imageCount, s.frameIndex, wrapU32 (s.absoluteFrame + 1))
      else cursorOf s := by
  unfold Submit
  simp only []
  by_cases h : D.accepts env.submitResult = true
  · simp only [h, if_true, Bool.true_eq_false, if_false]
    split_ifs
    · rw [cursorOf_RecreateSwapchain]
      rfl
    · rfl
  · have h2 : D.accepts env.submitResult = false := by simpa using h
    simp only [h2, if_true, Bool.false_eq_true, if_false]
    rfl

/-! ## What Synchronize and Update do -/

theorem vkWaitSemaphores_some {gpu during observed : Clock} {rs rv ts tv : Nat}
    (h : vkWaitSemaphores gpu during rs rv ts tv = some observed) :
    observed = gpu.advance during ∧ rv ≤ observed.renderFinished rs ∧ tv ≤ observed.transferFinished ts := by
  unfold vkWaitSemaphores at h
  simp only [] at h
  split_ifs at h with hc
  cases h
  exact ⟨rfl, hc.1, hc.2⟩

theorem calls_acquireAndRequestWait_DestroyObjects (env : AcquireEnv) (s : Renderer) :
    (DestroyObjects (acquireAndRequestWait env s)).calls.drop (acquireAndRequestWait env s).calls.length =
      pendingReleases s := by
  rw [DestroyObjects_eq]
  show ((acquireAndRequestWait env s).calls ++ pendingReleases (acquireAndRequestWait env s)).drop _ = _
  rw [List.drop_left]
  rfl

/-- What a returning `Synchronize` has done. -/
theorem Synchronize_some {D : Defines} {env : SynchronizeEnv} {gpu : Clock} {s : Renderer}
    {r : Synchronized} (h : Synchronize D env gpu s = some r) :
    r.gpu = gpu.advance env.gpuDuringWait ∧
    s.renderWaitValues s.previousFrame ≤ r.gpu.renderFinished s.previousFrame ∧
    s.transferWaitValues s.previousFrame ≤ r.gpu.transferFinished s.previousFrame ∧
    r.renderer = synchronizedRenderer D env s ∧
    r.result = synchronizedResult D env ∧
    r.reclaimed = pendingReleases s ∧
    r.validated = (if env.acquire.result ≠ VK_SUBOPTIMAL_KHR then some env.acquire.result else none) := by
  unfold Synchronize at h
  simp only [] at h
  split at h
  · cases h
  · rename_i observed hw
    obtain ⟨h1, h2, h3⟩ := vkWaitSemaphores_some hw
    have hrec := calls_acquireAndRequestWait_DestroyObjects env.acquire s
    unfold synchronizedRenderer synchronizedResult
    split_ifs at h ⊢ <;> cases h <;> simp_all

theorem cursorOf_synchronizedRenderer (D : Defines) (env : SynchronizeEnv) (s : Renderer) :
    cursorOf (synchronizedRenderer D env s) = cursorOf s := by
  unfold synchronizedRenderer
  simp only []
  have h4 : cursorOf (resetRecording (DestroyObjects (acquireAndRequestWait env.acquire s))) = cursorOf s := by
    show cursorOf (DestroyObjects (acquireAndRequestWait env.acquire s)) = cursorOf s
    rw [cursorOf_DestroyObjects]
    rfl
  split_ifs
  · unfold recreateAndRetry
    show cursorOf (RecreateSwapchain D env.recreate _).2 = cursorOf s
    rw [cursorOf_RecreateSwapchain, h4]
  · exact h4

/-- What a returning `Update` has done. -/
theorem Update_some {D : Defines} {env : FrameEnv} {sim sim' : Sim} {fr : FrameRecord}
    (h : Update D env sim = some (sim', fr)) :
    fr.pre = sim.renderer ∧ fr.post = sim'.renderer ∧
    fr.waitBegin = sim.gpu.advance env.gpuBefore ∧
    fr.waitEnd = fr.waitBegin.advance env.sync.gpuDuringWait ∧
    sim'.gpu = fr.waitEnd ∧
    sim.renderer.renderWaitValues sim.renderer.previousFrame ≤
      fr.waitEnd.renderFinished sim.renderer.previousFrame ∧
    sim.renderer.transferWaitValues sim.renderer.previousFrame ≤
      fr.waitEnd.transferFinished sim.renderer.previousFrame ∧
    fr.reclaimed = pendingReleases sim.renderer ∧
    fr.afterSync = synchronizedRenderer D env.sync sim.renderer ∧
    (if synchronizedResult D env.sync = true then
      fr.atSubmit = some (env.renders.foldl record (SubmitTransfer (env.updates.foldl record fr.afterSync))) ∧
      fr.presented = D.accepts env.submit.submitResult ∧
      fr.post = recordAndSubmit D env fr.afterSync
    else fr.atSubmit = none ∧ fr.presented = false ∧ fr.post = fr.afterSync) := by
  unfold Update at h
  simp only [] at h
  split at h
  · cases h
  · rename_i sync hs
    obtain ⟨h1, h2, h3, h4, h5, h6, -⟩ := Synchronize_some hs
    split_ifs at h with hres
    · cases h
      rw [h5] at hres
      refine ⟨rfl, rfl, rfl, h1, rfl, h2, h3, h6, h4, ?_⟩
      rw [if_neg (by simp [hres])]
      exact ⟨rfl, rfl, rfl⟩
    · cases h
      rw [h5] at hres
      have hres2 : synchronizedResult D env.sync = true := by simpa using hres
      refine ⟨rfl, rfl, rfl, h1, rfl, h2, h3, h6, h4, ?_⟩
      rw [if_pos hres2]
      exact ⟨rfl, rfl, rfl⟩

/-- The cursor across one `Update`: advanced exactly when the frame was
presented, with the modulus `imageCount` that `Submit` found. -/
theorem Update_cursor {D : Defines} {env : FrameEnv} {sim sim' : Sim} {fr : FrameRecord}
    (h : Update D env sim = some (sim', fr)) :
    (fr.presented = true → ∃ sb, fr.atSubmit = some sb ∧
      cursorOf sim'.renderer = (wrapU32 (sim.renderer.frameIndex + 1) % sb.imageCount,
        sim.renderer.frameIndex, wrapU32 (sim.renderer.absoluteFrame + 1))) ∧
    (fr.presented = false → cursorOf sim'.renderer = cursorOf sim.renderer) := by
  obtain ⟨-, hpost, -, -, -, -, -, -, hsync, hrest⟩ := Update_some h
  have hc := cursorOf_synchronizedRenderer D env.sync sim.renderer
  rw [← hsync] at hc
  split_ifs at hrest with hres
  · obtain ⟨hat, hpres, hp⟩ := hrest
    have hsb : cursorOf (env.renders.foldl record (SubmitTransfer (env.updates.foldl record fr.afterSync))) =
        cursorOf sim.renderer := by
      rw [cursorOf_foldl_record, cursorOf_SubmitTransfer, cursorOf_foldl_record, hc]
    have hsub := cursorOf_Submit D env.submit
      (env.renders.foldl record (SubmitTransfer (env.updates.foldl record fr.afterSync)))
    rw [← hpost, hp]
    unfold recordAndSubmit
    rw [hsub]
    simp only [cursorOf, Prod.mk.injEq] at hsb
    constructor
    · intro hp1
      refine ⟨_, hat, ?_⟩
      rw [hpres] at hp1
      simp only [hp1, if_true, hsb.1, hsb.2.2]
    · intro hp1
      rw [hpres] at hp1
      simp only [hp1, Bool.false_eq_true, if_false, cursorOf, hsb.1, hsb.2.1, hsb.2.2]
  · obtain ⟨-, hpres, hp⟩ := hrest
    constructor
    · intro hp1
      rw [hpres] at hp1
      cases hp1
    · intro _
      rw [← hpost, hp, hc]

/-! ## Runs of the frame protocol -/

theorem run_cons_some {D : Defines} {env : FrameEnv} {rest : List FrameEnv} {sim sim' : Sim}
    {frames : List FrameRecord} (h : run D (env :: rest) sim = some (sim', frames)) :
    ∃ sim1 fr frames', Update D env sim = some (sim1, fr) ∧ run D rest sim1 = some (sim', frames') ∧
      frames = fr :: frames' := by
  unfold run at h
  split at h
  · cases h
  · rename_i sim1 fr hu
    split at h
    · cases h
    · rename_i sim2 frames' hr
      cases h
      exact ⟨sim1, fr, frames', hu, hr, rfl⟩

theorem run_nil_some {D : Defines} {sim sim' : Sim} {frames : List FrameRecord}
    (h : run D [] sim = some (sim', frames)) : sim' = sim ∧ frames = [] := by
  unfold run at h
  cases h
  exact ⟨rfl, rfl⟩

/-- In a run whose frames are all presented with the same `imageCount`, the
slot cursor counts the frames modulo that number. -/
theorem run_frameIndex {D : Defines} {N : Nat} (hN : 1 ≤ N) (hU : N < 4294967296) :
    ∀ (envs : List FrameEnv) (sim sim' : Sim) (frames : List FrameRecord),
      run D envs sim = some (sim', frames) →
      sim.renderer.frameIndex < N →
      (∀ fr ∈ frames, fr.presented = true ∧ ∃ sb, fr.atSubmit = some sb ∧ sb.imageCount = N) →
      (∀ k fr, frames[k]? = some fr → fr.pre.frameIndex = (sim.renderer.frameIndex + k) % N) ∧
      sim'.renderer.frameIndex = (sim.renderer.frameIndex + frames.length) % N
  | [], sim, sim', frames, h, h0, _ => by
    obtain ⟨h1, h2⟩ := run_nil_some h
    subst h1 h2
    simp [Nat.mod_eq_of_lt h0]
  | env :: rest, sim, sim', frames, h, h0, hc => by
    obtain ⟨sim1, fr, frames', hu, hr, hf⟩ := run_cons_some h
    subst hf
    have hfr := hc fr (List.mem_cons_self _ _)
    obtain ⟨hpre, -⟩ := Update_some hu
    obtain ⟨sb, hsb, hcur⟩ := (Update_cursor hu).1 hfr.1
    obtain ⟨sb', hsb', hN'⟩ := hfr.2
    rw [hsb] at hsb'
    cases hsb'
    simp only [cursorOf, Prod.mk.injEq] at hcur
    have hstep : sim1.renderer.frameIndex = (sim.renderer.frameIndex + 1) % N := by
      have hlt : sim.renderer.frameIndex + 1 < 4294967296 := by omega
      rw [hcur.1, hN']
      unfold wrapU32
      rw [Nat.mod_eq_of_lt hlt]
    have h1 : sim1.renderer.frameIndex < N := by
      rw [hstep]
      exact Nat.mod_lt _ (by omega)
    obtain ⟨ih1, ih2⟩ := run_frameIndex hN hU rest sim1 sim' frames' hr h1
      (fun fr' hfr' => hc fr' (List.mem_cons_of_mem _ hfr'))
    constructor
    · intro k fr' hk
      cases k with
      | zero =>
        simp only [List.getElem?_cons_zero, Option.some.injEq] at hk
        subst hk
        rw [hpre, Nat.add_zero, Nat.mod_eq_of_lt h0]
      | succ k =>
        simp only [List.getElem?_cons_succ] at hk
        rw [ih1 k fr' hk, hstep, Nat.mod_add_mod]
        congr 1
        omega
    · rw [ih2, hstep, Nat.mod_add_mod, List.length_cons]
      congr 1
      omega

/-- In a run whose frames are all presented, `absoluteFrame` counts the frames
modulo `2^32`. -/
theorem run_absoluteFrame {D : Defines} :
    ∀ (envs : List FrameEnv) (sim sim' : Sim) (frames : List FrameRecord),
      run D envs sim = some (sim', frames) →
      sim.renderer.absoluteFrame < 4294967296 →
      (∀ fr ∈ frames, fr.presented = true) →
      sim'.renderer.absoluteFrame = (sim.renderer.absoluteFrame + frames.length) % 4294967296
  | [], sim, sim', frames, h, h0, _ => by
    obtain ⟨h1, h2⟩ := run_nil_some h
    subst h1 h2
    simp [Nat.mod_eq_of_lt h0]
  | env :: rest, sim, sim', frames, h, h0, hc => by
    obtain ⟨sim1, fr, frames', hu, hr, hf⟩ := run_cons_some h
    subst hf
    obtain ⟨sb, -, hcur⟩ := (Update_cursor hu).1 (hc fr (List.mem_cons_self _ _))
    simp only [cursorOf, Prod.mk.injEq] at hcur
    have hstep : sim1.renderer.absoluteFrame = (sim.renderer.absoluteFrame + 1) % 4294967296 := hcur.2.2
    have h1 : sim1.renderer.absoluteFrame < 4294967296 := by
      rw [hstep]
      exact Nat.mod_lt _ (by omega)
    rw [run_absoluteFrame rest sim1 sim' frames' hr h1 (fun fr' hfr' => hc fr' (List.mem_cons_of_mem _ hfr')),
      hstep, Nat.mod_add_mod, List.length_cons]
    congr 1
    omega

theorem exists_atSubmit_of_any {fr : FrameRecord} {N : Nat}
    (h : fr.atSubmit.any (fun sb => sb.imageCount == N) = true) :
    ∃ sb, fr.atSubmit = some sb ∧ sb.imageCount = N := by
  cases hs : fr.atSubmit with
  | none => simp [hs] at h
  | some sb =>
    rw [hs] at h
    exact ⟨sb, rfl, by simpa using h⟩

theorem Clock.le_refl (g : Clock) : Clock.le g g := fun _ => ⟨Nat.le_refl _, Nat.le_refl _⟩

theorem Clock.le_trans {g h k : Clock} (h1 : Clock.le g h) (h2 : Clock.le h k) : Clock.le g k :=
  fun i => ⟨Nat.le_trans (h1 i).1 (h2 i).1, Nat.le_trans (h1 i).2 (h2 i).2⟩

theorem Clock.le_advance (g d : Clock) : Clock.le g (g.advance d) :=
  fun _ => ⟨Nat.le_add_right _ _, Nat.le_add_right _ _⟩

/-- The clock only grows across one `Update`. -/
theorem Update_clock {D : Defines} {env : FrameEnv} {sim sim' : Sim} {fr : FrameRecord}
    (h : Update D env sim = some (sim', fr)) :
    Clock.le sim.gpu fr.waitBegin ∧ Clock.le fr.waitBegin fr.waitEnd ∧ sim'.gpu = fr.waitEnd := by
  obtain ⟨-, -, h1, h2, h3, -⟩ := Update_some h
  refine ⟨?_, ?_, h3⟩
  · rw [h1]
    exact Clock.le_advance _ _
  · rw [h2]
    exact Clock.le_advance _ _

/-- Every wait of a run begins with a clock that is at least the clock at the
start of the run, and ends with a clock that is at least the one it began with. -/
theorem run_clock {D : Defines} :
    ∀ (envs : List FrameEnv) (sim sim' : Sim) (frames : List FrameRecord),
      run D envs sim = some (sim', frames) →
      ∀ fr ∈ frames, Clock.le sim.gpu fr.waitBegin ∧ Clock.le fr.waitBegin fr.waitEnd
  | [], sim, sim', frames, h, fr, hfr => by
    obtain ⟨-, h2⟩ := run_nil_some h
    subst h2
    cases hfr
  | env :: rest, sim, sim', frames, h, fr, hfr => by
    obtain ⟨sim1, fr0, frames', hu, hr, hf⟩ := run_cons_some h
    subst hf
    obtain ⟨hc1, hc2, hc3⟩ := Update_clock hu
    rcases List.mem_cons.mp hfr with heq | hmem
    · rw [heq]
      exact ⟨hc1, hc2⟩
    · have := run_clock rest sim1 sim' frames' hr fr hmem
      rw [hc3] at this
      exact ⟨Clock.le_trans hc1 (Clock.le_trans hc2 this.1), this.2⟩

/-- The first wait of a run returns only when the two signals of slot
`previousFrame` have reached the wait values of that slot; every later wait
begins after that. -/
theorem run_first_wait {D : Defines} (envs : List FrameEnv) (sim sim' : Sim) (frames : List FrameRecord)
    (h : run D envs sim = some (sim', frames)) (j : Nat) (fr : FrameRecord) (hj : frames[j]? = some fr) :
    (sim.renderer.renderWaitValues sim.renderer.previousFrame ≤
        fr.waitEnd.renderFinished sim.renderer.previousFrame ∧
      sim.renderer.transferWaitValues sim.renderer.previousFrame ≤
        fr.waitEnd.transferFinished sim.renderer.previousFrame) ∧
    (1 ≤ j →
      sim.renderer.renderWaitValues sim.renderer.previousFrame ≤
        fr.waitBegin.renderFinished sim.renderer.previousFrame ∧
      sim.renderer.transferWaitValues sim.renderer.previousFrame ≤
        fr.waitBegin.transferFinished sim.renderer.previousFrame) := by
  cases envs with
  | nil =>
    obtain ⟨-, h2⟩ := run_nil_some h
    subst h2
    simp at hj
  | cons env rest =>
    obtain ⟨sim1, fr0, frames', hu, hr, hf⟩ := run_cons_some h
    subst hf
    obtain ⟨-, -, -, -, hgpu, hr0, ht0, -⟩ := Update_some hu
    cases j with
    | zero =>
      simp only [List.getElem?_cons_zero, Option.some.injEq] at hj
      subst hj
      exact ⟨⟨hr0, ht0⟩, fun h1 => absurd h1 (by decide)⟩
    | succ j =>
      simp only [List.getElem?_cons_succ] at hj
      obtain ⟨hb, he⟩ := run_clock rest sim1 sim' frames' hr fr (List.getElem?_mem hj)
      rw [hgpu] at hb
      have hbegin : sim.renderer.renderWaitValues sim.renderer.previousFrame ≤
            fr.waitBegin.renderFinished sim.renderer.previousFrame ∧
          sim.renderer.transferWaitValues sim.renderer.previousFrame ≤
            fr.waitBegin.transferFinished sim.renderer.previousFrame :=
        ⟨Nat.le_trans hr0 (hb _).1, Nat.le_trans ht0 (hb _).2⟩
      exact ⟨⟨Nat.le_trans hbegin.1 (he _).1, Nat.le_trans hbegin.2 (he _).2⟩, fun _ => hbegin⟩

/-- Back-pressure along a run: the wait of the frame after frame `k` returns
only when the two signals of the slot that frame `k` left in `previousFrame`
have reached the wait values that frame `k` left for that slot, and every
later wait begins after that. -/
theorem run_backpressure {D : Defines} :
    ∀ (envs : List FrameEnv) (sim sim' : Sim) (frames : List FrameRecord),
      run D envs sim = some (sim', frames) →
      ∀ (k j : Nat) (frk frj : FrameRecord), frames[k]? = some frk → frames[k + 1 + j]? = some frj →
      (frk.post.renderWaitValues frk.post.previousFrame ≤ frj.waitEnd.renderFinished frk.post.previousFrame ∧
        frk.post.transferWaitValues frk.post.previousFrame ≤
          frj.waitEnd.transferFinished frk.post.previousFrame) ∧
      (1 ≤ j →
        frk.post.renderWaitValues frk.post.previousFrame ≤
          frj.waitBegin.renderFinished frk.post.previousFrame ∧
        frk.post.transferWaitValues frk.post.previousFrame ≤
          frj.waitBegin.transferFinished frk.post.previousFrame)
  | [], sim, sim', frames, h, k, j, frk, frj, hk, _ => by
    obtain ⟨-, h2⟩ := run_nil_some h
    subst h2
    simp at hk
  | env :: rest, sim, sim', frames, h, k, j, frk, frj, hk, hj => by
    obtain ⟨sim1, fr0, frames', hu, hr, hf⟩ := run_cons_some h
    subst hf
    cases k with
    | zero =>
      simp only [List.getElem?_cons_zero, Option.some.injEq] at hk
      subst hk
      have hj' : frames'[j]? = some frj := by
        have : 0 + 1 + j = j + 1 := by omega
        rw [this, List.getElem?_cons_succ] at hj
        exact hj
      obtain ⟨-, hpost, -⟩ := Update_some hu
      rw [hpost]
      exact run_first_wait rest sim1 sim' frames' hr j frj hj'
    | succ k =>
      simp only [List.getElem?_cons_succ] at hk
      have hj' : frames'[k + 1 + j]? = some frj := by
        have : k + 1 + 1 + j = (k + 1 + j) + 1 := by omega
        rw [this, List.getElem?_cons_succ] at hj
        exact hj
      exact run_backpressure rest sim1 sim' frames' hr k j frk frj hk hj'

/-- A presented frame leaves its own slot in `previousFrame`. -/
theorem run_previousFrame {D : Defines} :
    ∀ (envs : List FrameEnv) (sim sim' : Sim) (frames : List FrameRecord),
      run D envs sim = some (sim', frames) →
      ∀ (k : Nat) (frk : FrameRecord), frames[k]? = some frk → frk.presented = true →
      frk.post.previousFrame = frk.pre.frameIndex
  | [], sim, sim', frames, h, k, frk, hk, _ => by
    obtain ⟨-, h2⟩ := run_nil_some h
    subst h2
    simp at hk
  | env :: rest, sim, sim', frames, h, k, frk, hk, hp => by
    obtain ⟨sim1, fr0, frames', hu, hr, hf⟩ := run_cons_some h
    subst hf
    cases k with
    | zero =>
      simp only [List.getElem?_cons_zero, Option.some.injEq] at hk
      subst hk
      obtain ⟨hpre, hpost, -⟩ := Update_some hu
      obtain ⟨sb, -, hcur⟩ := (Update_cursor hu).1 hp
      simp only [cursorOf, Prod.mk.injEq] at hcur
      rw [hpost, hpre]
      exact hcur.2.1
    | succ k =>
      simp only [List.getElem?_cons_succ] at hk
      exact run_previousFrame rest sim1 sim' frames' hr k frk hk hp

/-- Frame `k` of a run is one `Update`, and frame `k + 1` is an `Update` from
the state in which frame `k` ended. -/
theorem run_frame {D : Defines} :
    ∀ (envs : List FrameEnv) (sim sim' : Sim) (frames : List FrameRecord),
      run D envs sim = some (sim', frames) →
      ∀ (k : Nat) (envk : FrameEnv) (frk : FrameRecord), envs[k]? = some envk → frames[k]? = some frk →
      ∃ simk simk1, Update D envk simk = some (simk1, frk) ∧
        ∀ frn, frames[k + 1]? = some frn → ∃ envn simn, Update D envn simk1 = some (simn, frn)
  | [], sim, sim', frames, h, k, envk, frk, hek, _ => by
    simp at hek
  | env :: rest, sim, sim', frames, h, k, envk, frk, hek, hk => by
    obtain ⟨sim1, fr0, frames', hu, hr, hf⟩ := run_cons_some h
    subst hf
    cases k with
    | zero =>
      simp only [List.getElem?_cons_zero, Option.some.injEq] at hek hk
      subst hek hk
      refine ⟨sim, sim1, hu, ?_⟩
      intro frn hn
      simp only [Nat.zero_add, List.getElem?_cons_succ] at hn
      cases rest with
      | nil =>
        obtain ⟨-, h2⟩ := run_nil_some hr
        subst h2
        simp at hn
      | cons env1 rest1 =>
        obtain ⟨sim2, fr1, frames'', hu1, -, hf1⟩ := run_cons_some hr
        subst hf1
        simp only [List.getElem?_cons_zero, Option.some.injEq] at hn
        subst hn
        exact ⟨env1, sim2, hu1⟩
    | succ k =>
      simp only [List.getElem?_cons_succ] at hek hk
      obtain ⟨simk, simk1, hu', hnext⟩ := run_frame rest sim1 sim' frames' hr k envk frk hek hk
      refine ⟨simk, simk1, hu', ?_⟩
      intro frn hn
      simp only [List.getElem?_cons_succ] at hn
      exact hnext frn hn

theorem buffersToDestroy_record_mono (s : Renderer) (r : Recorded) (e : BufferDestructionData)
    (h : e ∈ s.buffersToDestroy) : e ∈ (record s r).buffersToDestroy := by
  cases r with
  | destroyBuffer b => exact List.mem_append_left _ h
  | destroyTexture _ => exact h
  | destroyPipeline _ => exact h
  | destroyDescriptorSet _ => exact h
  | transfer _ => exact h

theorem buffersToDestroy_foldl_record_mono : ∀ (l : List Recorded) (s : Renderer) (e : BufferDestructionData),
    e ∈ s.buffersToDestroy → e ∈ (l.foldl record s).buffersToDestroy
  | [], _, _, h => h
  | r :: l, s, e, h => by
    rw [List.foldl_cons]
    exact buffersToDestroy_foldl_record_mono l _ e (buffersToDestroy_record_mono s r e h)

theorem buffersToDestroy_foldl_record_mem : ∀ (l : List Recorded) (s : Renderer) (b : Buffer),
    Recorded.destroyBuffer b ∈ l → bufferEntry b ∈ (l.foldl record s).buffersToDestroy
  | [], _, _, h => by cases h
  | r :: l, s, b, h => by
    rw [List.foldl_cons]
    rcases List.mem_cons.mp h with heq | hmem
    · subst heq
      exact buffersToDestroy_foldl_record_mono l _ _ (List.mem_append_right _ (List.mem_singleton_self _))
    · exact buffersToDestroy_foldl_record_mem l _ b hmem

theorem buffersToDestroy_SubmitTransfer (s : Renderer) :
    (SubmitTransfer s).buffersToDestroy = s.buffersToDestroy := by
  unfold SubmitTransfer
  split_ifs <;> rfl

theorem buffersToDestroy_Submit (D : Defines) (env : SubmitEnv) (s : Renderer) :
    (Submit D env s).buffersToDestroy = s.buffersToDestroy := by
  unfold Submit
  simp only []
  split_ifs
  · rfl
  · exact congrArg FrameState.buffersToDestroy (frameState_RecreateSwapchain D env.recreate _)
  · rfl

theorem buffersToDestroy_synchronizedRenderer (D : Defines) (env : SynchronizeEnv) (s : Renderer) :
    (synchronizedRenderer D env s).buffersToDestroy = [] := by
  unfold synchronizedRenderer
  simp only []
  have h4 : (resetRecording (DestroyObjects (acquireAndRequestWait env.acquire s))).buffersToDestroy = [] := by
    show (DestroyObjects (acquireAndRequestWait env.acquire s)).buffersToDestroy = []
    rw [DestroyObjects_eq]
  split_ifs
  · unfold recreateAndRetry
    show (RecreateSwapchain D env.recreate _).2.buffersToDestroy = []
    rw [← h4]
    exact congrArg FrameState.buffersToDestroy (frameState_RecreateSwapchain D env.recreate _)
  · exact h4

/-- A buffer whose destruction is recorded during a frame that got past
`Synchronize` is queued when the frame ends. -/
theorem buffersToDestroy_recordAndSubmit (D : Defines) (env : FrameEnv) (s : Renderer) (b : Buffer)
    (h : Recorded.destroyBuffer b ∈ env.updates ++ env.renders) :
    bufferEntry b ∈ (recordAndSubmit D env s).buffersToDestroy := by
  unfold recordAndSubmit
  rw [buffersToDestroy_Submit]
  rcases List.mem_append.mp h with hu | hr
  · apply buffersToDestroy_foldl_record_mono
    rw [buffersToDestroy_SubmitTransfer]
    exact buffersToDestroy_foldl_record_mem _ _ b hu
  · exact buffersToDestroy_foldl_record_mem _ _ b hr

theorem bufferReleases_mem_pendingReleases (s : Renderer) (e : BufferDestructionData)
    (he : e ∈ s.buffersToDestroy) (c : Call) (hc : c ∈ bufferReleases e) : c ∈ pendingReleases s := by
  unfold pendingReleases
  simp only [List.mem_append, List.mem_flatMap]
  exact Or.inl (Or.inl (Or.inr ⟨e, he, hc⟩))

/-- What `Update` returns is what `Synchronize` returned. -/
theorem Update_Synchronize {D : Defines} {env : FrameEnv} {sim sim' : Sim} {fr : FrameRecord}
    (h : Update D env sim = some (sim', fr)) :
    ∃ r, Synchronize D env.sync fr.waitBegin sim.renderer = some r ∧ fr.afterSync = r.renderer ∧
      (r.result = false → fr.atSubmit = none ∧ fr.presented = false ∧ fr.post = fr.afterSync) ∧
      (r.result = true → fr.atSubmit ≠ none) := by
  unfold Update at h
  simp only [] at h
  split at h
  · cases h
  · rename_i sync hs
    split_ifs at h with hres
    · cases h
      exact ⟨sync, hs, rfl, fun _ => ⟨rfl, rfl, rfl⟩, fun ht => by rw [hres] at ht; cases ht⟩
    · cases h
      exact ⟨sync, hs, rfl, fun hf => absurd hf hres, fun _ => by simp⟩

theorem EmitsOnly.refl (P : Call → Prop) (s : Renderer) : EmitsOnly P s s :=
  ⟨[], by simp, fun _ h => by cases h⟩

theorem EmitsOnly.of_calls_eq {P : Call → Prop} {s t : Renderer} (h : t.calls = s.calls) : EmitsOnly P s t :=
  ⟨[], by simp [h], fun _ h => by cases h⟩

theorem EmitsOnly.trans {P : Call → Prop} {s t u : Renderer} (h1 : EmitsOnly P s t) (h2 : EmitsOnly P t u) :
    EmitsOnly P s u := by
  obtain ⟨c1, e1, p1⟩ := h1
  obtain ⟨c2, e2, p2⟩ := h2
  refine ⟨c1 ++ c2, by rw [e2, e1, List.append_assoc], ?_⟩
  intro c hc
  rcases List.mem_append.mp hc with h | h
  · exact p1 c h
  · exact p2 c h

theorem EmitsOnly.cons_of {P : Call → Prop} {s t u : Renderer} {c : Call} (h2 : EmitsOnly P t u)
    (h1 : t.calls = s.calls ++ [c]) : ∃ cs, u.calls = s.calls ++ c :: cs ∧ ∀ x ∈ cs, P x := by
  obtain ⟨cs, e, p⟩ := h2
  refine ⟨cs, ?_, p⟩
  rw [e, h1, List.append_assoc]
  rfl

theorem EmitsOnly.then_cons {P : Call → Prop} {s t u : Renderer} {c : Call} (h1 : EmitsOnly P s t)
    (h2 : ∃ ds, u.calls = t.calls ++ c :: ds ∧ ∀ x ∈ ds, P x) :
    ∃ cs ds, u.calls = s.calls ++ (cs ++ c :: ds) ∧ (∀ x ∈ cs, P x) ∧ ∀ x ∈ ds, P x := by
  obtain ⟨cs, e, p⟩ := h1
  obtain ⟨ds, e2, p2⟩ := h2
  exact ⟨cs, ds, by rw [e2, e, List.append_assoc], p, p2⟩

theorem EmitsOnly.emit {P : Call → Prop} (cs : List Call) (s : Renderer) (h : ∀ c ∈ cs, P c) :
    EmitsOnly P s (emit cs s) :=
  ⟨cs, rfl, h⟩

theorem EmitsOnly.mono {P Q : Call → Prop} {s t : Renderer} (hpq : ∀ c, P c → Q c) (h : EmitsOnly P s t) :
    EmitsOnly Q s t := by
  obtain ⟨cs, e, p⟩ := h
  exact ⟨cs, e, fun c hc => hpq c (p c hc)⟩

theorem emitsAttachment_scheduleAttachments :
    ∀ (l : List Nat) (s : Renderer), (scheduleAttachments l s).calls = s.calls
  | [], _ => rfl
  | i :: rest, s => by
    unfold scheduleAttachments
    rw [emitsAttachment_scheduleAttachments rest]
    rfl

theorem emitsAttachment_createColorTexturesLoop (D : Defines) (env : Nat → ImageCreateEnv) :
    ∀ (l : List Nat) (s : Renderer),
      EmitsOnly (fun c => isCreate c = true ∧ isSwapchainCreate c = false) s (createColorTexturesLoop D env l s).2
  | [], s => EmitsOnly.refl _ s
  | i :: rest, s => by
    unfold createColorTexturesLoop
    simp only []
    split_ifs
    · exact ⟨[_], rfl, by simp [isCreate, isSwapchainCreate]⟩
    · exact ⟨_, List.append_assoc _ _ _, by simp [isCreate, isSwapchainCreate]⟩
    · refine EmitsOnly.trans ?_ (emitsAttachment_createColorTexturesLoop D env rest _)
      exact ⟨_, List.append_assoc _ _ _, by simp [isCreate, isSwapchainCreate]⟩

theorem emitsAttachment_createDepthTexturesLoop (D : Defines) (env : Nat → ImageCreateEnv) :
    ∀ (l : List Nat) (s : Renderer),
      EmitsOnly (fun c => isCreate c = true ∧ isSwapchainCreate c = false) s (createDepthTexturesLoop D env l s).2
  | [], s => EmitsOnly.refl _ s
  | i :: rest, s => by
    unfold createDepthTexturesLoop
    simp only []
    split_ifs
    · exact ⟨[_], rfl, by simp [isCreate, isSwapchainCreate]⟩
    · exact ⟨_, List.append_assoc _ _ _, by simp [isCreate, isSwapchainCreate]⟩
    · refine EmitsOnly.trans ?_ (emitsAttachment_createDepthTexturesLoop D env rest _)
      exact ⟨_, List.append_assoc _ _ _, by simp [isCreate, isSwapchainCreate]⟩

theorem emitsAttachment_swapchainCreateLoop (D : Defines) (env : SwapchainEnv) :
    ∀ (l : List Nat) (s : Renderer),
      EmitsOnly (fun c => isCreate c = true ∧ isSwapchainCreate c = false) s (swapchainCreateLoop D env l s).2
  | [], s => EmitsOnly.refl _ s
  | i :: rest, s => by
    unfold swapchainCreateLoop
    simp only []
    split_ifs
    · exact ⟨[_], rfl, by simp [isCreate, isSwapchainCreate]⟩
    · exact ⟨_, List.append_assoc _ _ _, by simp [isCreate, isSwapchainCreate]⟩
    · refine EmitsOnly.trans ?_ (emitsAttachment_swapchainCreateLoop D env rest _)
      exact ⟨_, List.append_assoc _ _ _, by simp [isCreate, isSwapchainCreate]⟩

theorem emits_SwapchainCreate (D : Defines) (env : SwapchainEnv) (s : Renderer) :
    ∃ cs, (SwapchainCreate D env s).2.calls =
        s.calls ++ Call.vkCreateSwapchainKHR s.imageCount s.swapchain.vkSwapchain env.vkSwapchain :: cs ∧
      ∀ c ∈ cs, isCreate c = true ∧ isSwapchainCreate c = false := by
  unfold SwapchainCreate
  simp only []
  split_ifs
  · exact ⟨[], rfl, by simp⟩
  · exact EmitsOnly.cons_of (emitsAttachment_swapchainCreateLoop D env _ _) rfl

/-- Everything `RecreateSwapchain` issues is a creation call, and at most one
of the calls creates a swapchain. -/
theorem emits_RecreateSwapchain (D : Defines) (env : RecreateEnv) (s : Renderer) :
    ∃ cs, (RecreateSwapchain D env s).2.calls = s.calls ++ cs ∧
      (∀ c ∈ cs, isCreate c = true) ∧ cs.countP isSwapchainCreate ≤ 1 := by
  have h2 : EmitsOnly (fun c => isCreate c = true ∧ isSwapchainCreate c = false) s
      (scheduleAttachments (List.range (CreateSurfaceInfo D env.surfaceInfo s).2.imageCount)
        (CreateSurfaceInfo D env.surfaceInfo s).2) :=
    EmitsOnly.of_calls_eq (by rw [emitsAttachment_scheduleAttachments]; rfl)
  have h3 := EmitsOnly.trans h2 (emitsAttachment_createColorTexturesLoop D env.color
    (List.range (scheduleAttachments (List.range (CreateSurfaceInfo D env.surfaceInfo s).2.imageCount)
      (CreateSurfaceInfo D env.surfaceInfo s).2).imageCount) _)
  have h4 := EmitsOnly.trans h3 (emitsAttachment_createDepthTexturesLoop D env.depth
    (List.range (createColorTexturesLoop D env.color
      (List.range (scheduleAttachments (List.range (CreateSurfaceInfo D env.surfaceInfo s).2.imageCount)
        (CreateSurfaceInfo D env.surfaceInfo s).2).imageCount)
      (scheduleAttachments (List.range (CreateSurfaceInfo D env.surfaceInfo s).2.imageCount)
        (CreateSurfaceInfo D env.surfaceInfo s).2)).2.imageCount) _)
  have hz : ∀ cs : List Call, (∀ c ∈ cs, isCreate c = true ∧ isSwapchainCreate c = false) →
      cs.countP isSwapchainCreate = 0 := by
    intro cs p
    rw [List.countP_eq_zero]
    intro c hc
    simp [(p c hc).2]
  unfold RecreateSwapchain CreateDepthTextures CreateColorTextures
  simp only []
  split_ifs
  · exact ⟨[], by simp, by simp, by simp⟩
  · exact ⟨[], by simp, by simp, by simp⟩
  · obtain ⟨cs, e, p⟩ := h3
    exact ⟨cs, e, fun c hc => (p c hc).1, by rw [hz cs p]; omega⟩
  · obtain ⟨cs, e, p⟩ := h4
    exact ⟨cs, e, fun c hc => (p c hc).1, by rw [hz cs p]; omega⟩
  · obtain ⟨cs, ds, e, p, p2⟩ := EmitsOnly.then_cons h4 (emits_SwapchainCreate D env.swapchain _)
    refine ⟨_, e, ?_, ?_⟩
    · intro c hc
      rcases List.mem_append.mp hc with h | h
      · exact (p c h).1
      · rcases List.mem_cons.mp h with h | h
        · rw [h]
          rfl
        · exact (p2 c h).1
    · rw [List.countP_append, hz cs p, List.countP_cons, hz ds p2]
      simp [isSwapchainCreate]

theorem isRelease_pendingReleases (s : Renderer) : ∀ c ∈ pendingReleases s, isRelease c = true := by
  intro c hc
  unfold pendingReleases at hc
  simp only [List.mem_append, List.mem_flatMap] at hc
  rcases hc with (((⟨d, -, h⟩ | ⟨d, -, h⟩) | ⟨d, -, h⟩) | ⟨d, -, h⟩) | ⟨d, -, h⟩
  · unfold swapchainReleases at h
    simp only [List.mem_append, List.mem_map, List.mem_singleton] at h
    rcases h with (⟨v, -, rfl⟩ | ⟨v, -, rfl⟩) | rfl <;> rfl
  · unfold textureReleases at h
    simp only [List.mem_append] at h
    rcases h with h | h <;> split_ifs at h <;> simp at h <;> subst h <;> rfl
  · unfold bufferReleases at h
    simp only [List.mem_append] at h
    rcases h with h | h <;> split_ifs at h <;> simp at h <;> subst h <;> rfl
  · unfold pipelineReleases at h
    split_ifs at h <;> simp at h
    subst h
    rfl
  · unfold descriptorSetReleases at h
    simp only [List.mem_append, List.mem_singleton] at h
    rcases h with h | rfl
    · split_ifs at h <;> simp at h
      subst h
      rfl
    · rfl

theorem swapchainsToDestroy_scheduleAttachments :
    ∀ (l : List Nat) (s : Renderer), (scheduleAttachments l s).swapchainsToDestroy = s.swapchainsToDestroy
  | [], _ => rfl
  | i :: rest, s => by
    unfold scheduleAttachments
    rw [swapchainsToDestroy_scheduleAttachments rest]
    rfl

theorem swapchainsToDestroy_createColorTexturesLoop (D : Defines) (env : Nat → ImageCreateEnv) :
    ∀ (l : List Nat) (s : Renderer),
      (createColorTexturesLoop D env l s).2.swapchainsToDestroy = s.swapchainsToDestroy
  | [], _ => rfl
  | i :: rest, s => by
    unfold createColorTexturesLoop
    simp only []
    split_ifs
    · rfl
    · rfl
    · rw [swapchainsToDestroy_createColorTexturesLoop D env rest]
      rfl

theorem swapchainsToDestroy_createDepthTexturesLoop (D : Defines) (env : Nat → ImageCreateEnv) :
    ∀ (l : List Nat) (s : Renderer),
      (createDepthTexturesLoop D env l s).2.swapchainsToDestroy = s.swapchainsToDestroy
  | [], _ => rfl
  | i :: rest, s => by
    unfold createDepthTexturesLoop
    simp only []
    split_ifs
    · rfl
    · rfl
    · rw [swapchainsToDestroy_createDepthTexturesLoop D env rest]
      rfl

theorem swapchainsToDestroy_swapchainCreateLoop (D : Defines) (env : SwapchainEnv) :
    ∀ (l : List Nat) (s : Renderer),
      (swapchainCreateLoop D env l s).2.swapchainsToDestroy = s.swapchainsToDestroy
  | [], _ => rfl
  | i :: rest, s => by
    unfold swapchainCreateLoop
    simp only []
    split_ifs
    · rfl
    · rfl
    · rw [swapchainsToDestroy_swapchainCreateLoop D env rest]
      rfl

/-- Function `Swapchain::Create` appends exactly one entry to the surface-set queue. -/
theorem swapchainsToDestroy_SwapchainCreate (D : Defines) (env : SwapchainEnv) (s : Renderer) :
    ∃ e, (SwapchainCreate D env s).2.swapchainsToDestroy = s.swapchainsToDestroy ++ [e] := by
  unfold SwapchainCreate
  simp only []
  split_ifs
  · exact ⟨_, rfl⟩
  · rw [swapchainsToDestroy_swapchainCreateLoop]
    exact ⟨_, rfl⟩

/-- Function `RecreateSwapchain` appends at most one entry to the surface-set queue. -/
theorem swapchainsToDestroy_RecreateSwapchain (D : Defines) (env : RecreateEnv) (s : Renderer) :
    (RecreateSwapchain D env s).2.swapchainsToDestroy = s.swapchainsToDestroy ∨
    ∃ e, (RecreateSwapchain D env s).2.swapchainsToDestroy = s.swapchainsToDestroy ++ [e] := by
  unfold RecreateSwapchain CreateDepthTextures CreateColorTextures
  simp only []
  split_ifs
  · exact Or.inl rfl
  · exact Or.inl rfl
  · left
    rw [swapchainsToDestroy_createColorTexturesLoop, swapchainsToDestroy_scheduleAttachments]
    rfl
  · left
    rw [swapchainsToDestroy_createDepthTexturesLoop, swapchainsToDestroy_createColorTexturesLoop,
      swapchainsToDestroy_scheduleAttachments]
    rfl
  · right
    obtain ⟨e, he⟩ := swapchainsToDestroy_SwapchainCreate D env.swapchain
      (createDepthTexturesLoop D env.depth
        (List.range (createColorTexturesLoop D env.color
          (List.range (scheduleAttachments (List.range (CreateSurfaceInfo D env.surfaceInfo s).2.imageCount)
            (CreateSurfaceInfo D env.surfaceInfo s).2).imageCount)
          (scheduleAttachments (List.range (CreateSurfaceInfo D env.surfaceInfo s).2.imageCount)
            (CreateSurfaceInfo D env.surfaceInfo s).2)).2.imageCount)
        (createColorTexturesLoop D env.color
          (List.range (scheduleAttachments (List.range (CreateSurfaceInfo D env.surfaceInfo s).2.imageCount)
            (CreateSurfaceInfo D env.surfaceInfo s).2).imageCount)
          (scheduleAttachments (List.range (CreateSurfaceInfo D env.surfaceInfo s).2.imageCount)
            (CreateSurfaceInfo D env.surfaceInfo s).2)).2).2
    refine ⟨e, ?_⟩
    rw [he, swapchainsToDestroy_createDepthTexturesLoop, swapchainsToDestroy_createColorTexturesLoop,
      swapchainsToDestroy_scheduleAttachments]
    rfl

/-- The calls of `Synchronize` up to and including the two resets. -/
theorem calls_resetRecording (env : AcquireEnv) (s : Renderer) :
    (resetRecording (DestroyObjects (acquireAndRequestWait env s))).calls =
      s.calls ++ ([Call.vkAcquireNextImageKHR s.swapchain.vkSwapchain (s.absoluteFrame % s.imageCount),
          Call.vkWaitSemaphores s.previousFrame (s.renderWaitValues s.previousFrame)
            s.previousFrame (s.transferWaitValues s.previousFrame)] ++ pendingReleases s ++
        [Call.ResetDraw env.imageIndex, Call.ResetPool env.imageIndex]) := by
  unfold resetRecording
  rw [DestroyObjects_eq]
  simp [emit, acquireAndRequestWait, pendingReleases, List.append_assoc]

/-- The calls of a `Synchronize` whose acquire reports a stale surface. -/
theorem calls_synchronizedRenderer_stale (D : Defines) (env : SynchronizeEnv) (s : Renderer)
    (hstale : env.acquire.result = VK_ERROR_OUT_OF_DATE_KHR) :
    ∃ created, (synchronizedRenderer D env s).calls =
        s.calls ++ ([Call.vkAcquireNextImageKHR s.swapchain.vkSwapchain (s.absoluteFrame % s.imageCount),
          Call.vkWaitSemaphores s.previousFrame (s.renderWaitValues s.previousFrame)
            s.previousFrame (s.transferWaitValues s.previousFrame)] ++ pendingReleases s ++
        [Call.ResetDraw env.acquire.imageIndex, Call.ResetPool env.acquire.imageIndex] ++ created ++
        [Call.vkAcquireNextImageKHR (synchronizedRenderer D env s).swapchain.vkSwapchain
          (s.absoluteFrame % s.imageCount)]) ∧
      (RecreateSwapchain D env.recreate (resetRecording (DestroyObjects (acquireAndRequestWait env.acquire s)))).2.calls =
        (resetRecording (DestroyObjects (acquireAndRequestWait env.acquire s))).calls ++ created ∧
      (∀ c ∈ created, isCreate c = true) ∧ created.countP isSwapchainCreate ≤ 1 := by
  obtain ⟨created, e, p, q⟩ := emits_RecreateSwapchain D env.recreate
    (resetRecording (DestroyObjects (acquireAndRequestWait env.acquire s)))
  refine ⟨created, ?_, e, p, q⟩
  unfold synchronizedRenderer
  simp only [hstale, if_true]
  unfold recreateAndRetry
  show (RecreateSwapchain D env.recreate _).2.calls ++ _ = _
  rw [e, calls_resetRecording]
  simp only [List.append_assoc, List.cons_append, List.nil_append]
  rfl

/-- The calls of a `Synchronize` whose acquire does not report a stale surface. -/
theorem calls_synchronizedRenderer_fresh (D : Defines) (env : SynchronizeEnv) (s : Renderer)
    (hfresh : env.acquire.result ≠ VK_ERROR_OUT_OF_DATE_KHR) :
    (synchronizedRenderer D env s).calls =
      s.calls ++ ([Call.vkAcquireNextImageKHR s.swapchain.vkSwapchain (s.absoluteFrame % s.imageCount),
          Call.vkWaitSemaphores s.previousFrame (s.renderWaitValues s.previousFrame)
            s.previousFrame (s.transferWaitValues s.previousFrame)] ++ pendingReleases s ++
        [Call.ResetDraw env.acquire.imageIndex, Call.ResetPool env.acquire.imageIndex]) := by
  unfold synchronizedRenderer
  simp only [hfresh, if_false]
  exact calls_resetRecording env.acquire s

theorem swapchainsToDestroy_synchronizedRenderer (D : Defines) (env : SynchronizeEnv) (s : Renderer) :
    (synchronizedRenderer D env s).swapchainsToDestroy = [] ∨
    ∃ e, (synchronizedRenderer D env s).swapchainsToDestroy = [e] := by
  have h4 : (resetRecording (DestroyObjects (acquireAndRequestWait env.acquire s))).swapchainsToDestroy = [] := by
    show (DestroyObjects (acquireAndRequestWait env.acquire s)).swapchainsToDestroy = []
    rw [DestroyObjects_eq]
  unfold synchronizedRenderer
  simp only []
  split_ifs
  · unfold recreateAndRetry
    show (RecreateSwapchain D env.recreate _).2.swapchainsToDestroy = [] ∨
      ∃ e, (RecreateSwapchain D env.recreate _).2.swapchainsToDestroy = [e]
    rcases swapchainsToDestroy_RecreateSwapchain D env.recreate
      (resetRecording (DestroyObjects (acquireAndRequestWait env.acquire s))) with h | ⟨e, h⟩
    · left
      rw [h, h4]
    · right
      refine ⟨e, ?_⟩
      rw [h, h4]
      rfl
  · exact Or.inl h4

theorem countP_eq_zero_of_isCreate (q : Call → Bool) (hq : ∀ c, isCreate c = true → q c = false)
    (cs : List Call) (h : ∀ c ∈ cs, isCreate c = true) : cs.countP q = 0 := by
  rw [List.countP_eq_zero]
  intro c hc
  simp [hq c (h c hc)]

theorem countP_eq_zero_of_isRelease (q : Call → Bool) (hq : ∀ c, isRelease c = true → q c = false)
    (cs : List Call) (h : ∀ c ∈ cs, isRelease c = true) : cs.countP q = 0 := by
  rw [List.countP_eq_zero]
  intro c hc
  simp [hq c (h c hc)]

theorem isAcquire_of_isCreate (c : Call) (h : isCreate c = true) : isAcquire c = false := by
  cases c <;> first | rfl | cases h

theorem isAcquire_of_isRelease (c : Call) (h : isRelease c = true) : isAcquire c = false := by
  cases c <;> first | rfl | cases h

theorem isSubmit_of_isCreate (c : Call) (h : isCreate c = true) : isSubmit c = false := by
  cases c <;> first | rfl | cases h

theorem signalView_record (s : Renderer) (r : Recorded) : signalView (record s r) = signalView s := by
  cases r <;> rfl

theorem signalView_foldl_record : ∀ (l : List Recorded) (s : Renderer),
    signalView (l.foldl record s) = signalView s
  | [], _ => rfl
  | r :: l, s => by
    rw [List.foldl_cons, signalView_foldl_record l, signalView_record]

theorem signalView_eq {s t : Renderer} (h : signalView t = signalView s) :
    t.imageIndex = s.imageIndex ∧ t.frameIndex = s.frameIndex ∧ t.previousFrame = s.previousFrame ∧
    t.renderWaitValues = s.renderWaitValues ∧ t.transferWaitValues = s.transferWaitValues ∧
    t.calls = s.calls := by
  simp only [signalView, Prod.mk.injEq] at h
  exact h

/-- What `SubmitTransfer` does when work was recorded. -/
theorem SubmitTransfer_nonempty (s : Renderer) (h : s.commandBuffers s.imageIndex ≠ []) :
    signalView (SubmitTransfer s) =
      (s.imageIndex, s.frameIndex, s.previousFrame, s.renderWaitValues,
        Function.update s.transferWaitValues s.imageIndex (wrapU64 (s.transferWaitValues s.imageIndex + 1)),
        s.calls ++ [Call.vkQueueSubmit (s.commandBuffers s.imageIndex) s.imageIndex
          (wrapU64 (s.transferWaitValues s.imageIndex + 1))]) ∧
    (SubmitTransfer s).commandBuffers = Function.update s.commandBuffers s.imageIndex [] ∧
    (SubmitTransfer s).stagingBuffers = Function.update s.stagingBuffers s.imageIndex
      ({ s.stagingBuffers s.imageIndex with stagingPointer := 0 }) := by
  have hl : (s.commandBuffers s.imageIndex).length ≠ 0 := by
    intro h0
    exact h (List.length_eq_zero.mp h0)
  unfold SubmitTransfer
  rw [if_pos hl]
  refine ⟨?_, ?_, ?_⟩ <;> first | rfl | simp only [signalView, emit, Function.update_same]

/-- What `SubmitTransfer` does when no work was recorded. -/
theorem SubmitTransfer_empty (s : Renderer) (h : s.commandBuffers s.imageIndex = []) : SubmitTransfer s = s := by
  unfold SubmitTransfer
  rw [if_neg (by simp [h])]

theorem renderWaitValues_Submit (D : Defines) (env : SubmitEnv) (s : Renderer) :
    (Submit D env s).renderWaitValues =
      Function.update s.renderWaitValues s.imageIndex (wrapU64 (s.renderWaitValues s.imageIndex + 1)) ∧
    (Submit D env s).transferWaitValues = s.transferWaitValues := by
  unfold Submit
  simp only []
  split_ifs
  · exact ⟨rfl, rfl⟩
  · exact ⟨congrArg FrameState.renderWaitValues (frameState_RecreateSwapchain D env.recreate _),
      congrArg FrameState.transferWaitValues (frameState_RecreateSwapchain D env.recreate _)⟩
  · exact ⟨rfl, rfl⟩

/-- The calls of `Submit`: one `vkQueueSubmit2`, which waits and signals on
slot `frameIndex`, followed by calls that submit nothing. -/
theorem calls_Submit (D : Defines) (env : SubmitEnv) (s : Renderer) :
    ∃ rest, (Submit D env s).calls =
        s.calls ++ Call.vkQueueSubmit2 s.imageIndex s.frameIndex (s.transferWaitValues s.frameIndex)
          s.frameIndex s.frameIndex
          (Function.update s.renderWaitValues s.imageIndex (wrapU64 (s.renderWaitValues s.imageIndex + 1))
            s.frameIndex) s.frameIndex :: rest ∧
      ∀ c ∈ rest, isSubmit c = false := by
  unfold Submit
  simp only []
  split_ifs
  · exact ⟨[], rfl, by simp⟩
  · obtain ⟨cs, e, p, -⟩ := emits_RecreateSwapchain D env.recreate (presentAndAdvance (submitRender s))
    refine ⟨Call.vkQueuePresentKHR s.imageIndex s.swapchain.vkSwapchain s.imageIndex :: cs, ?_, ?_⟩
    · rw [e]
      show (s.calls ++ [_] ++ [_]) ++ cs = _
      simp only [List.append_assoc, List.cons_append, List.nil_append]
      rfl
    · intro c hc
      rcases List.mem_cons.mp hc with h | h
      · rw [h]
        rfl
      · exact isSubmit_of_isCreate c (p c h)
  · exact ⟨[Call.vkQueuePresentKHR s.imageIndex s.swapchain.vkSwapchain s.imageIndex],
      by show (s.calls ++ [_] ++ [_]) = _; simp only [List.append_assoc, List.cons_append, List.nil_append]; rfl,
      by simp [isSubmit]⟩

/-! ## The wait values and the submitted signals -/

theorem mipLoop_eq (image : Handle) (L : Nat) (w h : Int) : ∀ (fuel j : Nat), L ≤ j + 1 + fuel →
    mipLoop image L fuel (j + 1) (mipExtent w j) (mipExtent h j) =
      (List.range' j (L - 1 - j)).flatMap
        (fun k => mipIteration image (k + 1) (mipExtent w k) (mipExtent h k))
  | 0, j, hf => by
    have h0 : L - 1 - j = 0 := by omega
    rw [h0]
    rfl
  | fuel + 1, j, hf => by
    unfold mipLoop
    by_cases hlt : j + 1 < L
    · have hs : L - 1 - j = (L - 1 - (j + 1)) + 1 := by omega
      rw [if_pos hlt, hs, List.range'_succ, List.flatMap_cons]
      have ih := mipLoop_eq image L w h fuel (j + 1) (by omega)
      rw [← ih]
      rfl
    · have h0 : L - 1 - j = 0 := by omega
      rw [if_neg hlt, h0]
      rfl

/-- The commands recorded for a texture with a mip chain: the three commands
of the copy, then one iteration for each `i` from 1 to `mipmapLevels - 1`, then
the last barrier. -/
theorem recordUpload_chain (texture : Texture) (offset : Nat) (hL : 2 ≤ texture.mipmapLevels) :
    recordUpload texture offset =
      [Command.PipelineBarrier (stagingBufferTransferBarrier texture),
       Command.BufferToImage (stagingBufferCopy texture offset),
       Command.PipelineBarrier (stagingBufferShaderBarrier texture)] ++
      ((List.range (texture.mipmapLevels - 1)).flatMap
          (fun k => mipIteration texture.image (k + 1) (mipExtent (toI32 texture.width) k)
            (mipExtent (toI32 texture.height) k)) ++
        [Command.PipelineBarrier (lastBarrier texture)]) := by
  unfold recordUpload
  have hgt : texture.mipmapLevels > 1 := by omega
  rw [if_pos hgt]
  have h := mipLoop_eq texture.image texture.mipmapLevels (toI32 texture.width) (toI32 texture.height)
    texture.mipmapLevels 0 (by omega)
  rw [List.range_eq_range']
  rw [show texture.mipmapLevels - 1 - 0 = texture.mipmapLevels - 1 from rfl] at h
  rw [← h]
  rfl

/-- The commands recorded for a texture without a mip chain. -/
theorem recordUpload_single (texture : Texture) (offset : Nat) (hL : texture.mipmapLevels ≤ 1) :
    recordUpload texture offset =
      [Command.PipelineBarrier (stagingBufferTransferBarrier texture),
       Command.BufferToImage (stagingBufferCopy texture offset),
       Command.PipelineBarrier (stagingBufferShaderBarrier texture)] := by
  unfold recordUpload
  have hgt : ¬ texture.mipmapLevels > 1 := by omega
  rw [if_neg hgt, List.append_nil]

/-- Once the image is created, `UploadTexture` records the commands of
`recordUpload`, whatever the later calls return. -/
theorem commands_UploadTexture (D : Defines) (env : UploadEnv) (texture : Texture) (s : Renderer)
    (himg : D.accepts env.imageResult = true) :
    (UploadTexture D env texture s).commands =
      recordUpload { texture with image := env.image, allocation := env.allocation }
        (NextMultipleOf (s.stagingBuffers s.imageIndex).stagingPointer 16) := by
  unfold UploadTexture
  simp only [himg, Bool.true_eq_false, if_false]
  split_ifs <;> rfl

theorem blitsOf_append : ∀ (a b : List Command), blitsOf (a ++ b) = blitsOf a ++ blitsOf b
  | [], _ => rfl
  | c :: a, b => by
    cases c with
    | Blit blit =>
      show blit :: blitsOf (a ++ b) = blit :: blitsOf a ++ blitsOf b
      rw [blitsOf_append a b]
      rfl
    | PipelineBarrier barrier => exact blitsOf_append a b
    | BufferToImage copy => exact blitsOf_append a b

theorem blitsOf_flatMap_mipIteration (image : Handle) (w h : Int) : ∀ (l : List Nat),
    blitsOf (l.flatMap (fun k => mipIteration image (k + 1) (mipExtent w k) (mipExtent h k))) =
      l.map (fun k =>
        { srcMipLevel := k, srcWidth := mipExtent w k, srcHeight := mipExtent h k,
          dstMipLevel := k + 1,
          dstWidth := if mipExtent w k > 1 then (mipExtent w k).tdiv 2 else 1,
          dstHeight := if mipExtent h k > 1 then (mipExtent h k).tdiv 2 else 1 })
  | [] => rfl
  | k :: l => by
    rw [List.flatMap_cons, blitsOf_append, blitsOf_flatMap_mipIteration image w h l]
    rfl

/-- The blits recorded for a texture with a mip chain. -/
theorem blitsOf_recordUpload (texture : Texture) (offset : Nat) (hL : 2 ≤ texture.mipmapLevels) :
    blitsOf (recordUpload texture offset) =
      (List.range (texture.mipmapLevels - 1)).map (fun k =>
        { srcMipLevel := k, srcWidth := mipExtent (toI32 texture.width) k,
          srcHeight := mipExtent (toI32 texture.height) k,
          dstMipLevel := k + 1,
          dstWidth := if mipExtent (toI32 texture.width) k > 1 then (mipExtent (toI32 texture.width) k).tdiv 2
            else 1,
          dstHeight := if mipExtent (toI32 texture.height) k > 1 then (mipExtent (toI32 texture.height) k).tdiv 2
            else 1 }) := by
  rw [recordUpload_chain texture offset hL, blitsOf_append, blitsOf_append, blitsOf_flatMap_mipIteration]
  show [] ++ (_ ++ []) = _
  rw [List.nil_append, List.append_nil]

/-- The loop variable `mipWidth` in closed form. -/
theorem mipExtent_eq (W : Nat) (h1 : 1 ≤ W) (h2 : W < 2147483648) : ∀ k : Nat,
    mipExtent (toI32 W) k = ((max 1 (W / 2 ^ k) : Nat) : Int)
  | 0 => by
    have hm : W % 4294967296 = W := Nat.mod_eq_of_lt (by omega)
    have hx : max 1 W = W := by omega
    simp only [mipExtent, toI32, hm, pow_zero, Nat.div_one, hx, h2, if_true]
  | k + 1 => by
    show halveExtent (mipExtent (toI32 W) k) = _
    rw [mipExtent_eq W h1 h2 k]
    have hd : W / 2 ^ (k + 1) = W / 2 ^ k / 2 := by
      rw [pow_succ, Nat.div_div_eq_div_mul]
    rw [hd]
    unfold halveExtent
    split_ifs with hc
    · rw [Int.tdiv_eq_ediv (by omega) (by omega)]
      omega
    · omega

/-- The extent written by an iteration in closed form. -/
theorem mipExtent_dst (W : Nat) (k : Nat) :
    (if ((max 1 (W / 2 ^ k) : Nat) : Int) > 1 then (((max 1 (W / 2 ^ k) : Nat) : Int)).tdiv 2 else 1) =
      ((max 1 (W / 2 ^ (k + 1)) : Nat) : Int) := by
  have hd : W / 2 ^ (k + 1) = W / 2 ^ k / 2 := by
    rw [pow_succ, Nat.div_div_eq_div_mul]
  rw [hd]
  split_ifs with hc
  · rw [Int.tdiv_eq_ediv (by omega) (by omega)]
    omega
  · omega

/-! ## Layout tracking -/

theorem applyBarrier_some (levels : Nat) (layouts : Nat → Nat) (barrier : VkImageMemoryBarrier2)
    (h : ∀ l, l < levels → barrier.subresourceRange.covers l = true → layouts l = barrier.oldLayout) :
    applyBarrier levels layouts barrier =
      some (fun l => if barrier.subresourceRange.covers l then barrier.newLayout else layouts l) := by
  unfold applyBarrier
  rw [if_pos]
  rw [List.all_eq_true]
  intro l hl
  have hlt := List.mem_range.mp hl
  by_cases hc : barrier.subresourceRange.covers l = true
  · simp [hc, h l hlt hc]
  · simp [hc]

theorem trackLayouts_nil (levels : Nat) (layouts : Nat → Nat) :
    trackLayouts levels [] layouts = some layouts := rfl

theorem trackLayouts_barrier (levels : Nat) (barrier : VkImageMemoryBarrier2) (rest : List Command)
    (layouts : Nat → Nat) :
    trackLayouts levels (Command.PipelineBarrier barrier :: rest) layouts =
      (applyBarrier levels layouts barrier).bind (trackLayouts levels rest) := by
  cases h : applyBarrier levels layouts barrier with
  | none => simp only [trackLayouts, h, Option.none_bind]
  | some layouts1 => simp only [trackLayouts, h, Option.some_bind]

theorem trackLayouts_copy (levels : Nat) (copy : VkBufferImageCopy) (rest : List Command)
    (layouts : Nat → Nat) :
    trackLayouts levels (Command.BufferToImage copy :: rest) layouts = trackLayouts levels rest layouts := rfl

theorem trackLayouts_blit (levels : Nat) (blit : VkImageBlit) (rest : List Command) (layouts : Nat → Nat) :
    trackLayouts levels (Command.Blit blit :: rest) layouts = trackLayouts levels rest layouts := rfl

theorem trackLayouts_append (levels : Nat) : ∀ (a b : List Command) (layouts : Nat → Nat),
    trackLayouts levels (a ++ b) layouts = (trackLayouts levels a layouts).bind (trackLayouts levels b)
  | [], _, _ => rfl
  | c :: a, b, layouts => by
    cases c with
    | PipelineBarrier barrier =>
      rw [List.cons_append, trackLayouts_barrier, trackLayouts_barrier]
      cases applyBarrier levels layouts barrier with
      | none => rfl
      | some layouts1 =>
        rw [Option.some_bind, Option.some_bind]
        exact trackLayouts_append levels a b layouts1
    | BufferToImage copy => exact trackLayouts_append levels a b layouts
    | Blit blit => exact trackLayouts_append levels a b layouts

theorem covers_single (base level : Nat) :
    VkImageSubresourceRange.covers { baseMipLevel := base, levelCount := 1 } level = decide (level = base) := by
  unfold VkImageSubresourceRange.covers
  by_cases h : level = base
  · simp [h]
  · have : ¬ (base ≤ level ∧ level < base + 1) := by omega
    simp [h, this]

theorem covers_all (count level : Nat) :
    VkImageSubresourceRange.covers { baseMipLevel := 0, levelCount := count } level = decide (level < count) := by
  unfold VkImageSubresourceRange.covers
  simp

/-- One iteration of the mip loop is valid when its source level is in the
transfer-writable layout, and leaves that level shader-readable. -/
theorem trackLayouts_mipIteration (levels : Nat) (image : Handle) (j : Nat) (w h : Int) (layouts : Nat → Nat)
    (hj : layouts j = VK_IMAGE_LAYOUT_TRANSFER_DST_OPTIMAL) :
    ∃ g, trackLayouts levels (mipIteration image (j + 1) w h) layouts = some g ∧
      ∀ l, g l = if l = j then VK_IMAGE_LAYOUT_SHADER_READ_ONLY_OPTIMAL else layouts l := by
  have h1 := applyBarrier_some levels layouts (firstBarrier image j) (by
    intro l _ hc
    have hc2 : VkImageSubresourceRange.covers { baseMipLevel := j, levelCount := 1 } l = true := hc
    rw [covers_single] at hc2
    have hl : l = j := by simpa using hc2
    rw [hl, hj]
    rfl)
  have h2 := applyBarrier_some levels
    (fun l => if (firstBarrier image j).subresourceRange.covers l then (firstBarrier image j).newLayout
      else layouts l) (secondBarrier image j) (by
    intro l _ hc
    have hc2 : VkImageSubresourceRange.covers { baseMipLevel := j, levelCount := 1 } l = true := hc
    have hc3 : (firstBarrier image j).subresourceRange.covers l = true := hc2
    simp only [hc3, if_true]
    rfl)
  refine ⟨fun l => if (secondBarrier image j).subresourceRange.covers l then (secondBarrier image j).newLayout
    else if (firstBarrier image j).subresourceRange.covers l then (firstBarrier image j).newLayout
    else layouts l, ?_, ?_⟩
  · show trackLayouts levels (Command.PipelineBarrier (firstBarrier image (j + 1 - 1)) ::
      Command.Blit _ :: [Command.PipelineBarrier (secondBarrier image (j + 1 - 1))]) layouts = _
    rw [Nat.add_sub_cancel, trackLayouts_barrier, h1, Option.some_bind, trackLayouts_blit,
      trackLayouts_barrier, h2, Option.some_bind, trackLayouts_nil]
  · intro l
    have e1 : (secondBarrier image j).subresourceRange.covers l = decide (l = j) := covers_single j l
    have e2 : (firstBarrier image j).subresourceRange.covers l = decide (l = j) := covers_single j l
    simp only [e1, e2, decide_eq_true_eq]
    split_ifs <;> rfl

/-- The iterations for source levels `j`, ..., `j + n - 1` are valid when
these levels are in the transfer-writable layout, and leave them
shader-readable. -/
theorem trackLayouts_mipIterations (levels : Nat) (image : Handle) (w h : Int) :
    ∀ (n j : Nat) (layouts : Nat → Nat),
      (∀ l, j ≤ l → l < j + n → layouts l = VK_IMAGE_LAYOUT_TRANSFER_DST_OPTIMAL) →
      ∃ g, trackLayouts levels ((List.range' j n).flatMap
          (fun k => mipIteration image (k + 1) (mipExtent w k) (mipExtent h k))) layouts = some g ∧
        ∀ l, g l = if j ≤ l ∧ l < j + n then VK_IMAGE_LAYOUT_SHADER_READ_ONLY_OPTIMAL else layouts l
  | 0, j, layouts, _ => by
    refine ⟨layouts, rfl, ?_⟩
    intro l
    have : ¬ (j ≤ l ∧ l < j + 0) := by omega
    rw [if_neg this]
  | n + 1, j, layouts, hl => by
    obtain ⟨g1, t1, p1⟩ := trackLayouts_mipIteration levels image j (mipExtent w j) (mipExtent h j) layouts
      (hl j (Nat.le_refl j) (by omega))
    obtain ⟨g, t, p⟩ := trackLayouts_mipIterations levels image w h n (j + 1) g1 (by
      intro l h1 h2
      rw [p1 l, if_neg (by omega)]
      exact hl l (by omega) (by omega))
    refine ⟨g, ?_, ?_⟩
    · rw [List.range'_succ, List.flatMap_cons, trackLayouts_append, t1]
      exact t
    · intro l
      rw [p l, p1 l]
      by_cases h1 : l = j
      · have c1 : ¬ (j + 1 ≤ l ∧ l < j + 1 + n) := by omega
        have c2 : j ≤ l ∧ l < j + (n + 1) := by omega
        rw [if_neg c1, if_pos h1, if_pos c2]
      · by_cases h2 : j + 1 ≤ l ∧ l < j + 1 + n
        · have c2 : j ≤ l ∧ l < j + (n + 1) := by omega
          rw [if_pos h2, if_pos c2]
        · have c2 : ¬ (j ≤ l ∧ l < j + (n + 1)) := by omega
          rw [if_neg h2, if_neg h1, if_neg c2]

/-- Layout tracking through the commands of an upload, from all levels
undefined: every barrier is valid and every level ends shader-readable. -/
theorem trackLayouts_recordUpload (texture : Texture) (offset : Nat) (hL : 1 ≤ texture.mipmapLevels) :
    ∃ final, trackLayouts texture.mipmapLevels (recordUpload texture offset)
        (fun _ => VK_IMAGE_LAYOUT_UNDEFINED) = some final ∧
      ∀ l, l < texture.mipmapLevels → final l = VK_IMAGE_LAYOUT_SHADER_READ_ONLY_OPTIMAL := by
  have h1 := applyBarrier_some texture.mipmapLevels (fun _ => VK_IMAGE_LAYOUT_UNDEFINED)
    (stagingBufferTransferBarrier texture) (fun _ _ _ => rfl)
  have h2 := applyBarrier_some texture.mipmapLevels
    (fun l => if (stagingBufferTransferBarrier texture).subresourceRange.covers l then
      (stagingBufferTransferBarrier texture).newLayout else VK_IMAGE_LAYOUT_UNDEFINED)
    (stagingBufferShaderBarrier texture) (by
    intro l _ hc
    have hc3 : (stagingBufferTransferBarrier texture).subresourceRange.covers l = true := hc
    simp only [hc3, if_true]
    rfl)
  have e1 : ∀ l, (stagingBufferTransferBarrier texture).subresourceRange.covers l =
      decide (l < texture.mipmapLevels) := fun l => covers_all _ l
  have e2 : ∀ l, (stagingBufferShaderBarrier texture).subresourceRange.covers l =
      decide (l < texture.mipmapLevels) := fun l => covers_all _ l
  have hstart : trackLayouts texture.mipmapLevels
      [Command.PipelineBarrier (stagingBufferTransferBarrier texture),
       Command.BufferToImage (stagingBufferCopy texture offset),
       Command.PipelineBarrier (stagingBufferShaderBarrier texture)] (fun _ => VK_IMAGE_LAYOUT_UNDEFINED) =
      some (fun l => if (stagingBufferShaderBarrier texture).subresourceRange.covers l then
        (stagingBufferShaderBarrier texture).newLayout
        else if (stagingBufferTransferBarrier texture).subresourceRange.covers l then
          (stagingBufferTransferBarrier texture).newLayout else VK_IMAGE_LAYOUT_UNDEFINED) := by
    rw [trackLayouts_barrier, h1, Option.some_bind, trackLayouts_copy, trackLayouts_barrier, h2,
      Option.some_bind, trackLayouts_nil]
  by_cases hone : texture.mipmapLevels ≤ 1
  · rw [recordUpload_single texture offset hone, hstart]
    refine ⟨_, rfl, ?_⟩
    intro l hl
    have hn : ¬ texture.mipmapLevels > 1 := by omega
    simp only [e2, hl, decide_True, if_true]
    show (if texture.mipmapLevels > 1 then VK_IMAGE_LAYOUT_TRANSFER_DST_OPTIMAL
      else VK_IMAGE_LAYOUT_SHADER_READ_ONLY_OPTIMAL) = _
    rw [if_neg hn]
  · have hchain : 2 ≤ texture.mipmapLevels := by omega
    have hgt : texture.mipmapLevels > 1 := by omega
    have hnew : (stagingBufferShaderBarrier texture).newLayout = VK_IMAGE_LAYOUT_TRANSFER_DST_OPTIMAL := by
      show (if texture.mipmapLevels > 1 then VK_IMAGE_LAYOUT_TRANSFER_DST_OPTIMAL
        else VK_IMAGE_LAYOUT_SHADER_READ_ONLY_OPTIMAL) = _
      rw [if_pos hgt]
    obtain ⟨g, t, p⟩ := trackLayouts_mipIterations texture.mipmapLevels texture.image (toI32 texture.width)
      (toI32 texture.height) (texture.mipmapLevels - 1) 0
      (fun l => if (stagingBufferShaderBarrier texture).subresourceRange.covers l then
        (stagingBufferShaderBarrier texture).newLayout
        else if (stagingBufferTransferBarrier texture).subresourceRange.covers l then
          (stagingBufferTransferBarrier texture).newLayout else VK_IMAGE_LAYOUT_UNDEFINED) (by
      intro l _ h2
      have hl : l < texture.mipmapLevels := by omega
      simp only [e2, hl, decide_True, if_true, hnew])
    have hlast := applyBarrier_some texture.mipmapLevels g (lastBarrier texture) (by
      intro l hl hc
      have hc2 : VkImageSubresourceRange.covers
          { baseMipLevel := texture.mipmapLevels - 1, levelCount := 1 } l = true := hc
      rw [covers_single] at hc2
      have hl2 : l = texture.mipmapLevels - 1 := by simpa using hc2
      rw [p l, if_neg (by omega)]
      simp only [e2, hl, decide_True, if_true, hnew]
      rfl)
    refine ⟨fun l => if (lastBarrier texture).subresourceRange.covers l then (lastBarrier texture).newLayout
      else g l, ?_, ?_⟩
    · rw [recordUpload_chain texture offset hchain, trackLayouts_append, hstart, Option.some_bind,
        trackLayouts_append, List.range_eq_range', t, Option.some_bind]
      rw [trackLayouts_barrier, hlast, Option.some_bind, trackLayouts_nil]
    · intro l hl
      have e3 : (lastBarrier texture).subresourceRange.covers l = decide (l = texture.mipmapLevels - 1) :=
        covers_single _ l
      simp only [e3, decide_eq_true_eq]
      by_cases hlast2 : l = texture.mipmapLevels - 1
      · rw [if_pos hlast2]
        rfl
      · rw [if_neg hlast2, p l, if_pos (by omega)]

/-- The last command of an upload is a barrier to the shader-readable layout. -/
theorem getLast_recordUpload (texture : Texture) (offset : Nat) :
    ∃ barrier, (recordUpload texture offset).getLast? = some (Command.PipelineBarrier barrier) ∧
      barrier.newLayout = VK_IMAGE_LAYOUT_SHADER_READ_ONLY_OPTIMAL := by
  by_cases hone : texture.mipmapLevels ≤ 1
  · refine ⟨stagingBufferShaderBarrier texture, ?_, ?_⟩
    · rw [recordUpload_single texture offset hone]
      rfl
    · have hn : ¬ texture.mipmapLevels > 1 := by omega
      show (if texture.mipmapLevels > 1 then VK_IMAGE_LAYOUT_TRANSFER_DST_OPTIMAL
        else VK_IMAGE_LAYOUT_SHADER_READ_ONLY_OPTIMAL) = _
      rw [if_neg hn]
  · refine ⟨lastBarrier texture, ?_, rfl⟩
    rw [recordUpload_chain texture offset (by omega), ← List.append_assoc, List.getLast?_append]
    rfl

/-- The calls of `DestroyObjects` end with the releases of the descriptor-set
entries; the calls before them release no descriptor set and no layout. -/
theorem calls_DestroyObjects_descriptorSets (s : Renderer) :
    ∃ earlier, (DestroyObjects s).calls =
        s.calls ++ earlier ++ s.descriptorSetsToDestroy.flatMap descriptorSetReleases ∧
      ∀ c ∈ earlier, (∀ set, c ≠ Call.vkFreeDescriptorSets set) ∧
        ∀ layout, c ≠ Call.vkDestroyDescriptorSetLayout layout := by
  refine ⟨s.swapchainsToDestroy.flatMap swapchainReleases ++ s.texturesToDestroy.flatMap textureReleases ++
    s.buffersToDestroy.flatMap bufferReleases ++ s.pipelinesToDestroy.flatMap pipelineReleases, ?_, ?_⟩
  · rw [DestroyObjects_eq]
    show s.calls ++ pendingReleases s = _
    unfold pendingReleases
    simp only [List.append_assoc]
  · intro c hc
    simp only [List.mem_append, List.mem_flatMap] at hc
    rcases hc with ((⟨d, -, h⟩ | ⟨d, -, h⟩) | ⟨d, -, h⟩) | ⟨d, -, h⟩
    · unfold swapchainReleases at h
      simp only [List.mem_append, List.mem_map, List.mem_singleton] at h
      rcases h with (⟨v, -, rfl⟩ | ⟨v, -, rfl⟩) | rfl <;> exact ⟨fun _ hx => Call.noConfusion hx, fun _ hx => Call.noConfusion hx⟩
    · unfold textureReleases at h
      simp only [List.mem_append] at h
      rcases h with h | h <;> split_ifs at h <;> simp at h <;> subst h <;>
        exact ⟨fun _ hx => Call.noConfusion hx, fun _ hx => Call.noConfusion hx⟩
    · unfold bufferReleases at h
      simp only [List.mem_append] at h
      rcases h with h | h <;> split_ifs at h <;> simp at h <;> subst h <;>
        exact ⟨fun _ hx => Call.noConfusion hx, fun _ hx => Call.noConfusion hx⟩
    · unfold pipelineReleases at h
      split_ifs at h <;> simp at h
      subst h
      exact ⟨fun _ hx => Call.noConfusion hx, fun _ hx => Call.noConfusion hx⟩

/-! ## What surface recreation queues -/

/-- The scheduling loop of `RecreateSwapchain` appends, for each slot, the entry of the
depth attachment and then the entry of the colour attachment. -/
theorem scheduleAttachments_eq : ∀ (l : List Nat) (s : Renderer),
    queueView (scheduleAttachments l s) =
      (s.swapchain, s.swapchainsToDestroy,
        s.texturesToDestroy ++
          l.flatMap (fun i => [textureEntry (s.depthTextures i), textureEntry (s.colorTextures i)])) ∧
    (scheduleAttachments l s).imageCount = s.imageCount
  | [], s => by
    unfold scheduleAttachments queueView
    simp
  | i :: rest, s => by
    unfold scheduleAttachments
    obtain ⟨h1, h2⟩ := scheduleAttachments_eq rest
      (ScheduleDestructionTexture (s.colorTextures i) (ScheduleDestructionTexture (s.depthTextures i) s))
    rw [h1, h2]
    refine ⟨?_, rfl⟩
    simp only [ScheduleDestructionTexture, textureEntry, List.flatMap_cons, List.append_assoc,
      List.cons_append, List.nil_append]

theorem queueView_createColorTexturesLoop (D : Defines) (env : Nat → ImageCreateEnv) :
    ∀ (l : List Nat) (s : Renderer), queueView (createColorTexturesLoop D env l s).2 = queueView s
  | [], _ => rfl
  | i :: rest, s => by
    unfold createColorTexturesLoop
    simp only []
    split_ifs
    · rfl
    · rfl
    · rw [queueView_createColorTexturesLoop D env rest]
      rfl

theorem queueView_createDepthTexturesLoop (D : Defines) (env : Nat → ImageCreateEnv) :
    ∀ (l : List Nat) (s : Renderer), queueView (createDepthTexturesLoop D env l s).2 = queueView s
  | [], _ => rfl
  | i :: rest, s => by
    unfold createDepthTexturesLoop
    simp only []
    split_ifs
    · rfl
    · rfl
    · rw [queueView_createDepthTexturesLoop D env rest]
      rfl

theorem texturesToDestroy_swapchainCreateLoop (D : Defines) (env : SwapchainEnv) :
    ∀ (l : List Nat) (s : Renderer),
      (swapchainCreateLoop D env l s).2.texturesToDestroy = s.texturesToDestroy
  | [], _ => rfl
  | i :: rest, s => by
    unfold swapchainCreateLoop
    simp only []
    split_ifs
    · rfl
    · rfl
    · rw [texturesToDestroy_swapchainCreateLoop D env rest]
      rfl

/-- Function `Swapchain::Create` queues the outgoing surface set, and no image. -/
theorem queues_SwapchainCreate (D : Defines) (env : SwapchainEnv) (s : Renderer) :
    (SwapchainCreate D env s).2.swapchainsToDestroy = s.swapchainsToDestroy ++
      [{ swapchain := s.swapchain.vkSwapchain, imageViews := s.swapchain.imageViews,
         framebuffers := s.swapchain.framebuffers }] ∧
    (SwapchainCreate D env s).2.texturesToDestroy = s.texturesToDestroy := by
  unfold SwapchainCreate
  simp only []
  split_ifs
  · exact ⟨rfl, rfl⟩
  · rw [swapchainsToDestroy_swapchainCreateLoop, texturesToDestroy_swapchainCreateLoop]
    exact ⟨rfl, rfl⟩

/-- The rebuild steps of `RecreateSwapchain` queue the outgoing surface set, and no
image. -/
theorem queues_rebuild (D : Defines) (env : RecreateEnv) (l1 l2 : List Nat) (t : Renderer) :
    (SwapchainCreate D env.swapchain (createDepthTexturesLoop D env.depth l2
      (createColorTexturesLoop D env.color l1 t).2).2).2.texturesToDestroy = t.texturesToDestroy ∧
    (SwapchainCreate D env.swapchain (createDepthTexturesLoop D env.depth l2
      (createColorTexturesLoop D env.color l1 t).2).2).2.swapchainsToDestroy = t.swapchainsToDestroy ++
      [{ swapchain := t.swapchain.vkSwapchain, imageViews := t.swapchain.imageViews,
         framebuffers := t.swapchain.framebuffers }] := by
  obtain ⟨h1, h2⟩ := queues_SwapchainCreate D env.swapchain
    (createDepthTexturesLoop D env.depth l2 (createColorTexturesLoop D env.color l1 t).2).2
  have hq := (queueView_createDepthTexturesLoop D env.depth l2 (createColorTexturesLoop D env.color l1 t).2).trans
    (queueView_createColorTexturesLoop D env.color l1 t)
  simp only [queueView, Prod.mk.injEq] at hq
  obtain ⟨q1, q2, q3⟩ := hq
  rw [h1, h2, q1, q2, q3]
  exact ⟨rfl, rfl⟩

/-- What a `RecreateSwapchain` that returns `true` has queued. -/
theorem queues_RecreateSwapchain (D : Defines) (env : RecreateEnv) (s : Renderer)
    (hok : (RecreateSwapchain D env s).1 = true) :
    (RecreateSwapchain D env s).2.texturesToDestroy = s.texturesToDestroy ++
      (List.range (CreateSurfaceInfo D env.surfaceInfo s).2.imageCount).flatMap
        (fun i => [textureEntry (s.depthTextures i), textureEntry (s.colorTextures i)]) ∧
    (RecreateSwapchain D env s).2.swapchainsToDestroy = s.swapchainsToDestroy ++
      [{ swapchain := s.swapchain.vkSwapchain, imageViews := s.swapchain.imageViews,
         framebuffers := s.swapchain.framebuffers }] := by
  obtain ⟨hsched, -⟩ := scheduleAttachments_eq (List.range (CreateSurfaceInfo D env.surfaceInfo s).2.imageCount)
    (CreateSurfaceInfo D env.surfaceInfo s).2
  unfold RecreateSwapchain CreateDepthTextures CreateColorTextures at hok ⊢
  simp only [] at hok ⊢
  split_ifs at hok ⊢ with ha hb hc hd
  rw [(queues_rebuild D env _ _ _).1, (queues_rebuild D env _ _ _).2]
  simp only [queueView, Prod.mk.injEq] at hsched
  obtain ⟨q1, q2, q3⟩ := hsched
  rw [q1, q2, q3]
  exact ⟨rfl, rfl⟩

/-! ## The slot cursor and the frame counter -/

/-- One cursor step keeps `frameIndex = absoluteFrame % N` unless the `U32`
counter wraps and `N` does not divide `2^32`. -/
theorem cursor_step_mod {N f a : Nat} (hN : 1 ≤ N) (hU : N < 4294967296) (hf : f = a % N)
    (hw : a + 1 < 4294967296 ∨ N ∣ 4294967296) :
    wrapU32 (f + 1) % N = wrapU32 (a + 1) % N := by
  have hlt : a % N < N := Nat.mod_lt a (by omega)
  have h1 : wrapU32 (f + 1) = f + 1 := by
    unfold wrapU32
    exact Nat.mod_eq_of_lt (by omega)
  rw [h1, hf, Nat.mod_add_mod]
  unfold wrapU32
  rcases hw with h | h
  · rw [Nat.mod_eq_of_lt h]
  · rw [Nat.mod_mod_of_dvd _ h]

/-- In a run in which `Submit` always finds `imageCount = N`, every frame that
begins before the `U32` frame counter has wrapped, or any frame when `N`
divides `2^32`, begins with `frameIndex = absoluteFrame % N`. -/
theorem run_slot_invariant {D : Defines} {N : Nat} (hN : 1 ≤ N) (hU : N < 4294967296) :
    ∀ (envs : List FrameEnv) (sim sim' : Sim) (frames : List FrameRecord),
      run D envs sim = some (sim', frames) →
      ∀ j : Nat, sim.renderer.frameIndex = sim.renderer.absoluteFrame % N →
      sim.renderer.absoluteFrame ≤ j →
      (∀ fr ∈ frames, ∀ sb, fr.atSubmit = some sb → sb.imageCount = N) →
      ∀ (k : Nat) (frk : FrameRecord), frames[k]? = some frk →
      (j + k < 4294967296 ∨ N ∣ 4294967296) →
      frk.pre.frameIndex = frk.pre.absoluteFrame % N ∧
      ∃ env simk simk1, Update D env simk = some (simk1, frk)
  | [], sim, sim', frames, h, _, _, _, _, k, frk, hk, _ => by
    obtain ⟨-, h2⟩ := run_nil_some h
    subst h2
    simp at hk
  | env :: rest, sim, sim', frames, h, j, hinv, hj, hconst, k, frk, hk, hw => by
    obtain ⟨sim1, fr0, frames', hu, hr, hf⟩ := run_cons_some h
    subst hf
    cases k with
    | zero =>
      simp only [List.getElem?_cons_zero, Option.some.injEq] at hk
      subst hk
      obtain ⟨hpre, -⟩ := Update_some hu
      rw [hpre]
      exact ⟨hinv, env, sim, sim1, hu⟩
    | succ k =>
      simp only [List.getElem?_cons_succ] at hk
      have hw' : j + 1 + k < 4294967296 ∨ N ∣ 4294967296 := by
        rcases hw with h1 | h1
        · exact Or.inl (by omega)
        · exact Or.inr h1
      have hstep : sim1.renderer.frameIndex = sim1.renderer.absoluteFrame % N ∧
          sim1.renderer.absoluteFrame ≤ j + 1 := by
        obtain ⟨hp, hn⟩ := Update_cursor hu
        cases hpres : fr0.presented with
        | true =>
          obtain ⟨sb, hsb, hcur⟩ := hp hpres
          have hN' : sb.imageCount = N := hconst fr0 (List.mem_cons_self _ _) sb hsb
          simp only [cursorOf, Prod.mk.injEq] at hcur
          obtain ⟨c1, -, c3⟩ := hcur
          rw [c1, c3, hN']
          refine ⟨cursor_step_mod hN hU hinv ?_, ?_⟩
          · rcases hw with h1 | h1
            · exact Or.inl (by omega)
            · exact Or.inr h1
          · unfold wrapU32
            exact Nat.le_trans (Nat.mod_le _ _) (by omega)
        | false =>
          have hcur := hn hpres
          simp only [cursorOf, Prod.mk.injEq] at hcur
          obtain ⟨c1, -, c3⟩ := hcur
          rw [c1, c3]
          exact ⟨hinv, by omega⟩
      exact run_slot_invariant hN hU rest sim1 sim' frames' hr (j + 1) hstep.1 hstep.2
        (fun fr hfr => hconst fr (List.mem_cons_of_mem _ hfr)) k frk hk hw'

/-- The first call that `Synchronize` issues is the acquire, with the
image-acquired semaphore of slot `absoluteFrame % imageCount`. -/
theorem acquire_synchronizedRenderer (D : Defines) (env : SynchronizeEnv) (s : Renderer) :
    ((synchronizedRenderer D env s).calls.drop s.calls.length)[0]? =
      some (Call.vkAcquireNextImageKHR s.swapchain.vkSwapchain (s.absoluteFrame % s.imageCount)) := by
  by_cases hstale : env.acquire.result = VK_ERROR_OUT_OF_DATE_KHR
  · obtain ⟨created, e, -⟩ := calls_synchronizedRenderer_stale D env s hstale
    rw [e, List.drop_left]
    simp
  · rw [calls_synchronizedRenderer_fresh D env s hstale, List.drop_left]
    simp

end Renderer

/-! ## The claims -/

open Renderer

/-- C1, as amended: when `frameIndex < imageCount` (a `U32`) and the queue
submission is accepted, so that the present call is made, `Submit` leaves
`previousFrame` equal to the old `frameIndex`, `frameIndex` equal to
`(old frameIndex + 1) % imageCount`, and `absoluteFrame` equal to the old value
plus one in `U32` arithmetic, that is modulo `2^32`; this is the old value plus
one unless the old value is `2^32 - 1`.  Nothing depends on the result of the
present call. -/
theorem C1_submit_advances_cursor (D : Defines) (env : SubmitEnv) (s : Renderer)
    (hf : s.frameIndex < s.imageCount) (hU : s.imageCount < 4294967296)
    (hsub : D.accepts env.submitResult = true) :
    (Submit D env s).previousFrame = s.frameIndex ∧
    (Submit D env s).frameIndex = (s.frameIndex + 1) % s.imageCount ∧
    (Submit D env s).absoluteFrame = (s.absoluteFrame + 1) % 4294967296 ∧
    (s.absoluteFrame + 1 < 4294967296 → (Submit D env s).absoluteFrame = s.absoluteFrame + 1) := by
  have h := cursorOf_Submit D env s
  rw [if_pos hsub] at h
  simp only [cursorOf, Prod.mk.injEq] at h
  obtain ⟨h1, h2, h3⟩ := h
  have hlt : s.frameIndex + 1 < 4294967296 := by omega
  refine ⟨h2, ?_, h3, ?_⟩
  · rw [h1]
    unfold wrapU32
    rw [Nat.mod_eq_of_lt hlt]
  · intro ha
    rw [h3]
    unfold wrapU32
    exact Nat.mod_eq_of_lt ha

/-- C1, witness: slot 1 of 2, frame 7, the present call reporting a stale surface. -/
theorem C1_submit_advances_cursor_witness :
    (Submit (Defines.standard 3) { presentResult := VK_ERROR_OUT_OF_DATE_KHR }
      { imageCount := 2, frameIndex := 1, absoluteFrame := 7 }).previousFrame = 1 ∧
    (Submit (Defines.standard 3) { presentResult := VK_ERROR_OUT_OF_DATE_KHR }
      { imageCount := 2, frameIndex := 1, absoluteFrame := 7 }).frameIndex = (1 + 1) % 2 ∧
    (Submit (Defines.standard 3) { presentResult := VK_ERROR_OUT_OF_DATE_KHR }
      { imageCount := 2, frameIndex := 1, absoluteFrame := 7 }).absoluteFrame = (7 + 1) % 4294967296 ∧
    (7 + 1 < 4294967296 →
      (Submit (Defines.standard 3) { presentResult := VK_ERROR_OUT_OF_DATE_KHR }
        { imageCount := 2, frameIndex := 1, absoluteFrame := 7 }).absoluteFrame = 7 + 1) :=
  C1_submit_advances_cursor (Defines.standard 3) { presentResult := VK_ERROR_OUT_OF_DATE_KHR }
    { imageCount := 2, frameIndex := 1, absoluteFrame := 7 } (by decide) (by decide) (by decide)

/-- C1, counterexample to the claim as stated: with `frameIndex = 0 < 2 = imageCount`
and `absoluteFrame = 2^32 - 1`, one `Submit` whose present call succeeds leaves
`absoluteFrame = 0`, not the old value plus one. -/
theorem C1_counterexample :
    (0 : Nat) < 2 ∧
    (Submit (Defines.standard 3) {} { imageCount := 2, frameIndex := 0, absoluteFrame := 4294967295 }).absoluteFrame
      = 0 ∧
    (Submit (Defines.standard 3) {} { imageCount := 2, frameIndex := 0, absoluteFrame := 4294967295 }).absoluteFrame
      ≠ 4294967295 + 1 := by
  decide

/-- C2: in every run from `frameIndex = 0` in which every frame is presented and
`Submit` always finds the same `imageCount = N` (with `1 ≤ N`, a `U32`), frame
`k` (counted from 0) runs with slot cursor `k mod N`, the cursor after the run
is the number of frames modulo `N`, and after exactly `N` frames it is back at
its initial value. -/
theorem C2_slot_cursor_cycles (D : Defines) (N : Nat) (hN : 1 ≤ N) (hU : N < 4294967296)
    (envs : List FrameEnv) (sim sim' : Sim) (frames : List FrameRecord)
    (hrun : run D envs sim = some (sim', frames))
    (h0 : sim.renderer.frameIndex = 0)
    (hconst : ∀ fr ∈ frames, fr.presented = true ∧ ∃ sb, fr.atSubmit = some sb ∧ sb.imageCount = N) :
    (∀ k fr, frames[k]? = some fr → fr.pre.frameIndex = k % N) ∧
    sim'.renderer.frameIndex = frames.length % N ∧
    (frames.length = N → sim'.renderer.frameIndex = sim.renderer.frameIndex) := by
  have h := run_frameIndex hN hU envs sim sim' frames hrun (by omega) hconst
  rw [h0] at h
  simp only [Nat.zero_add] at h
  refine ⟨h.1, h.2, ?_⟩
  intro hl
  rw [h.2, hl, h0, Nat.mod_self]

/-- C2, witness: Scenario A.  With `N = 2` the five frames run, the hypotheses
hold, and the slots are `0, 1, 0, 1, 0`. -/
theorem C2_slot_cursor_cycles_witness :
    ∃ sim' frames, run (Defines.standard 3) scenarioA { renderer := { imageCount := 2 } } = some (sim', frames) ∧
      frames.map (fun fr => fr.pre.frameIndex) = [0, 1, 0, 1, 0] ∧
      ((∀ k fr, frames[k]? = some fr → fr.pre.frameIndex = k % 2) ∧
        sim'.renderer.frameIndex = frames.length % 2 ∧
        (frames.length = 2 → sim'.renderer.frameIndex = 0)) := by
  have hsome : (run (Defines.standard 3) scenarioA { renderer := { imageCount := 2 } }).map
      (fun r => (r.2.map (fun fr => fr.pre.frameIndex),
        r.2.all (fun fr => fr.presented && fr.atSubmit.any (fun sb => sb.imageCount == 2)))) =
      some ([0, 1, 0, 1, 0], true) := by decide!
  match h : run (Defines.standard 3) scenarioA { renderer := { imageCount := 2 } } with
  | none =>
    rw [h] at hsome
    cases hsome
  | some (sim', frames) =>
    rw [h] at hsome
    simp only [Option.map_some', Option.some.injEq, Prod.mk.injEq, List.all_eq_true, Bool.and_eq_true]
      at hsome
    refine ⟨sim', frames, rfl, hsome.1, ?_⟩
    exact C2_slot_cursor_cycles (Defines.standard 3) 2 (by decide) (by decide) scenarioA _ sim' frames h rfl
      (fun fr hfr => ⟨(hsome.2 fr hfr).1, exists_atSubmit_of_any (hsome.2 fr hfr).2⟩)

/-- C3, as amended: in every run in which every frame is presented, starting
with `absoluteFrame = a` (a `U32`), the counter after `n` frames is
`(a + n) mod 2^32`; it equals `a + n` exactly as long as `a + n < 2^32`. -/
theorem C3_absoluteFrame_counts_modulo (D : Defines) (envs : List FrameEnv) (sim sim' : Sim)
    (frames : List FrameRecord) (hrun : run D envs sim = some (sim', frames))
    (ha : sim.renderer.absoluteFrame < 4294967296)
    (hp : ∀ fr ∈ frames, fr.presented = true) :
    sim'.renderer.absoluteFrame = (sim.renderer.absoluteFrame + frames.length) % 4294967296 ∧
    (sim.renderer.absoluteFrame + frames.length < 4294967296 →
      sim'.renderer.absoluteFrame = sim.renderer.absoluteFrame + frames.length) := by
  have h := run_absoluteFrame envs sim sim' frames hrun ha hp
  exact ⟨h, fun hlt => by rw [h, Nat.mod_eq_of_lt hlt]⟩

/-- C3, witness: Scenario A from `absoluteFrame = 0`; after five presents the
counter is 5. -/
theorem C3_absoluteFrame_counts_modulo_witness :
    ∃ sim' frames, run (Defines.standard 3) scenarioA { renderer := { imageCount := 2 } } = some (sim', frames) ∧
      frames.length = 5 ∧
      (sim'.renderer.absoluteFrame = (0 + frames.length) % 4294967296 ∧
        (0 + frames.length < 4294967296 → sim'.renderer.absoluteFrame = 0 + frames.length)) := by
  have hsome : (run (Defines.standard 3) scenarioA { renderer := { imageCount := 2 } }).map
      (fun r => (r.2.length, r.2.all (fun fr => fr.presented))) = some (5, true) := by decide!
  match h : run (Defines.standard 3) scenarioA { renderer := { imageCount := 2 } } with
  | none =>
    rw [h] at hsome
    cases hsome
  | some (sim', frames) =>
    rw [h] at hsome
    simp only [Option.map_some', Option.some.injEq, Prod.mk.injEq, List.all_eq_true] at hsome
    exact ⟨sim', frames, rfl, hsome.1,
      C3_absoluteFrame_counts_modulo (Defines.standard 3) scenarioA _ sim' frames h (by decide) hsome.2⟩

/-- C3, counterexample to the claim as stated: from `absoluteFrame = 2^32 - 1`
(slot 1 of 2) two presented frames leave `absoluteFrame = 1`, not
`2^32 - 1 + 2`. -/
theorem C3_counterexample :
    (run (Defines.standard 3) [idleGpuFrame 1, frameAfter 1 0]
      { renderer := { imageCount := 2, frameIndex := 1, absoluteFrame := 4294967295 } }).map
      (fun r => (r.2.map (fun fr => fr.presented), r.1.renderer.absoluteFrame,
        decide (r.1.renderer.absoluteFrame = 4294967295 + 2))) = some ([true, true], 1, false) := by
  decide!

/-- C4, evaluated at a failing input.  Frame 0 runs with slot cursor 0 but
acquires image 1; its transfer submission signals `transferFinished[1]` at
value 1 and its render submission signals `renderFinished[0]` at value 0.  The
wait of frame 1 is on slot 0 with the values 0 and 0, so it returns although
the GPU has made no progress, and the Reclaim step of frame 1 destroys the
buffer retired during frame 0 while `transferFinished[1]` is still 0. -/
theorem C4_release_before_transfer_observed :
    (run (Defines.standard 3) staleTransferRun { renderer := { imageCount := 2 } }).map
      (fun r => (r.2.map (fun fr => (fr.pre.frameIndex, fr.afterSync.imageIndex, fr.post.calls.drop fr.pre.calls.length)),
        r.2.map (fun fr => (fr.reclaimed, fr.waitEnd.transferFinished 1)))) =
    some ([(0, 1, [Call.vkAcquireNextImageKHR 0 0, Call.vkWaitSemaphores 0 0 0 0, Call.ResetDraw 1,
              Call.ResetPool 1, Call.vkQueueSubmit [5] 1 1, Call.vkQueueSubmit2 1 0 0 0 0 0 0,
              Call.vkQueuePresentKHR 1 0 1]),
           (1, 0, [Call.vkAcquireNextImageKHR 0 1, Call.vkWaitSemaphores 0 0 0 0, Call.vmaDestroyBuffer 7 8,
              Call.ResetDraw 0, Call.ResetPool 0, Call.vkQueueSubmit2 0 1 1 1 1 1 1,
              Call.vkQueuePresentKHR 0 0 0])],
          [([], 0), ([Call.vmaDestroyBuffer 7 8], 0)]) := by
  decide!

/-- In every run, let frame `k` be presented, with slot cursor `frameIndex`.  For
every `n ≥ 1` the back-pressure wait of frame `k + n` does not return until the
render-finished and transfer-finished counters of slot `frameIndex` have
reached the wait values that this slot has when frame `k` has been submitted,
and for every `n ≥ 2` it does not begin until then.  These are the values that
the submissions of frame `k` signal only when frame `k` acquired the image
`imageIndex = frameIndex`. -/
theorem backpressure_wait_observes_slot (D : Defines) (envs : List FrameEnv) (sim sim' : Sim)
    (frames : List FrameRecord) (hrun : run D envs sim = some (sim', frames))
    (k N : Nat) (frk frj : FrameRecord) (hN : 1 ≤ N)
    (hk : frames[k]? = some frk) (hj : frames[k + N]? = some frj) (hp : frk.presented = true) :
    (frk.post.renderWaitValues frk.pre.frameIndex ≤ frj.waitEnd.renderFinished frk.pre.frameIndex ∧
      frk.post.transferWaitValues frk.pre.frameIndex ≤ frj.waitEnd.transferFinished frk.pre.frameIndex) ∧
    (2 ≤ N →
      frk.post.renderWaitValues frk.pre.frameIndex ≤ frj.waitBegin.renderFinished frk.pre.frameIndex ∧
      frk.post.transferWaitValues frk.pre.frameIndex ≤ frj.waitBegin.transferFinished frk.pre.frameIndex) := by
  have hprev := run_previousFrame envs sim sim' frames hrun k frk hk hp
  have hidx : k + N = k + 1 + (N - 1) := by omega
  rw [hidx] at hj
  have h := run_backpressure envs sim sim' frames hrun k (N - 1) frk frj hk hj
  rw [hprev] at h
  exact ⟨h.1, fun h2 => h.2 (by omega)⟩

/-- Scenario A with `k = 0` and `n = 2`: every frame acquires the image of its slot. -/
theorem backpressure_wait_observes_slot_scenarioA :
    ∃ sim' frames frk frj,
      run (Defines.standard 3) scenarioA { renderer := { imageCount := 2 } } = some (sim', frames) ∧
      frames[0]? = some frk ∧ frames[0 + 2]? = some frj ∧ frk.presented = true ∧
      ((frk.post.renderWaitValues frk.pre.frameIndex ≤ frj.waitEnd.renderFinished frk.pre.frameIndex ∧
        frk.post.transferWaitValues frk.pre.frameIndex ≤ frj.waitEnd.transferFinished frk.pre.frameIndex) ∧
      (2 ≤ 2 →
        frk.post.renderWaitValues frk.pre.frameIndex ≤ frj.waitBegin.renderFinished frk.pre.frameIndex ∧
        frk.post.transferWaitValues frk.pre.frameIndex ≤
          frj.waitBegin.transferFinished frk.pre.frameIndex)) := by
  have hsome : (run (Defines.standard 3) scenarioA { renderer := { imageCount := 2 } }).map
      (fun r => (r.2[0]?.map (fun fr => fr.presented), r.2[0 + 2]?.isSome)) = some (some true, true) := by
    decide!
  match h : run (Defines.standard 3) scenarioA { renderer := { imageCount := 2 } } with
  | none =>
    rw [h] at hsome
    cases hsome
  | some (sim', frames) =>
    rw [h] at hsome
    simp only [Option.map_some', Option.some.injEq, Prod.mk.injEq] at hsome
    obtain ⟨h0, h2⟩ := hsome
    cases hk : frames[0]? with
    | none =>
      rw [hk] at h0
      cases h0
    | some frk =>
      cases hj : frames[0 + 2]? with
      | none =>
        rw [hj] at h2
        cases h2
      | some frj =>
        rw [hk] at h0
        simp only [Option.map_some', Option.some.injEq] at h0
        exact ⟨sim', frames, frk, frj, rfl, hk, hj, h0,
          backpressure_wait_observes_slot (Defines.standard 3) scenarioA _ sim' frames h 0 2 frk frj
            (by decide) hk hj h0⟩

/-- One slot, `k = 0`: frame 0 is presented on slot 0 and leaves the render
target 1 for that slot; the back-pressure wait of frame `0 + 1` begins while
`renderFinished[0]` is still 0, and returns once it is 1. -/
theorem singleSlot_wait_begins_before_render_signal :
    (run (Defines.standard 3) singleSlotRun { renderer := { imageCount := 1 } }).map
      (fun r => (r.2[0]?.map (fun fr => (fr.presented, fr.pre.frameIndex, fr.post.renderWaitValues 0)),
        r.2[0 + 1]?.map (fun fr => (fr.waitBegin.renderFinished 0, fr.waitEnd.renderFinished 0)))) =
    some (some (true, 0, 1), some (0, 1)) := by
  decide!

/-- C5, evaluated at a failing input with presentation depth `N = 2` and `k = 0`.
Frame 0 runs with slot cursor 0 but acquires image 1; its transfer submission
signals `transferFinished[1]` with the target value 1.  The back-pressure wait of
frame 1 is on slot 0 with the values 0 and 0 and returns at once.  The
back-pressure wait of frame `0 + 2` begins while `transferFinished[1]` is still 0,
below the target of frame 0; it is this wait, on slot 1 with the values 1 and
1, that blocks until the counter is 1. -/
theorem C5_wait_begins_before_transfer_signal :
    (run (Defines.standard 3) crossedTransferRun { renderer := { imageCount := 2 } }).map
      (fun r => r.2.map (fun fr => (fr.presented, fr.pre.frameIndex, fr.afterSync.imageIndex,
        fr.post.calls.drop fr.pre.calls.length))) =
    some [(true, 0, 1, [Call.vkAcquireNextImageKHR 0 0, Call.vkWaitSemaphores 0 0 0 0, Call.ResetDraw 1,
             Call.ResetPool 1, Call.vkQueueSubmit [5] 1 1, Call.vkQueueSubmit2 1 0 0 0 0 0 0,
             Call.vkQueuePresentKHR 1 0 1]),
          (true, 1, 0, [Call.vkAcquireNextImageKHR 0 1, Call.vkWaitSemaphores 0 0 0 0, Call.ResetDraw 0,
             Call.ResetPool 0, Call.vkQueueSubmit2 0 1 1 1 1 1 1, Call.vkQueuePresentKHR 0 0 0]),
          (true, 0, 1, [Call.vkAcquireNextImageKHR 0 0, Call.vkWaitSemaphores 1 1 1 1, Call.ResetDraw 1,
             Call.ResetPool 1, Call.vkQueueSubmit2 1 0 0 0 0 1 0, Call.vkQueuePresentKHR 1 0 1])] ∧
    (run (Defines.standard 3) crossedTransferRun { renderer := { imageCount := 2 } }).map
      (fun r => r.2.map (fun fr => (fr.waitBegin.transferFinished 1, fr.waitEnd.transferFinished 1))) =
    some [(0, 0), (0, 0), (0, 1)] ∧
    (run (Defines.standard 3) crossedTransferRun { renderer := { imageCount := 2 } }).map
      (fun r => (r.2[0]?.map (fun fr => fr.post.transferWaitValues 1),
        r.2[0 + 2]?.map (fun fr => decide (1 ≤ fr.waitBegin.transferFinished 1)))) =
    some (some 1, some false) := by
  refine ⟨?_, ?_, ?_⟩
  · decide!
  · decide!
  · decide!

/-- C6, as amended.  In every run, a buffer whose destruction is recorded
during frame `k` (a frame that got past `Synchronize`, so after its Reclaim) is
still queued when frame `k` ends, and the Reclaim step of frame `k + 1`, which
issues the releases of everything then queued, issues the releases of its
entry and leaves the buffer queue empty. -/
theorem C6_buffer_released_at_next_reclaim (D : Defines) (envs : List FrameEnv) (sim sim' : Sim)
    (frames : List FrameRecord) (hrun : run D envs sim = some (sim', frames))
    (k : Nat) (envk : FrameEnv) (frk frn : FrameRecord)
    (hek : envs[k]? = some envk) (hk : frames[k]? = some frk) (hn : frames[k + 1]? = some frn)
    (hsync : frk.atSubmit ≠ none) (buffer : Buffer)
    (hb : Recorded.destroyBuffer buffer ∈ envk.updates ++ envk.renders) :
    bufferEntry buffer ∈ frk.post.buffersToDestroy ∧
    frn.reclaimed = pendingReleases frk.post ∧
    (∀ c ∈ bufferReleases (bufferEntry buffer), c ∈ frn.reclaimed) ∧
    frn.afterSync.buffersToDestroy = [] := by
  obtain ⟨simk, simk1, huk, hnext⟩ := run_frame envs sim sim' frames hrun k envk frk hek hk
  obtain ⟨envn, simn, hun⟩ := hnext frn hn
  obtain ⟨-, hpostk, -, -, -, -, -, -, hsynck, hrestk⟩ := Update_some huk
  obtain ⟨-, -, -, -, -, -, -, hrecl, hsyncn, -⟩ := Update_some hun
  have hqueued : bufferEntry buffer ∈ frk.post.buffersToDestroy := by
    split_ifs at hrestk with hres
    · rw [hrestk.2.2]
      exact buffersToDestroy_recordAndSubmit D envk frk.afterSync buffer hb
    · exact absurd hrestk.1 hsync
  rw [← hpostk] at hrecl
  refine ⟨hqueued, hrecl, ?_, ?_⟩
  · intro c hc
    rw [hrecl]
    exact bufferReleases_mem_pendingReleases frk.post _ hqueued c hc
  · rw [hsyncn]
    exact buffersToDestroy_synchronizedRenderer D envn.sync simk1.renderer

/-- C6, witness: Scenario B with `k = 0`; the buffer retired during frame 0 is
destroyed by the Reclaim step of frame 1. -/
theorem C6_buffer_released_at_next_reclaim_witness :
    ∃ sim' frames frk frn,
      run (Defines.standard 3) scenarioB { renderer := { imageCount := 2 } } = some (sim', frames) ∧
      frames[0]? = some frk ∧ frames[0 + 1]? = some frn ∧
      (bufferEntry { vkBuffer := 7, bufferAllocation := 8 } ∈ frk.post.buffersToDestroy ∧
        frn.reclaimed = pendingReleases frk.post ∧
        (∀ c ∈ bufferReleases (bufferEntry { vkBuffer := 7, bufferAllocation := 8 }), c ∈ frn.reclaimed) ∧
        frn.afterSync.buffersToDestroy = []) := by
  have hsome : (run (Defines.standard 3) scenarioB { renderer := { imageCount := 2 } }).map
      (fun r => (r.2[0]?.map (fun fr => fr.atSubmit.isSome), r.2[0 + 1]?.isSome)) = some (some true, true) := by
    decide!
  match h : run (Defines.standard 3) scenarioB { renderer := { imageCount := 2 } } with
  | none =>
    rw [h] at hsome
    cases hsome
  | some (sim', frames) =>
    rw [h] at hsome
    simp only [Option.map_some', Option.some.injEq, Prod.mk.injEq] at hsome
    obtain ⟨h0, h1⟩ := hsome
    cases hk : frames[0]? with
    | none =>
      rw [hk] at h0
      cases h0
    | some frk =>
      cases hn : frames[0 + 1]? with
      | none =>
        rw [hn] at h1
        cases h1
      | some frn =>
        rw [hk] at h0
        simp only [Option.map_some', Option.some.injEq] at h0
        have hsync : frk.atSubmit ≠ none := by
          intro hnone
          rw [hnone] at h0
          cases h0
        exact ⟨sim', frames, frk, frn, rfl, hk, hn,
          C6_buffer_released_at_next_reclaim (Defines.standard 3) scenarioB _ sim' frames h 0 _ frk frn
            rfl hk hn hsync { vkBuffer := 7, bufferAllocation := 8 } (by decide)⟩

/-- C6, counterexample to the claim as stated: in Scenario B the buffer retired
during frame 0 is destroyed by the Reclaim step of frame 1, after which the
buffer queue is empty, and the Reclaim step of frame 2 destroys nothing. -/
theorem C6_counterexample :
    (run (Defines.standard 3) scenarioB { renderer := { imageCount := 2 } }).map
      (fun r => r.2.map (fun fr => (fr.reclaimed, fr.afterSync.buffersToDestroy, fr.post.buffersToDestroy))) =
    some [([], [], [{ vkBuffer := 7, bufferAllocation := 8 }]),
          ([Call.vmaDestroyBuffer 7 8], [], []),
          ([], [], [])] := by
  decide!

/-- C7: each of the five `ScheduleDestruction` overloads is total, appends one
entry holding the handles of its argument at the end of the queue of its own
kind, leaves the other four queues as they were, and issues no call (so it
releases nothing). -/
theorem C7_schedule_destruction_appends_one_entry (s : Renderer) (swapchain : Swapchain)
    (texture : Texture) (buffer : Buffer) (pipeline : Pipeline) (descriptorSet : DescriptorSet) :
    ((ScheduleDestructionSwapchain swapchain s).2.swapchainsToDestroy =
        s.swapchainsToDestroy ++
          [{ swapchain := swapchain.vkSwapchain, imageViews := swapchain.imageViews,
             framebuffers := swapchain.framebuffers }] ∧
      (ScheduleDestructionSwapchain swapchain s).2.texturesToDestroy = s.texturesToDestroy ∧
      (ScheduleDestructionSwapchain swapchain s).2.buffersToDestroy = s.buffersToDestroy ∧
      (ScheduleDestructionSwapchain swapchain s).2.pipelinesToDestroy = s.pipelinesToDestroy ∧
      (ScheduleDestructionSwapchain swapchain s).2.descriptorSetsToDestroy = s.descriptorSetsToDestroy ∧
      (ScheduleDestructionSwapchain swapchain s).2.calls = s.calls) ∧
    ((ScheduleDestructionTexture texture s).texturesToDestroy =
        s.texturesToDestroy ++
          [{ image := texture.image, imageView := texture.imageView, allocation := texture.allocation }] ∧
      (ScheduleDestructionTexture texture s).swapchainsToDestroy = s.swapchainsToDestroy ∧
      (ScheduleDestructionTexture texture s).buffersToDestroy = s.buffersToDestroy ∧
      (ScheduleDestructionTexture texture s).pipelinesToDestroy = s.pipelinesToDestroy ∧
      (ScheduleDestructionTexture texture s).descriptorSetsToDestroy = s.descriptorSetsToDestroy ∧
      (ScheduleDestructionTexture texture s).calls = s.calls) ∧
    ((ScheduleDestructionBuffer buffer s).buffersToDestroy =
        s.buffersToDestroy ++
          [{ vkBuffer := buffer.vkBuffer, bufferAllocation := buffer.bufferAllocation,
             vkBufferStaging := buffer.vkBufferStaging,
             stagingBufferAllocation := buffer.stagingBufferAllocation }] ∧
      (ScheduleDestructionBuffer buffer s).swapchainsToDestroy = s.swapchainsToDestroy ∧
      (ScheduleDestructionBuffer buffer s).texturesToDestroy = s.texturesToDestroy ∧
      (ScheduleDestructionBuffer buffer s).pipelinesToDestroy = s.pipelinesToDestroy ∧
      (ScheduleDestructionBuffer buffer s).descriptorSetsToDestroy = s.descriptorSetsToDestroy ∧
      (ScheduleDestructionBuffer buffer s).calls = s.calls) ∧
    ((ScheduleDestructionPipeline pipeline s).pipelinesToDestroy =
        s.pipelinesToDestroy ++ [{ vkPipeline := pipeline.vkPipeline }] ∧
      (ScheduleDestructionPipeline pipeline s).swapchainsToDestroy = s.swapchainsToDestroy ∧
      (ScheduleDestructionPipeline pipeline s).texturesToDestroy = s.texturesToDestroy ∧
      (ScheduleDestructionPipeline pipeline s).buffersToDestroy = s.buffersToDestroy ∧
      (ScheduleDestructionPipeline pipeline s).descriptorSetsToDestroy = s.descriptorSetsToDestroy ∧
      (ScheduleDestructionPipeline pipeline s).calls = s.calls) ∧
    ((ScheduleDestructionDescriptorSet descriptorSet s).descriptorSetsToDestroy =
        s.descriptorSetsToDestroy ++
          [{ vkDescriptorLayout := descriptorSet.vkDescriptorLayout,
             vkDescriptorSet := descriptorSet.vkDescriptorSet, bindless := descriptorSet.bindless }] ∧
      (ScheduleDestructionDescriptorSet descriptorSet s).swapchainsToDestroy = s.swapchainsToDestroy ∧
      (ScheduleDestructionDescriptorSet descriptorSet s).texturesToDestroy = s.texturesToDestroy ∧
      (ScheduleDestructionDescriptorSet descriptorSet s).buffersToDestroy = s.buffersToDestroy ∧
      (ScheduleDestructionDescriptorSet descriptorSet s).pipelinesToDestroy = s.pipelinesToDestroy ∧
      (ScheduleDestructionDescriptorSet descriptorSet s).calls = s.calls) :=
  ⟨⟨rfl, rfl, rfl, rfl, rfl, rfl⟩, ⟨rfl, rfl, rfl, rfl, rfl, rfl⟩, ⟨rfl, rfl, rfl, rfl, rfl, rfl⟩,
    ⟨rfl, rfl, rfl, rfl, rfl, rfl⟩, ⟨rfl, rfl, rfl, rfl, rfl, rfl⟩⟩

/-- C8: `DestroyObjects` leaves the five queues empty, and the calls it issues
are, in this order, the releases of every surface-set entry, of every image
entry, of every buffer entry, of every pipeline entry and of every
descriptor-set entry, each kind in insertion order and each entry once. -/
theorem C8_destroy_objects_drains_in_kind_order (s : Renderer) :
    (DestroyObjects s).swapchainsToDestroy = [] ∧
    (DestroyObjects s).texturesToDestroy = [] ∧
    (DestroyObjects s).buffersToDestroy = [] ∧
    (DestroyObjects s).pipelinesToDestroy = [] ∧
    (DestroyObjects s).descriptorSetsToDestroy = [] ∧
    (DestroyObjects s).calls = s.calls ++
      (s.swapchainsToDestroy.flatMap swapchainReleases ++
        s.texturesToDestroy.flatMap textureReleases ++
        s.buffersToDestroy.flatMap bufferReleases ++
        s.pipelinesToDestroy.flatMap pipelineReleases ++
        s.descriptorSetsToDestroy.flatMap descriptorSetReleases) := by
  rw [DestroyObjects_eq]
  exact ⟨rfl, rfl, rfl, rfl, rfl, rfl⟩

/-- C9: when the reported current extent equals the cached `surfaceWidth` and
`surfaceHeight`, `RecreateSwapchain` returns `false` and leaves the whole
renderer state as it was: no queue grows, no call is issued, the attachments,
the swapchain and the cached format, extent, present mode and image count are
unchanged. -/
theorem C9_recreate_same_extent_is_noop (D : Defines) (env : RecreateEnv) (s : Renderer)
    (hw : env.surface_properties.currentExtent.width = s.surfaceWidth)
    (hh : env.surface_properties.currentExtent.height = s.surfaceHeight) :
    RecreateSwapchain D env s = (false, s) := by
  unfold RecreateSwapchain
  simp only [hw, hh, and_self, if_true]
  split_ifs <;> rfl

/-- C9, witness: an 800 x 600 surface reported again as 800 x 600. -/
theorem C9_recreate_same_extent_is_noop_witness :
    RecreateSwapchain (Defines.standard 3)
      { surface_properties := { currentExtent := { width := 800, height := 600 } } }
      { imageCount := 2, surfaceWidth := 800, surfaceHeight := 600 } =
      (false, { imageCount := 2, surfaceWidth := 800, surfaceHeight := 600 }) :=
  C9_recreate_same_extent_is_noop (Defines.standard 3)
    { surface_properties := { currentExtent := { width := 800, height := 600 } } }
    { imageCount := 2, surfaceWidth := 800, surfaceHeight := 600 } rfl rfl

/-- C10.  Whenever the first acquire of `Synchronize` reports
`VK_ERROR_OUT_OF_DATE_KHR`, a result that the `VkValidate*` test rejects, the
result handed to `VkValidateFR` is that first result, whatever the retried
acquire returned: `Synchronize` returns `false`, and `Update` returns without
entering `Submit`, leaving the state in which `Synchronize` returned. -/
theorem C10_stale_acquire_fails_the_frame (D : Defines) (env : FrameEnv) (sim sim' : Sim) (fr : FrameRecord)
    (h : Update D env sim = some (sim', fr))
    (hstale : env.sync.acquire.result = VK_ERROR_OUT_OF_DATE_KHR)
    (hrej : D.accepts VK_ERROR_OUT_OF_DATE_KHR = false) :
    (∃ r, Synchronize D env.sync fr.waitBegin sim.renderer = some r ∧
      r.validated = some VK_ERROR_OUT_OF_DATE_KHR ∧ r.result = false) ∧
    fr.atSubmit = none ∧ fr.presented = false ∧ fr.post = fr.afterSync ∧
    cursorOf sim'.renderer = cursorOf sim.renderer := by
  obtain ⟨r, hs, -, hfalse, -⟩ := Update_Synchronize h
  obtain ⟨-, -, -, -, hres, -, hval⟩ := Synchronize_some hs
  have hne : env.sync.acquire.result ≠ VK_SUBOPTIMAL_KHR := by
    rw [hstale]
    decide
  have hr : r.result = false := by
    rw [hres]
    unfold synchronizedResult
    rw [if_pos hne, hstale, hrej]
  have hv : r.validated = some VK_ERROR_OUT_OF_DATE_KHR := by
    rw [hval, if_pos hne, hstale]
  obtain ⟨h1, h2, h3⟩ := hfalse hr
  exact ⟨⟨r, hs, hv, hr⟩, h1, h2, h3, (Update_cursor h).2 h2⟩

/-- C10, witness: the first acquire reports a stale surface, the surface is
recreated and the retried acquire returns `VK_SUCCESS`. -/
theorem C10_stale_acquire_fails_the_frame_witness :
    staleAcquireFrame.sync.retry.result = VK_SUCCESS ∧
    ∃ sim' fr,
      Update (Defines.standard 3) staleAcquireFrame
        { renderer := { imageCount := 2, surfaceWidth := 800, surfaceHeight := 600 } } = some (sim', fr) ∧
      ((∃ r, Synchronize (Defines.standard 3) staleAcquireFrame.sync fr.waitBegin
          { imageCount := 2, surfaceWidth := 800, surfaceHeight := 600 } = some r ∧
        r.validated = some VK_ERROR_OUT_OF_DATE_KHR ∧ r.result = false) ∧
      fr.atSubmit = none ∧ fr.presented = false ∧ fr.post = fr.afterSync ∧
      cursorOf sim'.renderer = cursorOf { imageCount := 2, surfaceWidth := 800, surfaceHeight := 600 }) := by
  refine ⟨rfl, ?_⟩
  have hsome : (Update (Defines.standard 3) staleAcquireFrame
      { renderer := { imageCount := 2, surfaceWidth := 800, surfaceHeight := 600 } }).isSome = true := by
    decide!
  match h : Update (Defines.standard 3) staleAcquireFrame
      { renderer := { imageCount := 2, surfaceWidth := 800, surfaceHeight := 600 } } with
  | none =>
    rw [h] at hsome
    cases hsome
  | some (sim', fr) =>
    exact ⟨sim', fr, rfl,
      C10_stale_acquire_fails_the_frame (Defines.standard 3) staleAcquireFrame _ sim' fr h rfl (by decide)⟩

/-- C11.  Whenever the acquire of a returning `Synchronize` reports
`VK_ERROR_OUT_OF_DATE_KHR`, the state it leaves is the one reached by one
`RecreateSwapchain` after the two resets, followed by one more acquire: the
calls it issued are the first acquire, the wait, the releases of the Reclaim
step, the two resets, then the creation calls of that one `RecreateSwapchain`,
at most one of which creates a swapchain, then the retried acquire, so that two
acquires were issued in all; and afterwards the surface-set destruction queue
holds at most one entry, hence no swapchain handle twice. -/
theorem C11_stale_acquire_recreates_once (D : Defines) (env : SynchronizeEnv) (gpu : Clock) (s : Renderer)
    (r : Synchronized) (h : Synchronize D env gpu s = some r)
    (hstale : env.acquire.result = VK_ERROR_OUT_OF_DATE_KHR) :
    r.renderer = recreateAndRetry D env.recreate env.retry (s.absoluteFrame % s.imageCount)
      (resetRecording (DestroyObjects (acquireAndRequestWait env.acquire s))) ∧
    (∃ created, r.renderer.calls =
        s.calls ++ ([Call.vkAcquireNextImageKHR s.swapchain.vkSwapchain (s.absoluteFrame % s.imageCount),
          Call.vkWaitSemaphores s.previousFrame (s.renderWaitValues s.previousFrame)
            s.previousFrame (s.transferWaitValues s.previousFrame)] ++ pendingReleases s ++
        [Call.ResetDraw env.acquire.imageIndex, Call.ResetPool env.acquire.imageIndex] ++ created ++
        [Call.vkAcquireNextImageKHR r.renderer.swapchain.vkSwapchain (s.absoluteFrame % s.imageCount)]) ∧
      (RecreateSwapchain D env.recreate (resetRecording (DestroyObjects (acquireAndRequestWait env.acquire s)))).2.calls =
        (resetRecording (DestroyObjects (acquireAndRequestWait env.acquire s))).calls ++ created ∧
      (∀ c ∈ created, isCreate c = true) ∧ created.countP isSwapchainCreate ≤ 1) ∧
    (r.renderer.calls.drop s.calls.length).countP isAcquire = 2 ∧
    r.renderer.swapchainsToDestroy.length ≤ 1 ∧
    (r.renderer.swapchainsToDestroy.map SwapchainDestructionData.swapchain).Nodup := by
  obtain ⟨-, -, -, hr, -⟩ := Synchronize_some h
  obtain ⟨created, e, e2, p, q⟩ := calls_synchronizedRenderer_stale D env s hstale
  have hq : r.renderer.swapchainsToDestroy.length ≤ 1 := by
    rw [hr]
    rcases swapchainsToDestroy_synchronizedRenderer D env s with h0 | ⟨d, h1⟩
    · rw [h0]
      exact Nat.zero_le 1
    · rw [h1]
      exact Nat.le_refl 1
  refine ⟨?_, ⟨created, by rw [hr]; exact e, e2, p, q⟩, ?_, hq, ?_⟩
  · rw [hr]
    unfold synchronizedRenderer
    simp only [hstale, if_true]
  · rw [hr, e, List.drop_left]
    simp only [List.countP_append, List.countP_cons, List.countP_nil,
      countP_eq_zero_of_isCreate isAcquire isAcquire_of_isCreate created p,
      countP_eq_zero_of_isRelease isAcquire isAcquire_of_isRelease _ (isRelease_pendingReleases s)]
    simp [isAcquire]
  · match hl : r.renderer.swapchainsToDestroy with
    | [] => simp
    | [d] => simp
    | d :: d2 :: rest =>
      rw [hl] at hq
      simp at hq

/-- C11, witness: a renderer with one retired swapchain in its queue, whose
acquire reports a stale surface that has been resized. -/
theorem C11_stale_acquire_recreates_once_witness :
    ∃ r, Synchronize (Defines.standard 3) staleAcquireFrame.sync {}
        { imageCount := 2, surfaceWidth := 800, surfaceHeight := 600,
          swapchain := { vkSwapchain := 60 },
          swapchainsToDestroy := [{ swapchain := 50 }] } = some r ∧
      (r.renderer.calls.drop 0).countP isAcquire = 2 ∧
      r.renderer.swapchainsToDestroy.length ≤ 1 ∧
      (r.renderer.swapchainsToDestroy.map SwapchainDestructionData.swapchain).Nodup := by
  have hsome : (Synchronize (Defines.standard 3) staleAcquireFrame.sync {}
      { imageCount := 2, surfaceWidth := 800, surfaceHeight := 600,
        swapchain := { vkSwapchain := 60 },
        swapchainsToDestroy := [{ swapchain := 50 }] }).isSome = true := by
    decide!
  match h : Synchronize (Defines.standard 3) staleAcquireFrame.sync {}
      { imageCount := 2, surfaceWidth := 800, surfaceHeight := 600,
        swapchain := { vkSwapchain := 60 },
        swapchainsToDestroy := [{ swapchain := 50 }] } with
  | none =>
    rw [h] at hsome
    cases hsome
  | some r =>
    exact ⟨r, rfl,
      (C11_stale_acquire_recreates_once (Defines.standard 3) staleAcquireFrame.sync {} _ r h rfl).2.2⟩

/-- C12, as amended.  For every texture with a mip chain of `L ≥ 2` levels whose
image is created, the commands that `UploadTexture` records are the barrier,
the copy and the barrier of the upload, then for each `i` from 1 to `L - 1` a
barrier on level `i - 1`, one blit from level `i - 1` to level `i` and a second
barrier on level `i - 1`, then one barrier on level `L - 1`: there are exactly
`L - 1` blits, one per level after the first. -/
theorem C12_upload_records_a_blit_per_generated_level (D : Defines) (env : UploadEnv) (texture : Texture)
    (s : Renderer) (hL : 2 ≤ texture.mipmapLevels) (himg : D.accepts env.imageResult = true) :
    (UploadTexture D env texture s).commands =
      [Command.PipelineBarrier
          (stagingBufferTransferBarrier { texture with image := env.image, allocation := env.allocation }),
       Command.BufferToImage
          (stagingBufferCopy { texture with image := env.image, allocation := env.allocation }
            (NextMultipleOf (s.stagingBuffers s.imageIndex).stagingPointer 16)),
       Command.PipelineBarrier
          (stagingBufferShaderBarrier { texture with image := env.image, allocation := env.allocation })] ++
      ((List.range (texture.mipmapLevels - 1)).flatMap
          (fun k => mipIteration env.image (k + 1) (mipExtent (toI32 texture.width) k)
            (mipExtent (toI32 texture.height) k)) ++
        [Command.PipelineBarrier
          (lastBarrier { texture with image := env.image, allocation := env.allocation })]) ∧
    (blitsOf (UploadTexture D env texture s).commands).length = texture.mipmapLevels - 1 := by
  rw [commands_UploadTexture D env texture s himg]
  refine ⟨recordUpload_chain _ _ hL, ?_⟩
  rw [blitsOf_recordUpload { texture with image := env.image, allocation := env.allocation } _ hL,
    List.length_map, List.length_range]

/-- C12, witness: the 4-level texture. -/
theorem C12_upload_records_a_blit_per_generated_level_witness :
    (UploadTexture (Defines.standard 3) {} fourLevelTexture {}).commands =
      [Command.PipelineBarrier
          (stagingBufferTransferBarrier { fourLevelTexture with image := 0, allocation := 0 }),
       Command.BufferToImage
          (stagingBufferCopy { fourLevelTexture with image := 0, allocation := 0 }
            (NextMultipleOf 0 16)),
       Command.PipelineBarrier
          (stagingBufferShaderBarrier { fourLevelTexture with image := 0, allocation := 0 })] ++
      ((List.range (4 - 1)).flatMap
          (fun k => mipIteration 0 (k + 1) (mipExtent (toI32 8) k) (mipExtent (toI32 4) k)) ++
        [Command.PipelineBarrier (lastBarrier { fourLevelTexture with image := 0, allocation := 0 })]) ∧
    (blitsOf (UploadTexture (Defines.standard 3) {} fourLevelTexture {}).commands).length = 4 - 1 :=
  C12_upload_records_a_blit_per_generated_level (Defines.standard 3) {} fourLevelTexture {}
    (by decide) (by decide)

/-- C12, counterexample to the claim as stated: for the 4-level texture
`UploadTexture` records 3 blits, to the levels 1, 2 and 3. -/
theorem C12_counterexample :
    (blitsOf (UploadTexture (Defines.standard 3) {} fourLevelTexture {}).commands).map
      (fun blit => (blit.srcMipLevel, blit.dstMipLevel)) = [(0, 1), (1, 2), (2, 3)] := by
  decide

/-- C13.  For every texture of width `W` and height `H`, both at least 1 and
below `2^31`, with `L` mip levels, whose image is created, and every `i` with
`1 ≤ i < L`, the `i`-th blit that `UploadTexture` records reads mip level `i - 1`
over the extent `(max 1 (W / 2^(i-1)), max 1 (H / 2^(i-1)))` and writes mip
level `i` over the extent `(max 1 (W / 2^i), max 1 (H / 2^i))`. -/
theorem C13_blit_extents_halve (D : Defines) (env : UploadEnv) (texture : Texture) (s : Renderer)
    (hW : 1 ≤ texture.width) (hW2 : texture.width < 2147483648)
    (hH : 1 ≤ texture.height) (hH2 : texture.height < 2147483648)
    (himg : D.accepts env.imageResult = true) (i : Nat) (hi : 1 ≤ i) (hiL : i < texture.mipmapLevels) :
    (blitsOf (UploadTexture D env texture s).commands)[i - 1]? =
      some { srcMipLevel := i - 1,
             srcWidth := ((max 1 (texture.width / 2 ^ (i - 1)) : Nat) : Int),
             srcHeight := ((max 1 (texture.height / 2 ^ (i - 1)) : Nat) : Int),
             dstMipLevel := i,
             dstWidth := ((max 1 (texture.width / 2 ^ i) : Nat) : Int),
             dstHeight := ((max 1 (texture.height / 2 ^ i) : Nat) : Int) } := by
  rw [commands_UploadTexture D env texture s himg,
    blitsOf_recordUpload { texture with image := env.image, allocation := env.allocation } _
      (by show 2 ≤ texture.mipmapLevels; omega)]
  have hlt : i - 1 < texture.mipmapLevels - 1 := by omega
  have hi1 : i - 1 + 1 = i := by omega
  show ((List.range (texture.mipmapLevels - 1)).map _)[i - 1]? = _
  rw [List.getElem?_map, List.getElem?_range hlt]
  show some _ = _
  simp only [Option.some.injEq]
  show ({ srcMipLevel := i - 1, srcWidth := mipExtent (toI32 texture.width) (i - 1),
          srcHeight := mipExtent (toI32 texture.height) (i - 1),
          dstMipLevel := i - 1 + 1,
          dstWidth := if mipExtent (toI32 texture.width) (i - 1) > 1 then
            (mipExtent (toI32 texture.width) (i - 1)).tdiv 2 else 1,
          dstHeight := if mipExtent (toI32 texture.height) (i - 1) > 1 then
            (mipExtent (toI32 texture.height) (i - 1)).tdiv 2 else 1 } : VkImageBlit) = _
  rw [mipExtent_eq texture.width hW hW2, mipExtent_eq texture.height hH hH2, mipExtent_dst, mipExtent_dst, hi1]

/-- C13, witness: the second blit of the 8 x 4 texture with 4 levels reads
level 1 over 4 x 2 and writes level 2 over 2 x 1. -/
theorem C13_blit_extents_halve_witness :
    (blitsOf (UploadTexture (Defines.standard 3) {} fourLevelTexture {}).commands)[2 - 1]? =
      some { srcMipLevel := 2 - 1,
             srcWidth := ((max 1 (8 / 2 ^ (2 - 1)) : Nat) : Int),
             srcHeight := ((max 1 (4 / 2 ^ (2 - 1)) : Nat) : Int),
             dstMipLevel := 2,
             dstWidth := ((max 1 (8 / 2 ^ 2) : Nat) : Int),
             dstHeight := ((max 1 (4 / 2 ^ 2) : Nat) : Int) } :=
  C13_blit_extents_halve (Defines.standard 3) {} fourLevelTexture {} (by decide) (by decide) (by decide)
    (by decide) (by decide) 2 (by decide) (by decide)

/-- C14.  For every texture with `L ≥ 1` mip levels whose image is created,
tracking the layout of each level through the commands that `UploadTexture`
records, with all levels undefined at the start, every barrier finds each level
it covers in its declared old layout, so that the tracking succeeds; the last
command recorded is a barrier whose new layout is shader-read-only; and at the
end each of the `L` levels is in the shader-read-only layout. -/
theorem C14_upload_barriers_are_valid (D : Defines) (env : UploadEnv) (texture : Texture) (s : Renderer)
    (hL : 1 ≤ texture.mipmapLevels) (himg : D.accepts env.imageResult = true) :
    (∃ final, trackLayouts texture.mipmapLevels (UploadTexture D env texture s).commands
        (fun _ => VK_IMAGE_LAYOUT_UNDEFINED) = some final ∧
      ∀ l, l < texture.mipmapLevels → final l = VK_IMAGE_LAYOUT_SHADER_READ_ONLY_OPTIMAL) ∧
    ∃ barrier, (UploadTexture D env texture s).commands.getLast? = some (Command.PipelineBarrier barrier) ∧
      barrier.newLayout = VK_IMAGE_LAYOUT_SHADER_READ_ONLY_OPTIMAL := by
  rw [commands_UploadTexture D env texture s himg]
  exact ⟨trackLayouts_recordUpload { texture with image := env.image, allocation := env.allocation } _ hL,
    getLast_recordUpload _ _⟩

/-- C14, witness: the 4-level texture. -/
theorem C14_upload_barriers_are_valid_witness :
    (∃ final, trackLayouts 4 (UploadTexture (Defines.standard 3) {} fourLevelTexture {}).commands
        (fun _ => VK_IMAGE_LAYOUT_UNDEFINED) = some final ∧
      ∀ l, l < 4 → final l = VK_IMAGE_LAYOUT_SHADER_READ_ONLY_OPTIMAL) ∧
    ∃ barrier, (UploadTexture (Defines.standard 3) {} fourLevelTexture {}).commands.getLast? =
        some (Command.PipelineBarrier barrier) ∧
      barrier.newLayout = VK_IMAGE_LAYOUT_SHADER_READ_ONLY_OPTIMAL :=
  C14_upload_barriers_are_valid (Defines.standard 3) {} fourLevelTexture {} (by decide) (by decide)

/-- C15.  When the transfer list of slot `imageIndex` is not empty,
`SubmitTransfer` replaces that slot's transfer wait value by its successor in
`U64` arithmetic, which is the value plus one whenever the value is below
`U64_MAX`, leaves the wait value of every other slot as it was, issues one
`vkQueueSubmit` of the list, which has no wait and signals
`transferFinished[imageIndex]` at the new value, and leaves the list empty and
the slot's staging pointer at zero; when the list is empty it leaves the whole
state as it was. -/
theorem C15_submit_transfer_signals_its_slot (s : Renderer) :
    (s.commandBuffers s.imageIndex ≠ [] →
      (SubmitTransfer s).transferWaitValues s.imageIndex = wrapU64 (s.transferWaitValues s.imageIndex + 1) ∧
      (s.transferWaitValues s.imageIndex < U64_MAX →
        (SubmitTransfer s).transferWaitValues s.imageIndex = s.transferWaitValues s.imageIndex + 1) ∧
      (∀ p, p ≠ s.imageIndex → (SubmitTransfer s).transferWaitValues p = s.transferWaitValues p) ∧
      (SubmitTransfer s).renderWaitValues = s.renderWaitValues ∧
      (SubmitTransfer s).calls = s.calls ++ [Call.vkQueueSubmit (s.commandBuffers s.imageIndex) s.imageIndex
        ((SubmitTransfer s).transferWaitValues s.imageIndex)] ∧
      (SubmitTransfer s).commandBuffers s.imageIndex = [] ∧
      ((SubmitTransfer s).stagingBuffers s.imageIndex).stagingPointer = 0 ∧
      (∀ p, p ≠ s.imageIndex → (SubmitTransfer s).commandBuffers p = s.commandBuffers p ∧
        (SubmitTransfer s).stagingBuffers p = s.stagingBuffers p)) ∧
    (s.commandBuffers s.imageIndex = [] → SubmitTransfer s = s) := by
  refine ⟨fun h => ?_, SubmitTransfer_empty s⟩
  obtain ⟨hv, hc, hb⟩ := SubmitTransfer_nonempty s h
  simp only [signalView, Prod.mk.injEq] at hv
  obtain ⟨-, -, -, hr, ht, hcalls⟩ := hv
  have hnew : (SubmitTransfer s).transferWaitValues s.imageIndex =
      wrapU64 (s.transferWaitValues s.imageIndex + 1) := by
    rw [ht, Function.update_same]
  refine ⟨hnew, ?_, ?_, hr, ?_, ?_, ?_, ?_⟩
  · intro hlt
    rw [hnew]
    unfold wrapU64
    unfold U64_MAX at hlt
    exact Nat.mod_eq_of_lt (by omega)
  · intro p hp
    rw [ht, Function.update_noteq hp]
  · rw [hnew, hcalls]
  · rw [hc, Function.update_same]
  · rw [hb, Function.update_same]
  · intro p hp
    rw [hc, hb, Function.update_noteq hp, Function.update_noteq hp]
    exact ⟨rfl, rfl⟩

theorem instanceBuffers_foldl_upload (P : ResourceMethods) (data : Handle) (size offset : Nat) :
    ∀ (n : Nat) (m : Material),
      ((List.range n).foldl
        (fun (m : Material) i =>
          { m with instanceBuffers :=
              Function.update m.instanceBuffers i (P.UploadVertexData (m.instanceBuffers i) data size offset) })
        m).vertexBuffer = m.vertexBuffer ∧
      ((List.range n).foldl
        (fun (m : Material) i =>
          { m with instanceBuffers :=
              Function.update m.instanceBuffers i (P.UploadVertexData (m.instanceBuffers i) data size offset) })
        m).indexBuffer = m.indexBuffer ∧
      ∀ i, ((List.range n).foldl
        (fun (m : Material) i =>
          { m with instanceBuffers :=
              Function.update m.instanceBuffers i (P.UploadVertexData (m.instanceBuffers i) data size offset) })
        m).instanceBuffers i =
          if i < n then P.UploadVertexData (m.instanceBuffers i) data size offset else m.instanceBuffers i
  | 0, m => ⟨rfl, rfl, fun i => by simp⟩
  | n + 1, m => by
    obtain ⟨h1, h2, h3⟩ := instanceBuffers_foldl_upload P data size offset n m
    rw [List.range_succ, List.foldl_append]
    refine ⟨h1, h2, ?_⟩
    intro i
    show Function.update _ n _ i = _
    by_cases hi : i = n
    · subst hi
      rw [Function.update_same, h3 i, if_neg (Nat.lt_irrefl i), if_pos (Nat.lt_succ_self i)]
    · rw [Function.update_noteq hi, h3 i]
      by_cases hlt : i < n
      · rw [if_pos hlt, if_pos (by omega)]
      · rw [if_neg hlt, if_neg (by omega)]

/-- C16.  With `VertexSize() == 0`, `UploadVertices` and `UploadIndices` leave the
material, with all its buffers, as it was and log one error each; with
`InstanceSize() == 0` so do `UploadInstances` and `UploadInstancesAll`.  With a
vertex layout, `UploadVertices` forwards the upload to the vertex buffer and
`UploadIndices` to the index buffer, and nothing is logged; with an instance
layout, `UploadInstances` forwards it to the instance buffer of slot
`imageIndex` and `UploadInstancesAll` to the instance buffer of every slot below
`MaxSwapchainImages`, and nothing is logged; in each case the other buffers
are as they were. -/
theorem C16_upload_without_layout_is_noop (P : ResourceMethods) (D : Defines) (s : Renderer) (m : Material)
    (data : Handle) (size offset : Nat) :
    (P.VertexSize m.pipeline = 0 →
      m.UploadVertices P data size offset = (m, [Logged.Error "This Material Does Not Use Vertices!"]) ∧
      m.UploadIndices P data size offset = (m, [Logged.Error "This Material Does Not Use Indices!"])) ∧
    (P.InstanceSize m.pipeline = 0 →
      m.UploadInstances P s data size offset = (m, [Logged.Error "This Material Does Not Use Instances!"]) ∧
      m.UploadInstancesAll P D data size offset = (m, [Logged.Error "This Material Does Not Use Instances!"])) ∧
    (P.VertexSize m.pipeline ≠ 0 →
      m.UploadVertices P data size offset =
        ({ m with vertexBuffer := P.UploadVertexData m.vertexBuffer data size offset }, []) ∧
      m.UploadIndices P data size offset =
        ({ m with indexBuffer := P.UploadIndexData m.indexBuffer data size offset }, [])) ∧
    (P.InstanceSize m.pipeline ≠ 0 →
      m.UploadInstances P s data size offset =
        ({ m with instanceBuffers := Function.update m.instanceBuffers s.imageIndex (P.UploadVertexData (m.instanceBuffers s.imageIndex) data size offset) }, []) ∧
      (m.UploadInstancesAll P D data size offset).2 = [] ∧
      (m.UploadInstancesAll P D data size offset).1.vertexBuffer = m.vertexBuffer ∧
      (m.UploadInstancesAll P D data size offset).1.indexBuffer = m.indexBuffer ∧
      ∀ i, (m.UploadInstancesAll P D data size offset).1.instanceBuffers i =
        if i < D.MaxSwapchainImages then P.UploadVertexData (m.instanceBuffers i) data size offset
        else m.instanceBuffers i) := by
  refine ⟨fun h => ?_, fun h => ?_, fun h => ?_, fun h => ?_⟩
  · unfold Material.UploadVertices Material.UploadIndices
    rw [if_neg (by simp [h]), if_neg (by simp [h])]
    exact ⟨rfl, rfl⟩
  · unfold Material.UploadInstances Material.UploadInstancesAll
    rw [if_neg (by simp [h]), if_neg (by simp [h])]
    exact ⟨rfl, rfl⟩
  · unfold Material.UploadVertices Material.UploadIndices
    rw [if_pos h, if_pos h]
    exact ⟨rfl, rfl⟩
  · unfold Material.UploadInstances Material.UploadInstancesAll
    rw [if_pos h, if_pos h]
    obtain ⟨h1, h2, h3⟩ := instanceBuffers_foldl_upload P data size offset D.MaxSwapchainImages m
    exact ⟨rfl, rfl, h1, h2, h3⟩

theorem countP_isDraw_bindAndDraw (P : ResourceMethods) (imageIndex : Nat) (m : Material) :
    (m.bindAndDraw P imageIndex).countP DrawCommand.isDraw = 1 := by
  unfold Material.bindAndDraw
  cases m.vertexUsage <;> rfl

/-- C17.  `Material::Bind` records no command exactly when the vertex usage is
`VerticesAndInstances` or `Instances` and the offset of the instance buffer of
slot `imageIndex` is `U64_MAX`, or the vertex usage is `VerticesAndInstances` or
`Vertices` and the offset of the vertex buffer is `U64_MAX`; in every other case
the first command it records is the pipeline bind and exactly one of its
commands is a draw call, the last one; it never logs. -/
theorem C17_bind_skips_on_sentinel_offset (P : ResourceMethods) (s : Renderer) (m : Material) :
    ((m.Bind P s).1 = [] ↔
      ((m.vertexUsage = VertexUsage.VerticesAndInstances ∨ m.vertexUsage = VertexUsage.Instances) ∧
        P.Offset (m.instanceBuffers s.imageIndex) = U64_MAX) ∨
      ((m.vertexUsage = VertexUsage.VerticesAndInstances ∨ m.vertexUsage = VertexUsage.Vertices) ∧
        P.Offset m.vertexBuffer = U64_MAX)) ∧
    ((m.Bind P s).1 ≠ [] →
      (m.Bind P s).1.head? = some (DrawCommand.BindPipeline m.pipeline) ∧
      (m.Bind P s).1.countP DrawCommand.isDraw = 1 ∧
      ((m.Bind P s).1.getLast?.map DrawCommand.isDraw) = some true) ∧
    (m.Bind P s).2 = [] := by
  unfold Material.Bind
  by_cases h1 : (m.vertexUsage = VertexUsage.VerticesAndInstances ∨ m.vertexUsage = VertexUsage.Instances) ∧
      P.Offset (m.instanceBuffers s.imageIndex) = U64_MAX
  · rw [if_pos h1]
    exact ⟨⟨fun _ => Or.inl h1, fun _ => rfl⟩, fun h => absurd rfl h, rfl⟩
  · rw [if_neg h1]
    by_cases h2 : (m.vertexUsage = VertexUsage.VerticesAndInstances ∨ m.vertexUsage = VertexUsage.Vertices) ∧
        P.Offset m.vertexBuffer = U64_MAX
    · rw [if_pos h2]
      exact ⟨⟨fun _ => Or.inr h2, fun _ => rfl⟩, fun h => absurd rfl h, rfl⟩
    · rw [if_neg h2]
      refine ⟨⟨fun h => ?_, fun h => ?_⟩, fun _ => ⟨rfl, ?_, ?_⟩, rfl⟩
      · simp at h
      · rcases h with h | h
        · exact absurd h h1
        · exact absurd h h2
      · simp only [List.countP_append, List.countP_cons, List.countP_nil, countP_isDraw_bindAndDraw]
        have hs : (if m.sets.length ≠ 0 then
            [DrawCommand.BindDescriptorSets m.pipelineLayout 0 (wrapU32 m.sets.length) m.sets]
            else []).countP DrawCommand.isDraw = 0 := by
          split_ifs <;> rfl
        have hp : (m.pushConstants.map (fun pc =>
            DrawCommand.PushConstants m.pipelineLayout pc.stages pc.offset pc.size pc.data)).countP
              DrawCommand.isDraw = 0 := by
          rw [List.countP_eq_zero]
          intro c hc
          obtain ⟨pc, -, rfl⟩ := List.mem_map.mp hc
          simp [DrawCommand.isDraw]
        rw [hs, hp]
        rfl
      · have hl : (m.bindAndDraw P s.imageIndex).getLast?.map DrawCommand.isDraw = some true := by
          unfold Material.bindAndDraw
          cases m.vertexUsage <;> rfl
        have hne : m.bindAndDraw P s.imageIndex ≠ [] := by
          unfold Material.bindAndDraw
          cases m.vertexUsage <;> simp
        rw [List.getLast?_append_of_ne_nil _ hne]
        exact hl

/-- C18.  When the acquired `imageIndex` differs from `frameIndex`, `Submit`
leaves the render wait value of slot `frameIndex` as it was and replaces that
of slot `imageIndex` by its successor, and its one queue submission signals
`renderFinished[frameIndex]` at the unchanged value of slot `frameIndex`. -/
theorem C18_submit_increments_slot_imageIndex (D : Defines) (env : SubmitEnv) (s : Renderer)
    (hidx : s.imageIndex ≠ s.frameIndex) :
    (Submit D env s).renderWaitValues s.frameIndex = s.renderWaitValues s.frameIndex ∧
    (Submit D env s).renderWaitValues s.imageIndex = wrapU64 (s.renderWaitValues s.imageIndex + 1) ∧
    ∃ rest, (Submit D env s).calls =
        s.calls ++ Call.vkQueueSubmit2 s.imageIndex s.frameIndex (s.transferWaitValues s.frameIndex)
          s.frameIndex s.frameIndex (s.renderWaitValues s.frameIndex) s.frameIndex :: rest ∧
      ∀ c ∈ rest, isSubmit c = false := by
  obtain ⟨hr, -⟩ := renderWaitValues_Submit D env s
  obtain ⟨rest, e, p⟩ := calls_Submit D env s
  rw [Function.update_noteq (Ne.symm hidx)] at e
  refine ⟨?_, ?_, rest, e, p⟩
  · rw [hr, Function.update_noteq (Ne.symm hidx)]
  · rw [hr, Function.update_same]

/-- C18, witness: slot cursor 0, acquired image 1, every wait value 0: the
submission signals `renderFinished[0]` at value 0. -/
theorem C18_submit_increments_slot_imageIndex_witness :
    (Submit (Defines.standard 3) {} mismatchedState).renderWaitValues mismatchedState.frameIndex =
      mismatchedState.renderWaitValues mismatchedState.frameIndex ∧
    (Submit (Defines.standard 3) {} mismatchedState).renderWaitValues mismatchedState.imageIndex =
      wrapU64 (mismatchedState.renderWaitValues mismatchedState.imageIndex + 1) ∧
    ∃ rest, (Submit (Defines.standard 3) {} mismatchedState).calls =
        mismatchedState.calls ++ Call.vkQueueSubmit2 mismatchedState.imageIndex mismatchedState.frameIndex
          (mismatchedState.transferWaitValues mismatchedState.frameIndex)
          mismatchedState.frameIndex mismatchedState.frameIndex
          (mismatchedState.renderWaitValues mismatchedState.frameIndex) mismatchedState.frameIndex :: rest ∧
      ∀ c ∈ rest, isSubmit c = false :=
  C18_submit_increments_slot_imageIndex (Defines.standard 3) {} mismatchedState (by decide)

/-- C20.  When transfer work was recorded for the acquired image and
`imageIndex` differs from `frameIndex`, the frame's two queue submissions are a
`vkQueueSubmit` that signals `transferFinished[imageIndex]` at the successor of
that slot's value, and a `vkQueueSubmit2` whose transfer wait is on
`transferFinished[frameIndex]`, another semaphore, at the value of slot
`frameIndex`, which `SubmitTransfer` did not change. -/
theorem C20_render_waits_on_slot_frameIndex (D : Defines) (env : SubmitEnv) (renders : List Recorded)
    (s : Renderer) (hwork : s.commandBuffers s.imageIndex ≠ []) (hidx : s.imageIndex ≠ s.frameIndex) :
    ∃ rest, (Submit D env (renders.foldl record (SubmitTransfer s))).calls =
        s.calls ++ Call.vkQueueSubmit (s.commandBuffers s.imageIndex) s.imageIndex
            (wrapU64 (s.transferWaitValues s.imageIndex + 1)) ::
          Call.vkQueueSubmit2 s.imageIndex s.frameIndex (s.transferWaitValues s.frameIndex)
            s.frameIndex s.frameIndex (s.renderWaitValues s.frameIndex) s.frameIndex :: rest ∧
      ∀ c ∈ rest, isSubmit c = false := by
  obtain ⟨hv, -, -⟩ := SubmitTransfer_nonempty s hwork
  have hf := signalView_foldl_record renders (SubmitTransfer s)
  rw [hv] at hf
  simp only [signalView, Prod.mk.injEq] at hf
  obtain ⟨hi, hfr, -, hr, ht, hc⟩ := hf
  obtain ⟨rest, e, p⟩ := calls_Submit D env (renders.foldl record (SubmitTransfer s))
  refine ⟨rest, ?_, p⟩
  rw [e, hi, hfr, hr, ht, hc, Function.update_noteq (Ne.symm hidx), Function.update_noteq (Ne.symm hidx),
    List.append_assoc]
  rfl

/-- C20, witness: slot cursor 0, acquired image 1 with one recorded transfer
command buffer: the transfer is signalled on `transferFinished[1]` at value 1
and the render submission waits for `transferFinished[0]` at value 0. -/
theorem C20_render_waits_on_slot_frameIndex_witness :
    ∃ rest, (Submit (Defines.standard 3) {} (([] : List Recorded).foldl record (SubmitTransfer mismatchedState))).calls =
        mismatchedState.calls ++ Call.vkQueueSubmit (mismatchedState.commandBuffers mismatchedState.imageIndex)
            mismatchedState.imageIndex (wrapU64 (mismatchedState.transferWaitValues mismatchedState.imageIndex + 1)) ::
          Call.vkQueueSubmit2 mismatchedState.imageIndex mismatchedState.frameIndex
            (mismatchedState.transferWaitValues mismatchedState.frameIndex)
            mismatchedState.frameIndex mismatchedState.frameIndex
            (mismatchedState.renderWaitValues mismatchedState.frameIndex) mismatchedState.frameIndex :: rest ∧
      ∀ c ∈ rest, isSubmit c = false :=
  C20_render_waits_on_slot_frameIndex (Defines.standard 3) {} [] mismatchedState (by decide) (by decide)

/-- C21, as amended.  The render submission of `Submit` always waits on
`transferFinished[frameIndex]`, at the transfer wait value of slot `frameIndex`
as `SubmitTransfer` left it, whether `SubmitTransfer` submitted or not; when the
transfer list was empty, `SubmitTransfer` issued no call and that value is the
one the slot had before, not an incremented one. -/
theorem C21_render_always_waits_on_transfer (D : Defines) (env : SubmitEnv) (renders : List Recorded)
    (s : Renderer) :
    (∃ signalled rest, (Submit D env (renders.foldl record (SubmitTransfer s))).calls =
        (SubmitTransfer s).calls ++
          Call.vkQueueSubmit2 s.imageIndex s.frameIndex ((SubmitTransfer s).transferWaitValues s.frameIndex)
            s.frameIndex s.frameIndex signalled s.frameIndex :: rest ∧
      ∀ c ∈ rest, isSubmit c = false) ∧
    (s.commandBuffers s.imageIndex = [] →
      (SubmitTransfer s).calls = s.calls ∧
      (SubmitTransfer s).transferWaitValues s.frameIndex = s.transferWaitValues s.frameIndex) := by
  constructor
  · obtain ⟨hi, hf, -, -, ht, hc⟩ := signalView_eq (signalView_foldl_record renders (SubmitTransfer s))
    obtain ⟨rest, e, p⟩ := calls_Submit D env (renders.foldl record (SubmitTransfer s))
    have hc2 := cursorOf_SubmitTransfer s
    simp only [cursorOf, Prod.mk.injEq] at hc2
    have hi2 : (SubmitTransfer s).imageIndex = s.imageIndex := by
      unfold SubmitTransfer
      split_ifs <;> rfl
    rw [hi, hf, ht, hc, hc2.1, hi2] at e
    exact ⟨_, rest, e, p⟩
  · intro h
    rw [SubmitTransfer_empty s h]
    exact ⟨rfl, rfl⟩

/-- C21, counterexample to the claim as stated: with nothing recorded for
transfer, the frame issues no `vkQueueSubmit`, and its `vkQueueSubmit2` still
waits on `transferFinished[0]`, at the value 0. -/
theorem C21_counterexample :
    (SubmitTransfer { imageCount := 2 }).calls = [] ∧
    (Submit (Defines.standard 3) {} (SubmitTransfer { imageCount := 2 })).calls =
      [Call.vkQueueSubmit2 0 0 0 0 0 1 0, Call.vkQueuePresentKHR 0 0 0] := by
  decide!

/-- C22.  A `RecreateSwapchain` that returns `true`, which it does only when the
reported extent differs from the cached one and every rebuild step succeeds,
appends to the image queue, for every slot below the image count that
`CreateSurfaceInfo` has just selected, the entry of the depth attachment and the
entry of the colour attachment that were live before the call, and nothing
else; it appends one surface-set entry, which holds the outgoing swapchain
with its views and framebuffers; and every call it issues is a creation call,
none a release. -/
theorem C22_recreate_schedules_slots_of_new_count (D : Defines) (env : RecreateEnv) (s : Renderer)
    (hok : (RecreateSwapchain D env s).1 = true) :
    (RecreateSwapchain D env s).2.texturesToDestroy = s.texturesToDestroy ++
      (List.range (CreateSurfaceInfo D env.surfaceInfo s).2.imageCount).flatMap
        (fun i => [textureEntry (s.depthTextures i), textureEntry (s.colorTextures i)]) ∧
    (RecreateSwapchain D env s).2.swapchainsToDestroy = s.swapchainsToDestroy ++
      [{ swapchain := s.swapchain.vkSwapchain, imageViews := s.swapchain.imageViews,
         framebuffers := s.swapchain.framebuffers }] ∧
    ∃ cs, (RecreateSwapchain D env s).2.calls = s.calls ++ cs ∧
      ∀ c ∈ cs, isCreate c = true ∧ isRelease c = false := by
  obtain ⟨h1, h2⟩ := queues_RecreateSwapchain D env s hok
  obtain ⟨cs, e, p, -⟩ := emits_RecreateSwapchain D env s
  refine ⟨h1, h2, cs, e, fun c hc => ⟨p c hc, ?_⟩⟩
  have := p c hc
  cases c <;> first | rfl | cases this

/-- C22, witness: three slots are live and the refreshed image count is 2; the
attachments of slots 0 and 1 are queued, those of slot 2 are not. -/
theorem C22_recreate_schedules_slots_of_new_count_witness :
    threeSlotRenderer.imageCount = 3 ∧
    (CreateSurfaceInfo (Defines.standard 3) resizedSurface.surfaceInfo threeSlotRenderer).2.imageCount = 2 ∧
    (RecreateSwapchain (Defines.standard 3) resizedSurface threeSlotRenderer).2.texturesToDestroy =
      [{ image := 40, imageView := 50, allocation := 60 }, { image := 10, imageView := 20, allocation := 30 },
       { image := 41, imageView := 51, allocation := 61 }, { image := 11, imageView := 21, allocation := 31 }] ∧
    ((RecreateSwapchain (Defines.standard 3) resizedSurface threeSlotRenderer).2.texturesToDestroy =
      threeSlotRenderer.texturesToDestroy ++
        (List.range (CreateSurfaceInfo (Defines.standard 3) resizedSurface.surfaceInfo
            threeSlotRenderer).2.imageCount).flatMap
          (fun i => [textureEntry (threeSlotRenderer.depthTextures i),
            textureEntry (threeSlotRenderer.colorTextures i)]) ∧
    (RecreateSwapchain (Defines.standard 3) resizedSurface threeSlotRenderer).2.swapchainsToDestroy =
      threeSlotRenderer.swapchainsToDestroy ++
        [{ swapchain := threeSlotRenderer.swapchain.vkSwapchain,
           imageViews := threeSlotRenderer.swapchain.imageViews,
           framebuffers := threeSlotRenderer.swapchain.framebuffers }] ∧
    ∃ cs, (RecreateSwapchain (Defines.standard 3) resizedSurface threeSlotRenderer).2.calls =
        threeSlotRenderer.calls ++ cs ∧
      ∀ c ∈ cs, isCreate c = true ∧ isRelease c = false) :=
  ⟨rfl, by decide, by decide!,
    C22_recreate_schedules_slots_of_new_count (Defines.standard 3) resizedSurface threeSlotRenderer (by decide!)⟩

/-- C23.  Draining one descriptor-set entry issues `vkFreeDescriptorSets` for its
set once when the entry is not bindless and its set handle is not null, and
not at all otherwise; it frees no other set; for a bindless entry it frees no
set whatever; and it destroys the layout of the entry exactly once and no
other layout.  `DestroyObjects` does this for every entry of the queue, after
the releases of the other four kinds, which touch no set and no layout. -/
theorem C23_descriptor_set_drain (s : Renderer) (data : DescriptorSetDestructionData) :
    (destroyDescriptorSetData s data).calls = s.calls ++ descriptorSetReleases data ∧
    (descriptorSetReleases data).count (Call.vkFreeDescriptorSets data.vkDescriptorSet) =
      (if data.bindless = false ∧ data.vkDescriptorSet ≠ 0 then 1 else 0) ∧
    (∀ set, set ≠ data.vkDescriptorSet → Call.vkFreeDescriptorSets set ∉ descriptorSetReleases data) ∧
    (data.bindless = true → ∀ set, Call.vkFreeDescriptorSets set ∉ descriptorSetReleases data) ∧
    (descriptorSetReleases data).count (Call.vkDestroyDescriptorSetLayout data.vkDescriptorLayout) = 1 ∧
    (∀ layout, layout ≠ data.vkDescriptorLayout →
      Call.vkDestroyDescriptorSetLayout layout ∉ descriptorSetReleases data) ∧
    ∃ earlier, (DestroyObjects s).calls =
        s.calls ++ earlier ++ s.descriptorSetsToDestroy.flatMap descriptorSetReleases ∧
      ∀ c ∈ earlier, (∀ set, c ≠ Call.vkFreeDescriptorSets set) ∧
        ∀ layout, c ≠ Call.vkDestroyDescriptorSetLayout layout := by
  refine ⟨by rw [destroyDescriptorSetData_eq]; rfl, ?_, ?_, ?_, ?_, ?_, calls_DestroyObjects_descriptorSets s⟩
  · unfold descriptorSetReleases
    split_ifs <;> simp
  · intro set hset
    unfold descriptorSetReleases
    split_ifs <;> simp [hset]
  · intro hb set
    unfold descriptorSetReleases
    simp [hb]
  · unfold descriptorSetReleases
    split_ifs <;> simp
  · intro layout hl
    unfold descriptorSetReleases
    split_ifs <;> simp [hl]

/-- C24, as amended.  For every texture whose image is created, the second
command that `UploadTexture` records is the buffer-to-image copy and the third
is a barrier on all mip levels from the transfer-dst layout to the
shader-read-only layout when `mipmapLevels ≤ 1`, and from the transfer-dst layout
to the transfer-dst layout again when `mipmapLevels > 1`. -/
theorem C24_barrier_after_copy (D : Defines) (env : UploadEnv) (texture : Texture) (s : Renderer)
    (himg : D.accepts env.imageResult = true) :
    ∃ copy barrier,
      (UploadTexture D env texture s).commands[1]? = some (Command.BufferToImage copy) ∧
      (UploadTexture D env texture s).commands[2]? = some (Command.PipelineBarrier barrier) ∧
      barrier.subresourceRange = { baseMipLevel := 0, levelCount := texture.mipmapLevels } ∧
      barrier.oldLayout = VK_IMAGE_LAYOUT_TRANSFER_DST_OPTIMAL ∧
      (texture.mipmapLevels ≤ 1 → barrier.newLayout = VK_IMAGE_LAYOUT_SHADER_READ_ONLY_OPTIMAL) ∧
      (texture.mipmapLevels > 1 → barrier.newLayout = VK_IMAGE_LAYOUT_TRANSFER_DST_OPTIMAL) := by
  rw [commands_UploadTexture D env texture s himg]
  refine ⟨stagingBufferCopy { texture with image := env.image, allocation := env.allocation }
      (NextMultipleOf (s.stagingBuffers s.imageIndex).stagingPointer 16),
    stagingBufferShaderBarrier { texture with image := env.image, allocation := env.allocation },
    by simp [recordUpload], by simp [recordUpload], rfl, rfl, ?_, ?_⟩
  · intro h
    have hn : ¬ texture.mipmapLevels > 1 := by omega
    show (if texture.mipmapLevels > 1 then VK_IMAGE_LAYOUT_TRANSFER_DST_OPTIMAL
      else VK_IMAGE_LAYOUT_SHADER_READ_ONLY_OPTIMAL) = _
    rw [if_neg hn]
  · intro h
    show (if texture.mipmapLevels > 1 then VK_IMAGE_LAYOUT_TRANSFER_DST_OPTIMAL
      else VK_IMAGE_LAYOUT_SHADER_READ_ONLY_OPTIMAL) = _
    rw [if_pos h]

/-- C24, witness: the 4-level texture. -/
theorem C24_barrier_after_copy_witness :
    ∃ copy barrier,
      (UploadTexture (Defines.standard 3) {} fourLevelTexture {}).commands[1]? =
        some (Command.BufferToImage copy) ∧
      (UploadTexture (Defines.standard 3) {} fourLevelTexture {}).commands[2]? =
        some (Command.PipelineBarrier barrier) ∧
      barrier.subresourceRange = { baseMipLevel := 0, levelCount := fourLevelTexture.mipmapLevels } ∧
      barrier.oldLayout = VK_IMAGE_LAYOUT_TRANSFER_DST_OPTIMAL ∧
      (fourLevelTexture.mipmapLevels ≤ 1 → barrier.newLayout = VK_IMAGE_LAYOUT_SHADER_READ_ONLY_OPTIMAL) ∧
      (fourLevelTexture.mipmapLevels > 1 → barrier.newLayout = VK_IMAGE_LAYOUT_TRANSFER_DST_OPTIMAL) :=
  C24_barrier_after_copy (Defines.standard 3) {} fourLevelTexture {} (by decide)

/-- C24, counterexample to the claim as stated: for the 4-level texture the
barrier recorded right after the copy has the transfer-dst layout as its new
layout, not the transfer-src layout. -/
theorem C24_counterexample :
    (UploadTexture (Defines.standard 3) {} fourLevelTexture {}).commands[2]? =
      some (Command.PipelineBarrier (stagingBufferShaderBarrier fourLevelTexture)) ∧
    (stagingBufferShaderBarrier fourLevelTexture).newLayout = VK_IMAGE_LAYOUT_TRANSFER_DST_OPTIMAL ∧
    (stagingBufferShaderBarrier fourLevelTexture).newLayout ≠ VK_IMAGE_LAYOUT_TRANSFER_SRC_OPTIMAL := by
  decide

/-- In a run from the zero-initialised cursor in which every frame begins with
`imageCount = N` and `Submit` always finds `imageCount = N`, with `1 ≤ N < 2^32`, frame
`k` begins with `frameIndex = absoluteFrame % N` whenever `k < 2^32`, and for every
`k` when `N` divides `2^32`.  For such a frame the acquire of `Synchronize` is handed
the image-acquired semaphore of slot `frameIndex`, and the render submission of
the frame, when the frame reaches `Submit`, is made with the same `frameIndex`,
the slot of the image-acquired semaphore it waits on. -/
theorem slot_cursor_matches_frame_counter_before_wrap (D : Defines) (N : Nat) (hN : 1 ≤ N) (hU : N < 4294967296)
    (envs : List FrameEnv) (sim sim' : Sim) (frames : List FrameRecord)
    (hrun : run D envs sim = some (sim', frames))
    (h0 : sim.renderer.frameIndex = 0) (ha : sim.renderer.absoluteFrame = 0)
    (hconst : ∀ fr ∈ frames, fr.pre.imageCount = N ∧ ∀ sb, fr.atSubmit = some sb → sb.imageCount = N)
    (k : Nat) (frk : FrameRecord) (hk : frames[k]? = some frk)
    (hw : k < 4294967296 ∨ N ∣ 4294967296) :
    frk.pre.frameIndex = frk.pre.absoluteFrame % N ∧
    (frk.afterSync.calls.drop frk.pre.calls.length)[0]? =
      some (Call.vkAcquireNextImageKHR frk.pre.swapchain.vkSwapchain frk.pre.frameIndex) ∧
    ∀ sb, frk.atSubmit = some sb → sb.frameIndex = frk.pre.frameIndex ∧
      ∃ waitValue signalValue rest, frk.post.calls = sb.calls ++
        Call.vkQueueSubmit2 sb.imageIndex frk.pre.frameIndex waitValue frk.pre.frameIndex
          frk.pre.frameIndex signalValue frk.pre.frameIndex :: rest := by
  obtain ⟨hinv, env, simk, simk1, hu⟩ := run_slot_invariant hN hU envs sim sim' frames hrun 0
    (by rw [h0, ha, Nat.zero_mod]) (by omega) (fun fr hfr => (hconst fr hfr).2) k frk hk
    (by rcases hw with h | h
        · exact Or.inl (by omega)
        · exact Or.inr h)
  have hcount : frk.pre.imageCount = N := (hconst frk (List.getElem?_mem hk)).1
  obtain ⟨hpre, hpost, -, -, -, -, -, -, hsync, hrest⟩ := Update_some hu
  refine ⟨hinv, ?_, ?_⟩
  · rw [hsync, ← hpre, acquire_synchronizedRenderer, hinv, hcount]
  · intro sb hsb
    have hc := cursorOf_synchronizedRenderer D env.sync simk.renderer
    rw [← hsync, ← hpre] at hc
    split_ifs at hrest with hres
    · obtain ⟨hat, -, hp⟩ := hrest
      rw [hsb] at hat
      have hsbeq := Option.some.inj hat
      have hcur : cursorOf sb = cursorOf frk.pre := by
        rw [hsbeq, cursorOf_foldl_record, cursorOf_SubmitTransfer, cursorOf_foldl_record, hc]
      simp only [cursorOf, Prod.mk.injEq] at hcur
      refine ⟨hcur.1, ?_⟩
      obtain ⟨rest, e, -⟩ := calls_Submit D env.submit sb
      rw [hp]
      unfold recordAndSubmit
      rw [← hsbeq, e, hcur.1]
      exact ⟨_, _, rest, rfl⟩
    · obtain ⟨hat, -, -⟩ := hrest
      rw [hsb] at hat
      cases hat

/-- Scenario A, frame 3: the slot cursor is the frame counter modulo 2. -/
theorem slot_cursor_matches_frame_counter_scenarioA :
    ∃ sim' frames frk,
      run (Defines.standard 3) scenarioA { renderer := { imageCount := 2 } } = some (sim', frames) ∧
      frames[3]? = some frk ∧
      (frk.pre.frameIndex = frk.pre.absoluteFrame % 2 ∧
      (frk.afterSync.calls.drop frk.pre.calls.length)[0]? =
        some (Call.vkAcquireNextImageKHR frk.pre.swapchain.vkSwapchain frk.pre.frameIndex) ∧
      ∀ sb, frk.atSubmit = some sb → sb.frameIndex = frk.pre.frameIndex ∧
        ∃ waitValue signalValue rest, frk.post.calls = sb.calls ++
          Call.vkQueueSubmit2 sb.imageIndex frk.pre.frameIndex waitValue frk.pre.frameIndex
            frk.pre.frameIndex signalValue frk.pre.frameIndex :: rest) := by
  have hsome : (run (Defines.standard 3) scenarioA { renderer := { imageCount := 2 } }).map
      (fun r => (r.2[3]?.isSome,
        r.2.all (fun fr => decide (fr.pre.imageCount = 2) &&
          (fr.atSubmit.all (fun sb => decide (sb.imageCount = 2)))))) = some (true, true) := by
    decide!
  match h : run (Defines.standard 3) scenarioA { renderer := { imageCount := 2 } } with
  | none =>
    rw [h] at hsome
    cases hsome
  | some (sim', frames) =>
    rw [h] at hsome
    simp only [Option.map_some', Option.some.injEq, Prod.mk.injEq, List.all_eq_true, Bool.and_eq_true,
      decide_eq_true_eq] at hsome
    obtain ⟨h3, hall⟩ := hsome
    cases hk : frames[3]? with
    | none =>
      rw [hk] at h3
      cases h3
    | some frk =>
      refine ⟨sim', frames, frk, rfl, hk,
        slot_cursor_matches_frame_counter_before_wrap (Defines.standard 3) 2 (by decide) (by decide) scenarioA _ sim'
          frames h rfl rfl ?_ 3 frk hk (Or.inl (by decide))⟩
      intro fr hfr
      obtain ⟨c1, c2⟩ := hall fr hfr
      refine ⟨c1, ?_⟩
      intro sb hsb
      rw [hsb] at c2
      simpa using c2

/-- C25, evaluated at a failing input with `N = 3`.  The run starts with
`absoluteFrame = 2^32 - 1` and `frameIndex = 0 = (2^32 - 1) % 3`, the cursor that
`2^32 - 1` presented frames leave.  Its first frame wraps `absoluteFrame` to 0
while `frameIndex` goes on to 1, and each of the three frames that follow begins
with `frameIndex ≠ absoluteFrame % 3`: `Synchronize` hands the image-acquired
semaphore of slot 0, 1, 2 to the acquire while the render submission of the
same frame waits on that of slot 1, 2, 0. -/
theorem C25_cursor_leaves_counter_after_wrap :
    4294967295 % 3 = 0 ∧
    (run (Defines.standard 3) [idleGpuFrame 0, frameAfter 0 1, frameAfter 1 2, frameAfter 2 0]
      { renderer := { imageCount := 3, frameIndex := 0, absoluteFrame := 4294967295 } }).map
      (fun r => r.2.map (fun fr => (fr.presented, fr.pre.frameIndex, fr.pre.absoluteFrame,
        fr.pre.absoluteFrame % 3))) =
      some [(true, 0, 4294967295, 0), (true, 1, 0, 0), (true, 2, 1, 1), (true, 0, 2, 2)] ∧
    (run (Defines.standard 3) [idleGpuFrame 0, frameAfter 0 1, frameAfter 1 2, frameAfter 2 0]
      { renderer := { imageCount := 3, frameIndex := 0, absoluteFrame := 4294967295 } }).map
      (fun r => r.2.map (fun fr => fr.post.calls.drop fr.pre.calls.length)) =
      some [[Call.vkAcquireNextImageKHR 0 0, Call.vkWaitSemaphores 0 0 0 0, Call.ResetDraw 0,
             Call.ResetPool 0, Call.vkQueueSubmit2 0 0 0 0 0 1 0, Call.vkQueuePresentKHR 0 0 0],
            [Call.vkAcquireNextImageKHR 0 0, Call.vkWaitSemaphores 0 1 0 0, Call.ResetDraw 1,
             Call.ResetPool 1, Call.vkQueueSubmit2 1 1 0 1 1 1 1, Call.vkQueuePresentKHR 1 0 1],
            [Call.vkAcquireNextImageKHR 0 1, Call.vkWaitSemaphores 1 1 1 0, Call.ResetDraw 2,
             Call.ResetPool 2, Call.vkQueueSubmit2 2 2 0 2 2 1 2, Call.vkQueuePresentKHR 2 0 2],
            [Call.vkAcquireNextImageKHR 0 2, Call.vkWaitSemaphores 2 1 2 0, Call.ResetDraw 0,
             Call.ResetPool 0, Call.vkQueueSubmit2 0 0 0 0 0 2 0, Call.vkQueuePresentKHR 0 0 0]] := by
  refine ⟨by decide, ?_, ?_⟩
  · decide!
  · decide!

/-- C26.  `CreateSurfaceInfo` sets `imageCount` to the least of `minImageCount + 1`
(in `U32` arithmetic), `maxImageCount` and `MaxSwapchainImages`.  It is at most
`MaxSwapchainImages` in every case, it is 0 whenever `maxImageCount` is 0, and
it is at least 1 exactly when each of the three numbers is. -/
theorem C26_image_count_is_the_minimum (D : Defines) (env : SurfaceInfoEnv) (s : Renderer) :
    (CreateSurfaceInfo D env s).2.imageCount =
      min (min (wrapU32 (env.capabilities.minImageCount + 1)) env.capabilities.maxImageCount)
        D.MaxSwapchainImages ∧
    (CreateSurfaceInfo D env s).2.imageCount ≤ D.MaxSwapchainImages ∧
    (env.capabilities.maxImageCount = 0 → (CreateSurfaceInfo D env s).2.imageCount = 0) ∧
    (1 ≤ (CreateSurfaceInfo D env s).2.imageCount ↔
      1 ≤ wrapU32 (env.capabilities.minImageCount + 1) ∧ 1 ≤ env.capabilities.maxImageCount ∧
        1 ≤ D.MaxSwapchainImages) := by
  have h : (CreateSurfaceInfo D env s).2.imageCount =
      min (min (wrapU32 (env.capabilities.minImageCount + 1)) env.capabilities.maxImageCount)
        D.MaxSwapchainImages := rfl
  rw [h]
  refine ⟨rfl, Nat.min_le_right _ _, ?_, ?_⟩
  · intro h0
    rw [h0]
    simp
  · omega

/-- C27, evaluated at a failing input.  One slot is live; the surface was
resized and the `vmaCreateImage` of the colour attachment fails, so that
`RecreateSwapchain` returns `false`.  The views 5 and 2 and the image 4 are then
both in the image queue and in the live attachments, and `Shutdown` passes each
of them to a release call twice: once in `DestroyObjects` and once in its loop
over the live attachments. -/
theorem C27_failed_rebuild_releases_twice :
    (RecreateSwapchain (Defines.standard 3) failedColorRebuild oneSlotRenderer).1 = false ∧
    (RecreateSwapchain (Defines.standard 3) failedColorRebuild oneSlotRenderer).2.texturesToDestroy =
      [{ image := 4, imageView := 5, allocation := 6 }, { image := 1, imageView := 2, allocation := 3 }] ∧
    ((RecreateSwapchain (Defines.standard 3) failedColorRebuild oneSlotRenderer).2.depthTextures 0) =
      { image := 4, imageView := 5, allocation := 6 } ∧
    ((RecreateSwapchain (Defines.standard 3) failedColorRebuild oneSlotRenderer).2.colorTextures 0) =
      { image := 0, imageView := 2, allocation := 0 } ∧
    (Shutdown (RecreateSwapchain (Defines.standard 3) failedColorRebuild oneSlotRenderer).2).calls =
      [Call.vmaCreateImage 0 0,
       Call.vkDestroyImageView 5, Call.vmaDestroyImage 4 6, Call.vkDestroyImageView 2, Call.vmaDestroyImage 1 3,
       Call.vkDestroyImageView 5, Call.vmaDestroyImage 4 6, Call.vkDestroyImageView 2, Call.vmaDestroyImage 0 0,
       Call.vkDestroyImageView 9, Call.vkDestroyFramebuffer 10, Call.vkDestroySwapchainKHR 7] ∧
    (Shutdown (RecreateSwapchain (Defines.standard 3) failedColorRebuild oneSlotRenderer).2).calls.count
      (Call.vkDestroyImageView 5) = 2 := by
  decide!

theorem mod_two_mul {x c : Nat} (h : x < 2 * c) : x % c = if x < c then x else x - c := by
  split_ifs with hlt
  · exact Nat.mod_eq_of_lt hlt
  · rw [Nat.mod_eq_sub_mod (by omega)]
    exact Nat.mod_eq_of_lt (by omega)

theorem decU64_eq {n : Nat} (h1 : 1 ≤ n) (h2 : n < 18446744073709551616) : decU64 n = n - 1 := by
  unfold decU64
  omega

theorem Deque.Full_eq {α : Type} {d : Deque α} {c : Nat} {l : List α} (h : d.Represents c l)
    (hc1 : 1 ≤ c) (hc2 : c < 18446744073709551616) : d.Full = decide (l.length = c) := by
  obtain ⟨hcap, hlen, hnil, hcons⟩ := h
  unfold Deque.Full
  rw [hcap]
  by_cases hl : l = []
  · obtain ⟨hf, hb⟩ := hnil hl
    have h0 : wrapU64 (U64_MAX + 1) = 0 := by decide
    have hne : ¬ (0 = U64_MAX) := by decide
    have hlc : ¬ (l.length = c) := by
      rw [hl]
      simp only [List.length_nil]
      omega
    rw [hb, hf, h0, Nat.zero_mod, decide_eq_false hne, decide_eq_false hlc]
  · obtain ⟨hf, hb, -⟩ := hcons hl
    have hpos : 1 ≤ l.length := Nat.one_le_iff_ne_zero.mpr (fun h0 => hl (List.length_eq_zero.mp h0))
    have hbl : d.back < c := by
      rw [hb]
      exact Nat.mod_lt _ (by omega)
    have hw : wrapU64 (d.back + 1) = d.back + 1 := by
      unfold wrapU64
      exact Nat.mod_eq_of_lt (by omega)
    rw [hw]
    have e1 := mod_two_mul (show d.front + (l.length - 1) < 2 * c by omega)
    have e2 := mod_two_mul (show d.back + 1 < 2 * c by omega)
    rw [e2]
    rw [e1] at hb
    by_cases hfull : l.length = c
    · rw [decide_eq_true hfull, decide_eq_true_eq]
      split_ifs at hb ⊢ <;> omega
    · rw [decide_eq_false hfull, decide_eq_false_iff_not]
      split_ifs at hb ⊢ <;> omega

theorem Deque.Empty_eq {α : Type} {d : Deque α} {c : Nat} {l : List α} (h : d.Represents c l)
    (hc2 : c < 18446744073709551616) : d.Empty = decide (l.length = 0) := by
  obtain ⟨hcap, hlen, hnil, hcons⟩ := h
  unfold Deque.Empty
  by_cases hl : l = []
  · have h0 : l.length = 0 := by rw [hl]; rfl
    rw [(hnil hl).1, decide_eq_true h0, decide_eq_true rfl]
  · have hf := (hcons hl).1
    have hne : ¬ d.front = U64_MAX := by
      unfold U64_MAX
      omega
    have h0 : ¬ l.length = 0 := fun h0 => hl (List.length_eq_zero.mp h0)
    rw [decide_eq_false h0, decide_eq_false hne]

theorem mod_pred_add {f k c : Nat} (hf : f < c) (hk : k < c) :
    ((if f = 0 then c - 1 else f - 1) + (k + 1)) % c = (f + k) % c := by
  rw [mod_two_mul (show (if f = 0 then c - 1 else f - 1) + (k + 1) < 2 * c by split_ifs <;> omega),
    mod_two_mul (show f + k < 2 * c by omega)]
  split_ifs <;> omega

theorem mod_succ_add {f k c : Nat} (hf : f < c) (hk : k < c) :
    ((if f = c - 1 then 0 else f + 1) + k) % c = (f + (k + 1)) % c := by
  rw [mod_two_mul (show (if f = c - 1 then 0 else f + 1) + k < 2 * c by split_ifs <;> omega),
    mod_two_mul (show f + (k + 1) < 2 * c by omega)]
  split_ifs <;> omega

theorem mod_add_ne {f j k c : Nat} (hf : f < c) (hjk : j < k) (hk : k < c) : (f + j) % c ≠ (f + k) % c := by
  rw [mod_two_mul (show f + j < 2 * c by omega), mod_two_mul (show f + k < 2 * c by omega)]
  split_ifs <;> omega

theorem mod_pred_eq {f c : Nat} (hf : f < c) : (if f = 0 then c - 1 else f - 1) = (f + (c - 1)) % c := by
  rw [mod_two_mul (show f + (c - 1) < 2 * c by omega)]
  split_ifs <;> omega

theorem mod_back_succ {f n c : Nat} (hf : f < c) (hn : n + 1 < c) :
    (if (f + n) % c = c - 1 then 0 else (f + n) % c + 1) = (f + (n + 1)) % c := by
  rw [mod_two_mul (show f + n < 2 * c by omega), mod_two_mul (show f + (n + 1) < 2 * c by omega)]
  split_ifs <;> omega

theorem mod_back_pred {f n c : Nat} (hf : f < c) (hn : n + 1 < c) :
    (if (f + (n + 1)) % c = 0 then c - 1 else (f + (n + 1)) % c - 1) = (f + n) % c := by
  rw [mod_two_mul (show f + n < 2 * c by omega), mod_two_mul (show f + (n + 1) < 2 * c by omega)]
  split_ifs <;> omega

theorem mod_span {f n c : Nat} (hf : f < c) (hn : n < c) : ((f + n) % c + c - f) % c = n := by
  rw [mod_two_mul (show f + n < 2 * c by omega)]
  split_ifs with h
  · rw [mod_two_mul (show f + n + c - f < 2 * c by omega)]
    split_ifs <;> omega
  · rw [mod_two_mul (show f + n - c + c - f < 2 * c by omega)]
    split_ifs <;> omega

theorem Deque.Represents_empty {α : Type} (c : Nat) (array : Nat → α) :
    Deque.Represents { capacity := c, array := array } c [] :=
  ⟨rfl, Nat.zero_le c, fun _ => ⟨rfl, rfl⟩, fun h => absurd rfl h⟩

theorem Deque.PushFront_represents {α : Type} {d : Deque α} {c : Nat} {l : List α} (h : d.Represents c l)
    (hc1 : 1 ≤ c) (hc2 : c < 18446744073709551616) (v : α) :
    (d.PushFront v).Represents c (BoundedList.PushFront c l v) := by
  have hfull := Deque.Full_eq h hc1 hc2
  obtain ⟨hcap, hlen, hnil, hcons⟩ := h
  unfold Deque.PushFront BoundedList.PushFront
  by_cases hlc : l.length = c
  · rw [hfull, decide_eq_true hlc, if_pos rfl, if_pos hlc]
    exact ⟨hcap, hlen, hnil, hcons⟩
  · rw [hfull, decide_eq_false hlc, if_neg (by simp), if_neg hlc]
    simp only []
    by_cases hl : l = []
    · obtain ⟨hf, -⟩ := hnil hl
      rw [if_pos hf]
      subst hl
      refine ⟨hcap, hc1, fun h => absurd h (List.cons_ne_nil _ _), fun _ => ⟨hc1, ?_, ?_⟩⟩
      · show 0 = (0 + 0) % c
        rw [Nat.add_zero, Nat.zero_mod]
      · intro k hk
        have hk0 : k = 0 := by simpa using hk
        subst hk0
        show [v][0]? = some (Function.update d.array 0 v ((0 + 0) % c))
        rw [Nat.add_zero, Nat.zero_mod, Function.update_same]
        rfl
    · obtain ⟨hf, hb, hel⟩ := hcons hl
      have hpos : 1 ≤ l.length := Nat.one_le_iff_ne_zero.mpr (fun h0 => hl (List.length_eq_zero.mp h0))
      have hne : ¬ d.front = U64_MAX := by
        unfold U64_MAX
        omega
      rw [if_neg hne, hcap]
      have hfr : (if d.front = 0 then decU64 c else decU64 d.front) = if d.front = 0 then c - 1 else d.front - 1 := by
        split_ifs with h0
        · exact decU64_eq hc1 hc2
        · exact decU64_eq (by omega) (by omega)
      rw [hfr]
      refine ⟨rfl, ?_, fun h => absurd h (List.cons_ne_nil _ _), fun _ => ⟨?_, ?_, ?_⟩⟩
      · show l.length + 1 ≤ c
        omega
      · show (if d.front = 0 then c - 1 else d.front - 1) < c
        split_ifs <;> omega
      · show d.back = ((if d.front = 0 then c - 1 else d.front - 1) + (l.length + 1 - 1)) % c
        have := mod_pred_add hf (show l.length - 1 < c by omega)
        rw [show l.length + 1 - 1 = l.length - 1 + 1 by omega, this]
        exact hb
      · intro k hk
        show (v :: l)[k]? = some (Function.update d.array (if d.front = 0 then c - 1 else d.front - 1) v
          (((if d.front = 0 then c - 1 else d.front - 1) + k) % c))
        have hk2 : k < l.length + 1 := hk
        cases k with
        | zero =>
          have hlt : (if d.front = 0 then c - 1 else d.front - 1) < c := by split_ifs <;> omega
          rw [Nat.add_zero, Nat.mod_eq_of_lt hlt, Function.update_same, List.getElem?_cons_zero]
        | succ k =>
          rw [List.getElem?_cons_succ, mod_pred_add hf (show k < c by omega), hel k (by omega)]
          have hne2 : (d.front + k) % c ≠ (if d.front = 0 then c - 1 else d.front - 1) := by
            rw [mod_pred_eq hf]
            exact mod_add_ne hf (by omega) (by omega)
          rw [Function.update_noteq hne2]

theorem Deque.PushBack_represents {α : Type} {d : Deque α} {c : Nat} {l : List α} (h : d.Represents c l)
    (hc1 : 1 ≤ c) (hc2 : c < 18446744073709551616) (v : α) :
    (d.PushBack v).Represents c (BoundedList.PushBack c l v) := by
  have hfull := Deque.Full_eq h hc1 hc2
  obtain ⟨hcap, hlen, hnil, hcons⟩ := h
  unfold Deque.PushBack BoundedList.PushBack
  by_cases hlc : l.length = c
  · rw [hfull, decide_eq_true hlc, if_pos rfl, if_pos hlc]
    exact ⟨hcap, hlen, hnil, hcons⟩
  · rw [hfull, decide_eq_false hlc, if_neg (by simp), if_neg hlc]
    simp only []
    by_cases hl : l = []
    · obtain ⟨-, hb⟩ := hnil hl
      rw [if_pos hb]
      subst hl
      refine ⟨hcap, hc1, fun h => absurd h (List.cons_ne_nil _ _), fun _ => ⟨hc1, ?_, ?_⟩⟩
      · show 0 = (0 + 0) % c
        rw [Nat.add_zero, Nat.zero_mod]
      · intro k hk
        have hk0 : k = 0 := by simpa using hk
        subst hk0
        show [v][0]? = some (Function.update d.array 0 v ((0 + 0) % c))
        rw [Nat.add_zero, Nat.zero_mod, Function.update_same]
        rfl
    · obtain ⟨hf, hb, hel⟩ := hcons hl
      have hpos : 1 ≤ l.length := Nat.one_le_iff_ne_zero.mpr (fun h0 => hl (List.length_eq_zero.mp h0))
      have hbl : d.back < c := by
        rw [hb]
        exact Nat.mod_lt _ (by omega)
      have hne : ¬ d.back = U64_MAX := by
        unfold U64_MAX
        omega
      rw [if_neg hne, hcap]
      have hw : wrapU64 (d.back + 1) = d.back + 1 := by
        unfold wrapU64
        exact Nat.mod_eq_of_lt (by omega)
      have hbk : (if d.back = decU64 c then 0 else wrapU64 (d.back + 1)) = (d.front + l.length) % c := by
        rw [decU64_eq hc1 hc2, hw, hb]
        have := mod_back_succ hf (show l.length - 1 + 1 < c by omega)
        rw [show l.length - 1 + 1 = l.length by omega] at this
        exact this
      rw [hbk]
      refine ⟨rfl, ?_, fun h => absurd h (by simp), fun _ => ⟨hf, ?_, ?_⟩⟩
      · show (l ++ [v]).length ≤ c
        rw [List.length_append]
        show l.length + 1 ≤ c
        omega
      · show (d.front + l.length) % c = (d.front + ((l ++ [v]).length - 1)) % c
        rw [List.length_append]
        rfl
      · intro k hk
        show (l ++ [v])[k]? = some (Function.update d.array ((d.front + l.length) % c) v ((d.front + k) % c))
        have hk2 : k < l.length + 1 := by
          rw [List.length_append] at hk
          exact hk
        by_cases hkl : k < l.length
        · rw [List.getElem?_append_left hkl, hel k hkl,
            Function.update_noteq (mod_add_ne hf hkl (by omega))]
        · have hke : k = l.length := by omega
          subst hke
          rw [List.getElem?_append_right (Nat.le_refl _), Nat.sub_self, Function.update_same]
          rfl

theorem Deque.PopFrontDiscard_represents {α : Type} {d : Deque α} {c : Nat} {l : List α}
    (h : d.Represents c l) (hc1 : 1 ≤ c) (hc2 : c < 18446744073709551616) :
    d.PopFrontDiscard.Represents c l.tail := by
  have hempty := Deque.Empty_eq h hc2
  obtain ⟨hcap, hlen, hnil, hcons⟩ := h
  unfold Deque.PopFrontDiscard
  cases l with
  | nil =>
    have he : d.Empty = true := by rw [hempty]; rfl
    rw [he, if_pos rfl]
    exact ⟨hcap, hlen, hnil, hcons⟩
  | cons x rest =>
    have hl0 : ¬ (x :: rest).length = 0 := by simp
    obtain ⟨hf, hb, hel⟩ := hcons (by simp)
    rw [hempty, decide_eq_false hl0, if_neg (by simp)]
    simp only [List.length_cons, Nat.add_sub_cancel, List.tail_cons] at hb hlen hel ⊢
    by_cases hr : rest = []
    · subst hr
      have hfb : d.front = d.back := by
        rw [hb]
        show d.front = (d.front + 0) % c
        rw [Nat.add_zero, Nat.mod_eq_of_lt hf]
      rw [if_pos hfb]
      exact ⟨hcap, Nat.zero_le c, fun _ => ⟨rfl, rfl⟩, fun h => absurd rfl h⟩
    · have hpos : 1 ≤ rest.length := Nat.one_le_iff_ne_zero.mpr (fun h0 => hr (List.length_eq_zero.mp h0))
      have hfb : ¬ d.front = d.back := by
        rw [hb]
        have := mod_add_ne hf (show 0 < rest.length by omega) (show rest.length < c by omega)
        rw [Nat.add_zero, Nat.mod_eq_of_lt hf] at this
        exact this
      rw [if_neg hfb, hcap]
      have hw : wrapU64 (d.front + 1) = d.front + 1 := by
        unfold wrapU64
        exact Nat.mod_eq_of_lt (by omega)
      rw [decU64_eq hc1 hc2, hw]
      refine ⟨rfl, by omega, fun h => absurd h hr, fun _ => ⟨?_, ?_, ?_⟩⟩
      · show (if d.front = c - 1 then 0 else d.front + 1) < c
        split_ifs <;> omega
      · show d.back = ((if d.front = c - 1 then 0 else d.front + 1) + (rest.length - 1)) % c
        rw [mod_succ_add hf (show rest.length - 1 < c by omega), show rest.length - 1 + 1 = rest.length by omega]
        exact hb
      · intro k hk
        show rest[k]? = some (d.array (((if d.front = c - 1 then 0 else d.front + 1) + k) % c))
        rw [mod_succ_add hf (show k < c by omega), ← hel (k + 1) (by omega), List.getElem?_cons_succ]

theorem Deque.PopBackDiscard_represents {α : Type} {d : Deque α} {c : Nat} {l : List α}
    (h : d.Represents c l) (hc1 : 1 ≤ c) (hc2 : c < 18446744073709551616) :
    d.PopBackDiscard.Represents c l.dropLast := by
  have hempty := Deque.Empty_eq h hc2
  obtain ⟨hcap, hlen, hnil, hcons⟩ := h
  unfold Deque.PopBackDiscard
  by_cases hl : l = []
  · subst hl
    have he : d.Empty = true := by rw [hempty]; rfl
    rw [he, if_pos rfl]
    exact ⟨hcap, hlen, hnil, hcons⟩
  · have hl0 : ¬ l.length = 0 := fun h0 => hl (List.length_eq_zero.mp h0)
    obtain ⟨hf, hb, hel⟩ := hcons hl
    rw [hempty, decide_eq_false hl0, if_neg (by simp)]
    simp only []
    by_cases hone : l.length = 1
    · have hfb : d.front = d.back := by
        rw [hb, hone]
        show d.front = (d.front + 0) % c
        rw [Nat.add_zero, Nat.mod_eq_of_lt hf]
      have hdl : l.dropLast = [] := List.length_eq_zero.mp (by rw [List.length_dropLast, hone])
      rw [if_pos hfb, hdl]
      exact ⟨hcap, Nat.zero_le c, fun _ => ⟨rfl, rfl⟩, fun h => absurd rfl h⟩
    · have hfb : ¬ d.front = d.back := by
        rw [hb]
        have := mod_add_ne hf (show 0 < l.length - 1 by omega) (show l.length - 1 < c by omega)
        rw [Nat.add_zero, Nat.mod_eq_of_lt hf] at this
        exact this
      have hbl : d.back < c := by
        rw [hb]
        exact Nat.mod_lt _ (by omega)
      rw [if_neg hfb, hcap]
      have hbk : (if d.back = 0 then decU64 c else decU64 d.back) = (d.front + (l.length - 2)) % c := by
        have e : (if d.back = 0 then decU64 c else decU64 d.back) = if d.back = 0 then c - 1 else d.back - 1 := by
          split_ifs with h0
          · exact decU64_eq hc1 hc2
          · exact decU64_eq (by omega) (by omega)
        rw [e, hb]
        have := mod_back_pred hf (show l.length - 2 + 1 < c by omega)
        rw [show l.length - 2 + 1 = l.length - 1 by omega] at this
        exact this
      rw [hbk]
      have hdne : l.dropLast ≠ [] := by
        intro h0
        have := congrArg List.length h0
        rw [List.length_dropLast] at this
        simp only [List.length_nil] at this
        omega
      refine ⟨rfl, ?_, fun h => absurd h hdne, fun _ => ⟨hf, ?_, ?_⟩⟩
      · rw [List.length_dropLast]
        omega
      · show (d.front + (l.length - 2)) % c = (d.front + (l.dropLast.length - 1)) % c
        rw [List.length_dropLast]
        rfl
      · intro k hk
        rw [List.length_dropLast] at hk
        show l.dropLast[k]? = some (d.array ((d.front + k) % c))
        rw [List.getElem?_dropLast, if_pos hk, hel k (by omega)]

theorem Deque.PopFront_state {α : Type} (d : Deque α) (v : α) : (d.PopFront v).2.2 = d.PopFrontDiscard := by
  unfold Deque.PopFront Deque.PopFrontDiscard
  simp only []
  split_ifs <;> rfl

theorem Deque.PopBack_state {α : Type} (d : Deque α) (v : α) : (d.PopBack v).2.2 = d.PopBackDiscard := by
  unfold Deque.PopBack Deque.PopBackDiscard
  simp only []
  split_ifs <;> rfl

theorem BoundedList.PopFront_list {α : Type} (l : List α) (v : α) : (BoundedList.PopFront l v).2.2 = l.tail := by
  cases l <;> rfl

theorem BoundedList.PopBack_list {α : Type} (l : List α) (v : α) :
    (BoundedList.PopBack l v).2.2 = l.dropLast := by
  unfold BoundedList.PopBack
  cases hlast : l.getLast? with
  | none =>
    have hl : l = [] := List.getLast?_eq_none_iff.mp hlast
    subst hl
    rfl
  | some last => rfl

theorem Deque.PopFront_result {α : Type} {d : Deque α} {c : Nat} {l : List α} (h : d.Represents c l)
    (hc2 : c < 18446744073709551616) (v : α) :
    (d.PopFront v).1 = (BoundedList.PopFront l v).1 ∧ (d.PopFront v).2.1 = (BoundedList.PopFront l v).2.1 := by
  have hempty := Deque.Empty_eq h hc2
  obtain ⟨hcap, hlen, hnil, hcons⟩ := h
  unfold Deque.PopFront
  cases l with
  | nil =>
    have he : d.Empty = true := by rw [hempty]; rfl
    rw [he, if_pos rfl]
    exact ⟨rfl, rfl⟩
  | cons x rest =>
    have hl0 : ¬ (x :: rest).length = 0 := by simp
    obtain ⟨hf, -, hel⟩ := hcons (by simp)
    have h0 := hel 0 (by simp)
    rw [List.getElem?_cons_zero, Nat.add_zero, Nat.mod_eq_of_lt hf] at h0
    have hx : d.array d.front = x := (Option.some.inj h0).symm
    rw [hempty, decide_eq_false hl0, if_neg (by simp)]
    simp only []
    split_ifs <;> exact ⟨rfl, hx⟩

theorem Deque.PopBack_result {α : Type} {d : Deque α} {c : Nat} {l : List α} (h : d.Represents c l)
    (hc2 : c < 18446744073709551616) (v : α) :
    (d.PopBack v).1 = (BoundedList.PopBack l v).1 ∧ (d.PopBack v).2.1 = (BoundedList.PopBack l v).2.1 := by
  have hempty := Deque.Empty_eq h hc2
  obtain ⟨hcap, hlen, hnil, hcons⟩ := h
  unfold Deque.PopBack BoundedList.PopBack
  by_cases hl : l = []
  · subst hl
    have he : d.Empty = true := by rw [hempty]; rfl
    rw [he, if_pos rfl]
    exact ⟨rfl, rfl⟩
  · have hl0 : ¬ l.length = 0 := fun h0 => hl (List.length_eq_zero.mp h0)
    obtain ⟨hf, hb, hel⟩ := hcons hl
    have hlast : l.getLast? = some (d.array d.back) := by
      rw [List.getLast?_eq_getElem?, hel (l.length - 1) (by omega), hb]
    rw [hempty, decide_eq_false hl0, if_neg (by simp), hlast]
    simp only []
    split_ifs <;> exact ⟨rfl, rfl⟩

theorem Deque.call_represents {α : Type} {d : Deque α} {c : Nat} {l : List α} (h : d.Represents c l)
    (hc1 : 1 ≤ c) (hc2 : c < 18446744073709551616) (call : DequeCall α) :
    (d.call call).Represents c (BoundedList.call c l call) := by
  cases call with
  | PushFront v => exact Deque.PushFront_represents h hc1 hc2 v
  | PushBack v => exact Deque.PushBack_represents h hc1 hc2 v
  | PopFront v =>
    show (d.PopFront v).2.2.Represents c (BoundedList.PopFront l v).2.2
    rw [Deque.PopFront_state, BoundedList.PopFront_list]
    exact Deque.PopFrontDiscard_represents h hc1 hc2
  | PopBack v =>
    show (d.PopBack v).2.2.Represents c (BoundedList.PopBack l v).2.2
    rw [Deque.PopBack_state, BoundedList.PopBack_list]
    exact Deque.PopBackDiscard_represents h hc1 hc2
  | PopFrontDiscard => exact Deque.PopFrontDiscard_represents h hc1 hc2
  | PopBackDiscard => exact Deque.PopBackDiscard_represents h hc1 hc2
  | Clear => exact ⟨h.1, Nat.zero_le c, fun _ => ⟨rfl, rfl⟩, fun hn => absurd rfl hn⟩

theorem Deque.foldl_represents {α : Type} {c : Nat} (hc1 : 1 ≤ c) (hc2 : c < 18446744073709551616) :
    ∀ (calls : List (DequeCall α)) (d : Deque α) (l : List α), d.Represents c l →
      (calls.foldl Deque.call d).Represents c (calls.foldl (BoundedList.call c) l)
  | [], _, _, h => h
  | call :: calls, d, l, h => by
    rw [List.foldl_cons, List.foldl_cons]
    exact Deque.foldl_represents hc1 hc2 calls _ _ (Deque.call_represents h hc1 hc2 call)

/-- Every deque made of the empty deque by calls represents the abstract list
made of the empty list by the same calls. -/
theorem Deque.after_represents {α : Type} {c : Nat} (hc1 : 1 ≤ c) (hc2 : c < 18446744073709551616)
    (array : Nat → α) (calls : List (DequeCall α)) :
    (Deque.after c array calls).Represents c (BoundedList.after c calls) :=
  Deque.foldl_represents hc1 hc2 calls _ _ (Deque.Represents_empty c array)

theorem Deque.contents_eq {α : Type} {d : Deque α} {c : Nat} {l : List α} (h : d.Represents c l)
    (hc2 : c < 18446744073709551616) : d.contents = l := by
  obtain ⟨hcap, hlen, hnil, hcons⟩ := h
  unfold Deque.contents
  by_cases hl : l = []
  · rw [if_pos (hnil hl).1, hl]
  · obtain ⟨hf, hb, hel⟩ := hcons hl
    have hpos : 1 ≤ l.length := Nat.one_le_iff_ne_zero.mpr (fun h0 => hl (List.length_eq_zero.mp h0))
    have hne : ¬ d.front = U64_MAX := by
      unfold U64_MAX
      omega
    rw [if_neg hne, hcap, hb, mod_span hf (show l.length - 1 < c by omega),
      show l.length - 1 + 1 = l.length by omega]
    apply List.ext_getElem?
    intro k
    rw [List.getElem?_map]
    by_cases hk : k < l.length
    · rw [List.getElem?_range hk, hel k hk]
      rfl
    · rw [List.getElem?_eq_none (by rw [List.length_range]; omega), List.getElem?_eq_none (by omega)]
      rfl

theorem Deque.Front_Back_eq {α : Type} {d : Deque α} {c : Nat} {l : List α} (h : d.Represents c l)
    (hl : l ≠ []) : l.head? = some d.Front ∧ l.getLast? = some d.Back := by
  obtain ⟨hcap, hlen, hnil, hcons⟩ := h
  obtain ⟨hf, hb, hel⟩ := hcons hl
  have hpos : 1 ≤ l.length := Nat.one_le_iff_ne_zero.mpr (fun h0 => hl (List.length_eq_zero.mp h0))
  constructor
  · rw [List.head?_eq_getElem?, hel 0 (by omega), Nat.add_zero, Nat.mod_eq_of_lt hf]
    rfl
  · rw [List.getLast?_eq_getElem?, hel (l.length - 1) (by omega), ← hb]
    rfl

/-- C28.  Let a deque of capacity `c`, with `1 ≤ c < 2^64`, be made of the empty
deque by any sequence of calls, and let the abstract list be made of the empty
list by the same calls.  The elements stored from `front` to `back`, read
circularly, are the list.  A push leaves the elements that the push on the
bounded list leaves, and on a list of length `c` it leaves the whole deque as
it was.  `PopFront(value)` and `PopBack(value)` return what the pops of the list
return and leave its elements; on the empty list they return `false` and leave
`value` and the deque as they were.  On a non-empty list `Front()` and `Back()` are
the first and the last element. -/
theorem C28_deque_refines_bounded_list {α : Type} (c : Nat) (hc1 : 1 ≤ c) (hc2 : c < 18446744073709551616)
    (array : Nat → α) (calls : List (DequeCall α)) :
    (Deque.after c array calls).contents = BoundedList.after c calls ∧
    (∀ v, ((Deque.after c array calls).PushFront v).contents =
      BoundedList.PushFront c (BoundedList.after c calls) v) ∧
    (∀ v, ((Deque.after c array calls).PushBack v).contents =
      BoundedList.PushBack c (BoundedList.after c calls) v) ∧
    ((BoundedList.after c calls).length = c → ∀ v,
      (Deque.after c array calls).PushFront v = Deque.after c array calls ∧
      (Deque.after c array calls).PushBack v = Deque.after c array calls) ∧
    (∀ v, ((Deque.after c array calls).PopFront v).1 = (BoundedList.PopFront (BoundedList.after c calls) v).1 ∧
      ((Deque.after c array calls).PopFront v).2.1 = (BoundedList.PopFront (BoundedList.after c calls) v).2.1 ∧
      ((Deque.after c array calls).PopFront v).2.2.contents =
        (BoundedList.PopFront (BoundedList.after c calls) v).2.2) ∧
    (∀ v, ((Deque.after c array calls).PopBack v).1 = (BoundedList.PopBack (BoundedList.after c calls) v).1 ∧
      ((Deque.after c array calls).PopBack v).2.1 = (BoundedList.PopBack (BoundedList.after c calls) v).2.1 ∧
      ((Deque.after c array calls).PopBack v).2.2.contents =
        (BoundedList.PopBack (BoundedList.after c calls) v).2.2) ∧
    (BoundedList.after c calls = [] → ∀ v,
      (Deque.after c array calls).PopFront v = (false, v, Deque.after c array calls) ∧
      (Deque.after c array calls).PopBack v = (false, v, Deque.after c array calls)) ∧
    (BoundedList.after c calls ≠ [] →
      (BoundedList.after c calls).head? = some (Deque.after c array calls).Front ∧
      (BoundedList.after c calls).getLast? = some (Deque.after c array calls).Back) := by
  have h := Deque.after_represents hc1 hc2 array calls
  refine ⟨Deque.contents_eq h hc2, ?_, ?_, ?_, ?_, ?_, ?_, Deque.Front_Back_eq h⟩
  · intro v
    exact Deque.contents_eq (Deque.PushFront_represents h hc1 hc2 v) hc2
  · intro v
    exact Deque.contents_eq (Deque.PushBack_represents h hc1 hc2 v) hc2
  · intro hfull v
    have hf : (Deque.after c array calls).Full = true := by
      rw [Deque.Full_eq h hc1 hc2, decide_eq_true hfull]
    unfold Deque.PushFront Deque.PushBack
    rw [if_pos hf, if_pos hf]
    exact ⟨rfl, rfl⟩
  · intro v
    obtain ⟨r1, r2⟩ := Deque.PopFront_result h hc2 v
    refine ⟨r1, r2, ?_⟩
    have := Deque.call_represents h hc1 hc2 (DequeCall.PopFront v)
    exact Deque.contents_eq this hc2
  · intro v
    obtain ⟨r1, r2⟩ := Deque.PopBack_result h hc2 v
    refine ⟨r1, r2, ?_⟩
    have := Deque.call_represents h hc1 hc2 (DequeCall.PopBack v)
    exact Deque.contents_eq this hc2
  · intro hnil v
    have he : (Deque.after c array calls).Empty = true := by
      rw [Deque.Empty_eq h hc2, hnil]
      rfl
    unfold Deque.PopFront Deque.PopBack
    rw [if_pos he, if_pos he]
    exact ⟨rfl, rfl⟩

/-- C28, witness: capacity 3 and calls that wrap around the end of the storage. -/
theorem C28_deque_refines_bounded_list_witness :
    (Deque.after 3 (fun _ => 0) wrappingCalls).contents = BoundedList.after 3 wrappingCalls ∧
    (∀ v, ((Deque.after 3 (fun _ => 0) wrappingCalls).PushFront v).contents =
      BoundedList.PushFront 3 (BoundedList.after 3 wrappingCalls) v) ∧
    (∀ v, ((Deque.after 3 (fun _ => 0) wrappingCalls).PushBack v).contents =
      BoundedList.PushBack 3 (BoundedList.after 3 wrappingCalls) v) ∧
    ((BoundedList.after 3 wrappingCalls).length = 3 → ∀ v,
      (Deque.after 3 (fun _ => 0) wrappingCalls).PushFront v = Deque.after 3 (fun _ => 0) wrappingCalls ∧
      (Deque.after 3 (fun _ => 0) wrappingCalls).PushBack v = Deque.after 3 (fun _ => 0) wrappingCalls) ∧
    (∀ v, ((Deque.after 3 (fun _ => 0) wrappingCalls).PopFront v).1 =
        (BoundedList.PopFront (BoundedList.after 3 wrappingCalls) v).1 ∧
      ((Deque.after 3 (fun _ => 0) wrappingCalls).PopFront v).2.1 =
        (BoundedList.PopFront (BoundedList.after 3 wrappingCalls) v).2.1 ∧
      ((Deque.after 3 (fun _ => 0) wrappingCalls).PopFront v).2.2.contents =
        (BoundedList.PopFront (BoundedList.after 3 wrappingCalls) v).2.2) ∧
    (∀ v, ((Deque.after 3 (fun _ => 0) wrappingCalls).PopBack v).1 =
        (BoundedList.PopBack (BoundedList.after 3 wrappingCalls) v).1 ∧
      ((Deque.after 3 (fun _ => 0) wrappingCalls).PopBack v).2.1 =
        (BoundedList.PopBack (BoundedList.after 3 wrappingCalls) v).2.1 ∧
      ((Deque.after 3 (fun _ => 0) wrappingCalls).PopBack v).2.2.contents =
        (BoundedList.PopBack (BoundedList.after 3 wrappingCalls) v).2.2) ∧
    (BoundedList.after 3 wrappingCalls = [] → ∀ v,
      (Deque.after 3 (fun _ => 0) wrappingCalls).PopFront v =
        (false, v, Deque.after 3 (fun _ => 0) wrappingCalls) ∧
      (Deque.after 3 (fun _ => 0) wrappingCalls).PopBack v =
        (false, v, Deque.after 3 (fun _ => 0) wrappingCalls)) ∧
    (BoundedList.after 3 wrappingCalls ≠ [] →
      (BoundedList.after 3 wrappingCalls).head? = some (Deque.after 3 (fun _ => 0) wrappingCalls).Front ∧
      (BoundedList.after 3 wrappingCalls).getLast? = some (Deque.after 3 (fun _ => 0) wrappingCalls).Back) :=
  C28_deque_refines_bounded_list 3 (by decide) (by decide) (fun _ => 0) wrappingCalls

/-- C29, evaluated at a failing input.  `Clear()` leaves `Size()` as it was, for
every deque, while `Empty()` is `true` after it.  With capacity 1, after
`PushBack(7)` and `Clear()` the deque is empty and stores nothing but `Size()`
is 1; after one more `PushBack(8)` it stores one element and `Size()` is 2,
above `Capacity()`. -/
theorem C29_clear_leaves_size :
    (∀ d : Deque Nat, d.Clear.Size = d.Size ∧ d.Clear.Empty = true) ∧
    (Deque.after 1 (fun _ => 0) [DequeCall.PushBack 7, DequeCall.Clear]).Size = 1 ∧
    (Deque.after 1 (fun _ => 0) [DequeCall.PushBack 7, DequeCall.Clear]).Empty = true ∧
    (Deque.after 1 (fun _ => 0) [DequeCall.PushBack 7, DequeCall.Clear]).contents = [] ∧
    (Deque.after 1 (fun _ => 0) [DequeCall.PushBack 7, DequeCall.Clear, DequeCall.PushBack 8]).Size = 2 ∧
    (Deque.after 1 (fun _ => 0) [DequeCall.PushBack 7, DequeCall.Clear, DequeCall.PushBack 8]).Capacity = 1 ∧
    (Deque.after 1 (fun _ => 0) [DequeCall.PushBack 7, DequeCall.Clear, DequeCall.PushBack 8]).contents = [8] := by
  refine ⟨fun d => ⟨rfl, ?_⟩, ?_, ?_, ?_, ?_, ?_, ?_⟩
  · unfold Deque.Empty Deque.Clear
    exact decide_eq_true rfl
  · decide!
  · decide!
  · decide!
  · decide!
  · decide!
  · decide!

/-- C30.  For every deque of capacity `c`, with `1 ≤ c < 2^64`, made of the empty
deque by any sequence of calls, `Full()` is `true` if and only if the number of
stored elements is `Capacity()`; on the empty deque `back` is `U64_MAX`, `back + 1`
is 0 in `U64` arithmetic, and `Full()` is `false`. -/
theorem C30_full_iff_count_is_capacity {α : Type} (c : Nat) (hc1 : 1 ≤ c) (hc2 : c < 18446744073709551616)
    (array : Nat → α) (calls : List (DequeCall α)) :
    ((Deque.after c array calls).Full = true ↔
      (Deque.after c array calls).contents.length = (Deque.after c array calls).Capacity) ∧
    (Deque.after c array []).back = U64_MAX ∧
    wrapU64 ((Deque.after c array []).back + 1) = 0 ∧
    (Deque.after c array []).Full = false := by
  have h := Deque.after_represents hc1 hc2 array calls
  have h0 := Deque.after_represents hc1 hc2 array []
  refine ⟨?_, rfl, ?_, ?_⟩
  · rw [Deque.Full_eq h hc1 hc2, Deque.contents_eq h hc2, decide_eq_true_eq]
    show _ ↔ _ = (Deque.after c array calls).capacity
    rw [h.1]
  · show wrapU64 (U64_MAX + 1) = 0
    decide
  · rw [Deque.Full_eq h0 hc1 hc2, decide_eq_false_iff_not]
    show ¬ (0 = c)
    omega

/-- C30, witness: capacity 3 and calls that wrap around the end of the storage. -/
theorem C30_full_iff_count_is_capacity_witness :
    ((Deque.after 3 (fun _ => 0) wrappingCalls).Full = true ↔
      (Deque.after 3 (fun _ => 0) wrappingCalls).contents.length =
        (Deque.after 3 (fun _ => 0) wrappingCalls).Capacity) ∧
    (Deque.after 3 (fun _ => (0 : Nat)) []).back = U64_MAX ∧
    wrapU64 ((Deque.after 3 (fun _ => (0 : Nat)) []).back + 1) = 0 ∧
    (Deque.after 3 (fun _ => (0 : Nat)) []).Full = false :=
  C30_full_iff_count_is_capacity 3 (by decide) (by decide) (fun _ => 0) wrappingCalls

end Nihility
